import Mathlib

/-!
# SmartScreenClient: construction, connection, request dispatch and teardown

A shallow embedding of the member functions of `SmartScreenClient`
(`SmartScreenClient.cpp`) that drive the connection (`connect`, `disconnect`)
and route voice-interaction triggers (`notifyOfWakeWord`, `notifyOfTapToTalk`,
`notifyOfHoldToTalkStart`, `notifyOfHoldToTalkEnd`, `notifyOfTapToTalkEnd`).

The collaborators of the client (connection manager, endpoint registration
manager, gateway manager, focus manager, audio input processor, default
endpoint builder) are classes of the AVS Device SDK.  They are black boxes
here: every call the client makes on one of them is recorded, in order, in a
call trace, and the value a collaborator hands back is read from a
`Collaborators` record.  A member that is a null pointer cannot be called
through: doing so is undefined behaviour, and the embedding has no result
there (`none`).

Construction (`create`, `initialize`) and the destructor are embedded as lists
of statements in source order, run by a small interpreter over the set of
members that are non-null; the answers of the factories are read from a
`Factories` record, and everything that happens is recorded as an event.
`forceExit`, `onFocusChanged` and `setFirmwareVersion` are embedded over the
same state.  Concurrent calls of `connect` are embedded as threads that take
the steps of `connect` one at a time, in the order a schedule gives.
-/

namespace alexaSmartScreenSDK

/-! ## Values passed through the client -/

/-- An object held through a (shared) pointer.  Only its identity matters. -/
structure Component where
  id : Nat
deriving DecidableEq, Repr

/-- The `capabilityAgents::aip::Initiator` values the client uses. -/
inductive Initiator where
  | PRESS_AND_HOLD
  | TAP
  | WAKEWORD
deriving DecidableEq, Repr

/-- A `capabilityAgents::aip::AudioProvider`, passed by value and never inspected. -/
structure AudioProvider where
  stream : Nat
  alwaysReadable : Bool
  canOverride : Bool
  canBeOverridden : Bool
deriving DecidableEq, Repr

/-- An `avsCommon::avs::AudioInputStream::Index`. -/
abbrev Index := Nat

/-- A `std::chrono::steady_clock::time_point`, as a tick count. -/
abbrev time_point := Nat

/-- A `std::shared_ptr<const std::vector<char>>`: null, or the bytes pointed to. -/
abbrev KWDMetadata := Option (List Char)

/-- The endpoint descriptor produced by `buildDefaultEndpoint`. -/
structure Endpoint where
  endpointId : Nat
deriving DecidableEq, Repr

/-- Modelled from the spec: the enumerators of
`EndpointRegistrationManager::RegistrationResult` are declared outside this
source file; the data model gives a registration result as SUCCEEDED or a
failure with a reason. -/
inductive RegistrationResult where
  | SUCCEEDED
  | FAILED (reason : Nat)
deriving DecidableEq, Repr

/-- The `std::future_status` a wait on a future reports. -/
inductive future_status where
  | ready
  | timeout
  | deferred
deriving DecidableEq, Repr

/-- A `std::future<α>` as the client can observe it: `status` is what a
zero-duration `wait_for` reports, `value` is what `get()` yields once the
future is resolved. -/
structure future (α : Type) where
  status : future_status
  value : α
deriving DecidableEq, Repr

/-- The future of a `std::promise` on which `set_value v` has been called. -/
def promise_set_value {α : Type} (v : α) : future α :=
  { status := future_status.ready, value := v }

/-- The arguments of one `AudioInputProcessor::recognize` call.  The provider,
the initiator and the timestamp are passed by every caller; an argument a
caller leaves to the callee's declared default is `none`. -/
structure RecognizeArgs where
  audioProvider : AudioProvider
  initiator : Initiator
  startOfSpeechTimestamp : time_point
  begin : Option Index
  keywordEndIndex : Option Index
  keyword : Option String
  KWDMetadata : Option KWDMetadata
deriving DecidableEq, Repr

/-! ## Collaborator calls -/

/-- The member functions the client calls on its collaborators. -/
inductive Method where
  | isConnected
  | enable
  | disable
  | stopForegroundActivity
  | recognize (args : RecognizeArgs)
  | stopCapture
  | buildDefaultEndpoint
  | registerEndpoint (endpoint : Endpoint)
  | waitForPendingRegistrationsToEnqueue
  | setAVSGatewayAssigner (avsGatewayAssigner : Option Component)
deriving DecidableEq, Repr

/-- One recorded call: the object called and the member function with its arguments. -/
structure Call where
  receiver : Component
  method : Method
deriving DecidableEq, Repr

/-- What the collaborators answer during one member-function call, together
with the two facts of the SDK build the code depends on. -/
structure Collaborators where
  /-- whether `ACSDK_DEBUG5` statements are compiled in and evaluate their arguments -/
  debug5 : Bool
  /-- the constant `AudioInputProcessor::KEYWORD_TEXT_STOP` -/
  KEYWORD_TEXT_STOP : String
  /-- the answer of `m_connectionManager->isConnected()` -/
  isConnected : Bool
  /-- the future `m_audioInputProcessor->recognize(...)` returns for given arguments -/
  recognize : RecognizeArgs → future Bool
  /-- the future `m_audioInputProcessor->stopCapture()` returns -/
  stopCapture : future Bool
  /-- the endpoint `m_defaultEndpointBuilder->buildDefaultEndpoint()` returns, if any -/
  buildDefaultEndpoint : Option Endpoint
  /-- the future `m_endpointManager->registerEndpoint(...)` returns for a given endpoint -/
  registerEndpoint : Endpoint → future RegistrationResult

/-! ## The client -/

/-- The members of `SmartScreenClient` the embedded functions use.  Each is a
pointer that may be null. -/
structure SmartScreenClient where
  m_connectionManager : Option Component
  m_endpointManager : Option Component
  m_avsGatewayManager : Option Component
  m_audioFocusManager : Option Component
  m_audioInputProcessor : Option Component
  m_defaultEndpointBuilder : Option Component
deriving DecidableEq, Repr

/-- The members `initialize` leaves non-null whenever it returns true (and so
on every instance `create` returns): the gateway manager is a validated
input, the focus manager comes from `make_shared`, and the creation of the
connection manager, the endpoint registration manager and the audio input
processor is checked. -/
def SmartScreenClient.initialized (c : SmartScreenClient) : Bool :=
  c.m_connectionManager.isSome && c.m_endpointManager.isSome && c.m_avsGatewayManager.isSome &&
    c.m_audioFocusManager.isSome && c.m_audioInputProcessor.isSome

/-- The client together with the calls it has issued so far, oldest first. -/
structure Machine where
  self : SmartScreenClient
  calls : List Call
deriving DecidableEq, Repr

/-- A member function: it may change the client, issues calls, and has no
result when it calls through a null member. -/
abbrev Exec := StateT Machine Option

/-- Call `method` through the member `member`. -/
def invoke (member : SmartScreenClient → Option Component) (method : Method) : Exec Unit :=
  fun m =>
    match member m.self with
    | none => none
    | some receiver => some ((), { m with calls := m.calls ++ [{ receiver := receiver, method := method }] })

/-- Read a member. -/
def member {α : Type} (field : SmartScreenClient → α) : Exec α :=
  fun m => some (field m.self, m)

/-- Member function `SmartScreenClient::stopForegroundActivity`. -/
def stopForegroundActivity : Exec Unit :=
  invoke (fun c => c.m_audioFocusManager) Method.stopForegroundActivity

/-- Member function `SmartScreenClient::notifyOfWakeWord`. -/
def notifyOfWakeWord (env : Collaborators) (wakeWordAudioProvider : AudioProvider)
    (beginIndex endIndex : Index) (keyword : String) (startOfSpeechTimestamp : time_point)
    (KWDMetadata : KWDMetadata) : Exec (future Bool) := do
  -- ACSDK_DEBUG5(LX(__func__).d("keyword", keyword).d("connected", m_connectionManager->isConnected()))
  if env.debug5 then
    invoke (fun c => c.m_connectionManager) Method.isConnected
  invoke (fun c => c.m_connectionManager) Method.isConnected
  if !env.isConnected then
    if env.KEYWORD_TEXT_STOP = keyword then
      stopForegroundActivity
      return promise_set_value true
    else
      return promise_set_value false
  let args : RecognizeArgs :=
    { audioProvider := wakeWordAudioProvider
      initiator := Initiator.WAKEWORD
      startOfSpeechTimestamp := startOfSpeechTimestamp
      begin := some beginIndex
      keywordEndIndex := some endIndex
      keyword := some keyword
      KWDMetadata := some KWDMetadata }
  invoke (fun c => c.m_audioInputProcessor) (Method.recognize args)
  return env.recognize args

/-- Member function `SmartScreenClient::notifyOfTapToTalk`. -/
def notifyOfTapToTalk (env : Collaborators) (tapToTalkAudioProvider : AudioProvider)
    (beginIndex : Index) (startOfSpeechTimestamp : time_point) : Exec (future Bool) := do
  let args : RecognizeArgs :=
    { audioProvider := tapToTalkAudioProvider
      initiator := Initiator.TAP
      startOfSpeechTimestamp := startOfSpeechTimestamp
      begin := some beginIndex
      keywordEndIndex := none
      keyword := none
      KWDMetadata := none }
  invoke (fun c => c.m_audioInputProcessor) (Method.recognize args)
  return env.recognize args

/-- Member function `SmartScreenClient::notifyOfHoldToTalkStart`. -/
def notifyOfHoldToTalkStart (env : Collaborators) (holdToTalkAudioProvider : AudioProvider)
    (startOfSpeechTimestamp : time_point) : Exec (future Bool) := do
  let args : RecognizeArgs :=
    { audioProvider := holdToTalkAudioProvider
      initiator := Initiator.PRESS_AND_HOLD
      startOfSpeechTimestamp := startOfSpeechTimestamp
      begin := none
      keywordEndIndex := none
      keyword := none
      KWDMetadata := none }
  invoke (fun c => c.m_audioInputProcessor) (Method.recognize args)
  return env.recognize args

/-- Member function `SmartScreenClient::notifyOfHoldToTalkEnd`. -/
def notifyOfHoldToTalkEnd (env : Collaborators) : Exec (future Bool) := do
  invoke (fun c => c.m_audioInputProcessor) Method.stopCapture
  return env.stopCapture

/-- Member function `SmartScreenClient::notifyOfTapToTalkEnd`. -/
def notifyOfTapToTalkEnd (env : Collaborators) : Exec (future Bool) := do
  invoke (fun c => c.m_audioInputProcessor) Method.stopCapture
  return env.stopCapture

/-- Member function `SmartScreenClient::connect`. -/
def connect (env : Collaborators) (performReset : Bool) : Exec Unit := do
  if performReset then
    if (← member (fun c => c.m_defaultEndpointBuilder)).isSome then
      invoke (fun c => c.m_defaultEndpointBuilder) Method.buildDefaultEndpoint
      match env.buildDefaultEndpoint with
      | none => return
      | some defaultEndpoint =>
        invoke (fun c => c.m_endpointManager) (Method.registerEndpoint defaultEndpoint)
        let resultFuture := env.registerEndpoint defaultEndpoint
        if resultFuture.status = future_status.ready then
          let result := resultFuture.value
          if result ≠ RegistrationResult.SUCCEEDED then
            return
        modify (fun m => { m with self := { m.self with m_defaultEndpointBuilder := none } })
    invoke (fun c => c.m_endpointManager) Method.waitForPendingRegistrationsToEnqueue
    let connectionManager ← member (fun c => c.m_connectionManager)
    invoke (fun c => c.m_avsGatewayManager) (Method.setAVSGatewayAssigner connectionManager)
  invoke (fun c => c.m_connectionManager) Method.enable

/-- Member function `SmartScreenClient::disconnect`. -/
def disconnect : Exec Unit :=
  invoke (fun c => c.m_connectionManager) Method.disable

/-- Member function `SmartScreenClient::getDefaultEndpointBuilder`. -/
def getDefaultEndpointBuilder : Exec (Option Component) :=
  member (fun c => c.m_defaultEndpointBuilder)

/-! ## Sequences of requests -/

/-- The requests a host application can make on the client, among the member
functions embedded above. -/
inductive Request where
  | connect (performReset : Bool)
  | disconnect
  | getDefaultEndpointBuilder
  | stopForegroundActivity
  | notifyOfWakeWord (wakeWordAudioProvider : AudioProvider) (beginIndex endIndex : Index)
      (keyword : String) (startOfSpeechTimestamp : time_point) (KWDMetadata : KWDMetadata)
  | notifyOfTapToTalk (tapToTalkAudioProvider : AudioProvider) (beginIndex : Index)
      (startOfSpeechTimestamp : time_point)
  | notifyOfHoldToTalkStart (holdToTalkAudioProvider : AudioProvider)
      (startOfSpeechTimestamp : time_point)
  | notifyOfHoldToTalkEnd
  | notifyOfTapToTalkEnd
deriving DecidableEq, Repr

/-- Serve one request, the collaborators answering as `env` says; the value
the member function returns is dropped. -/
def Request.perform (env : Collaborators) : Request → Exec Unit
  | Request.connect performReset => alexaSmartScreenSDK.connect env performReset
  | Request.disconnect => alexaSmartScreenSDK.disconnect
  | Request.getDefaultEndpointBuilder => do
      let _ ← alexaSmartScreenSDK.getDefaultEndpointBuilder
  | Request.stopForegroundActivity => alexaSmartScreenSDK.stopForegroundActivity
  | Request.notifyOfWakeWord provider beginIndex endIndex keyword timestamp metadata => do
      let _ ← alexaSmartScreenSDK.notifyOfWakeWord env provider beginIndex endIndex keyword timestamp metadata
  | Request.notifyOfTapToTalk provider beginIndex timestamp => do
      let _ ← alexaSmartScreenSDK.notifyOfTapToTalk env provider beginIndex timestamp
  | Request.notifyOfHoldToTalkStart provider timestamp => do
      let _ ← alexaSmartScreenSDK.notifyOfHoldToTalkStart env provider timestamp
  | Request.notifyOfHoldToTalkEnd => do
      let _ ← alexaSmartScreenSDK.notifyOfHoldToTalkEnd env
  | Request.notifyOfTapToTalkEnd => do
      let _ ← alexaSmartScreenSDK.notifyOfTapToTalkEnd env

/-- Serve a sequence of requests in order, each with its own collaborator answers. -/
def performAll : List (Collaborators × Request) → Exec Unit
  | [] => pure ()
  | (env, request) :: rest => do
      request.perform env
      performAll rest

/-! ## Reading a call trace -/

/-- The client before it has issued any call. -/
def start (c : SmartScreenClient) : Machine :=
  { self := c, calls := [] }

/-- The machine after it has issued `calls` more calls. -/
def Machine.issue (m : Machine) (calls : List Call) : Machine :=
  { m with calls := m.calls ++ calls }

/-- Whether every call of `method` in the trace comes after some call of
`earlier` (for two distinct member functions). -/
def precededBy (earlier method : Method) : List Call → Bool
  | [] => true
  | c :: rest =>
    if c.method = earlier then true
    else if c.method = method then false
    else precededBy earlier method rest

/-- Whether a call is a `recognize` call. -/
def Call.isRecognize (c : Call) : Bool :=
  match c.method with
  | Method.recognize _ => true
  | _ => false

/-- Whether a call is a `registerEndpoint` call. -/
def Call.isRegisterEndpoint (c : Call) : Bool :=
  match c.method with
  | Method.registerEndpoint _ => true
  | _ => false

/-- The calls of a trace that use member function `method`. -/
def callsOf (method : Method) (calls : List Call) : List Call :=
  calls.filter (fun c => c.method = method)

/-- A concrete client on which `initialize` has succeeded and `connect` has not run yet. -/
def sampleClient : SmartScreenClient :=
  { m_connectionManager := some { id := 1 }
    m_endpointManager := some { id := 2 }
    m_avsGatewayManager := some { id := 3 }
    m_audioFocusManager := some { id := 4 }
    m_audioInputProcessor := some { id := 5 }
    m_defaultEndpointBuilder := some { id := 6 } }

/-- Concrete collaborator answers: offline, stop keyword "STOP", a recognizer
whose future is pending, a builder that yields an endpoint and a registration
whose result is not available yet. -/
def sampleOffline : Collaborators :=
  { debug5 := true
    KEYWORD_TEXT_STOP := "STOP"
    isConnected := false
    recognize := fun _ => { status := future_status.timeout, value := true }
    stopCapture := { status := future_status.timeout, value := true }
    buildDefaultEndpoint := some { endpointId := 0 }
    registerEndpoint := fun _ => { status := future_status.timeout, value := RegistrationResult.SUCCEEDED } }

/-- The same collaborators while connected. -/
def sampleOnline : Collaborators :=
  { sampleOffline with isConnected := true }

/-- The same collaborators, except that the registration has already failed
when it is polled. -/
def sampleRegistrationFailed : Collaborators :=
  { sampleOnline with
    registerEndpoint := fun _ =>
      { status := future_status.ready, value := RegistrationResult.FAILED 1 } }

/-- The same collaborators, except that the builder yields no endpoint. -/
def sampleUnbuildable : Collaborators :=
  { sampleOnline with buildDefaultEndpoint := none }

/-- The sample client once its builder reference has been discarded. -/
def sampleConsumed : SmartScreenClient :=
  { sampleClient with m_defaultEndpointBuilder := none }

/-- A concrete audio provider. -/
def sampleProvider : AudioProvider :=
  { stream := 7, alwaysReadable := true, canOverride := true, canBeOverridden := false }

/-- Whether a `connect(true)` that reaches the registration step with these
collaborator answers returns early: the builder yields no endpoint, or the
poll finds the registration already resolved with a result other than
SUCCEEDED. -/
def Collaborators.aborts (env : Collaborators) : Bool :=
  match env.buildDefaultEndpoint with
  | none => true
  | some endpoint =>
    decide ((env.registerEndpoint endpoint).status = future_status.ready) &&
      decide ((env.registerEndpoint endpoint).value ≠ RegistrationResult.SUCCEEDED)

/-- A sequence of `connect` calls, each with its own collaborator answers. -/
def connectAll (calls : List (Collaborators × Bool)) : Exec Unit :=
  performAll (calls.map (fun call => (call.1, Request.connect call.2)))

/-- Whether the call `connect(performReset)`, made in state `m`, returns early:
it returns (at one of the two `return` statements under
`if (m_defaultEndpointBuilder)`, lines 1433-1436 and 1444-1449) without having
called `m_connectionManager->enable()`. -/
def returnsEarly (env : Collaborators) (performReset : Bool) (m : Machine) : Bool :=
  match (connect env performReset).run m with
  | some (_, after) =>
    !(after.calls.drop m.calls.length).any (fun c => decide (c.method = Method.enable))
  | none => false

/-- The number of calls of a sequence of `connect` calls, made one after the
other from state `m`, that return early. -/
def earlyReturns : List (Collaborators × Bool) → Machine → Nat
  | [], _ => 0
  | (env, performReset) :: rest, m =>
    match (connect env performReset).run m with
    | some (_, after) =>
      (if returnsEarly env performReset m then 1 else 0) + earlyReturns rest after
    | none => 0

/-! ## Construction and teardown: the objects involved -/

/-- The pointer parameters of `SmartScreenClient::create` and
`SmartScreenClient::initialize`, by name. -/
inductive Input where
  | deviceInfo | customerDataManager | speakMediaPlayer | audioMediaPlayerFactory
  | alertsMediaPlayer | notificationsMediaPlayer | bluetoothMediaPlayer | ringtoneMediaPlayer
  | systemSoundMediaPlayer | metricSinkInterface | speakSpeaker | alertsSpeaker
  | notificationsSpeaker | bluetoothSpeaker | ringtoneSpeaker | systemSoundSpeaker
  | phoneSpeaker | phoneCaller | meetingSpeaker | meetingClient | calendarClient
  | commsMediaPlayer | commsSpeaker | sharedDataStream | equalizerRuntimeSetup | audioFactory
  | authDelegate | alertStorage | messageStorage | notificationsStorage | deviceSettingStorage
  | bluetoothStorage | miscStorage | internetConnectionMonitor | capabilitiesDelegate
  | contextManager | transportFactory | localeAssetsManager | systemTimezone
  | softwareInfoSenderObserver | bluetoothDeviceManager | avsGatewayManager
  | powerResourceManager | diagnostics | externalCapabilitiesBuilder | channelVolumeFactory
  | visualStateProvider
deriving DecidableEq, Repr

/-- The pointer members of `SmartScreenClient` (names starting `m_`) and the
pointer locals of `initialize`, by name. -/
inductive Part where
  | m_avsGatewayManager | m_dialogUXStateAggregator | m_messageRouter
  | m_internetConnectionMonitor | m_connectionManager | m_certifiedSender | m_exceptionSender
  | m_directiveSequencer | m_registrationManager | m_contextManager | m_endpointManager
  | m_deviceSettingStorage | m_dndCapabilityAgent | m_deviceSettingsManager
  | m_audioActivityTracker | m_audioFocusManager | m_captionManager | m_userInactivityMonitor
  | m_systemSoundPlayer | m_audioInputProcessor | m_speechSynthesizer | m_playbackController
  | m_playbackRouter | m_speakerManager | m_audioPlayer | m_alertsCapabilityAgent
  | m_notificationsRenderer | m_notificationsCapabilityAgent | m_interactionCapabilityAgent
  | m_phoneCallControllerCapabilityAgent | m_meetingClientControllerCapabilityAgent
  | m_callManager | m_callAudioDeviceProxy | m_externalMediaPlayer | m_mrmCapabilityAgent
  | m_visualActivityTracker | m_visualFocusManager | m_alexaPresentation | m_templateRuntime
  | m_visualCharacteristics | m_equalizerRuntimeSetup | m_equalizerCapabilityAgent
  | m_equalizerController | m_revokeAuthorizationHandler | m_softwareInfoSender | m_bluetooth
  | m_apiGatewayCapabilityAgent | m_alexaMessageSender | m_alexaCapabilityAgent
  | m_defaultEndpointBuilder
  | attachmentManager | messageInterpreter | settingsManagerBuilder | interruptModel
  | audioVirtualChannelConfiguration | webvttParser | opusEncoderContext | speechEncoder
  | recorderImpl | alertRenderer | sipUserAgent | callManagerInstance | callManager
  | mrmHandler | equalizerController | timezoneHandler | localeHandler | reportGenerator
  | reportStateHandler | systemCapabilityProvider | tempSender | eventBus
  | bluetoothMediaInputTransformer
deriving DecidableEq, Repr

/-- An object a call goes to or is handed to: a parameter, a member or local,
an element of a collection (a parameter collection or one a collaborator
returned), or the client itself. -/
inductive Ref where
  | input (name : Input)
  | part (name : Part)
  | element (object : Component)
  | this
deriving DecidableEq, Repr

/-- The `ChannelVolumeInterface::Type` values the code compares with; any other
value of the type is `other`. -/
inductive ChannelVolumeType where
  | AVS_SPEAKER_VOLUME
  | AVS_ALERTS_VOLUME
  | other (value : Nat)
deriving DecidableEq, Repr

/-- The settings `getSetting` is asked for. -/
inductive DeviceSettingsIndex where
  | WAKEWORD_CONFIRMATION | SPEECH_CONFIRMATION | WAKE_WORDS | ALARM_VOLUME_RAMP | TIMEZONE
  | LOCALE
deriving DecidableEq, Repr

/-- An `avsCommon::sdkInterfaces::softwareInfo::FirmwareVersion`. -/
abbrev FirmwareVersion := Int

/-- The member functions `initialize`, the destructor, `forceExit`,
`onFocusChanged`, `clearCard` and `setFirmwareVersion` call on those objects. -/
inductive Op where
  | addObserver | removeObserver | addMessageObserver
  | addConnectionStatusObserver | removeConnectionStatusObserver
  | open_ | close | shutdown
  | withDoNotDisturbSetting | withAlarmVolumeRampSetting | withWakeWordConfirmationSetting
  | withSpeechConfirmationSetting | withTimeZoneSetting | withLocaleSetting
  | withLocaleAndWakeWordsSettings | getDefaultSupportedWakeWords | getDeviceTimezoneOffset
  | getSetting (index : DeviceSettingsIndex) | getConfigurations
  | systemSounds | alerts | notifications | communications | addSink
  | createChannelVolumeInterface (type : Option ChannelVolumeType)
  | setAPLMaxVersion (version : String)
  | getModeController | getConfiguration | getStorage
  | getAllEqualizers | registerEqualizer | unregisterEqualizer
  | getAllEqualizerControllerListeners | addListener | removeListener
  | getEventBus | addEventProcessedObserver
  | withCapability | withCapabilityConfiguration | getCapabilityConfiguration
  | addDirectiveHandler | insertSoftwareInfoSenderObserver
  | finishDefaultEndpointConfiguration
  | acquireChannel (channelName interfaceName : String)
  | stopForegroundActivity | resetState | clearCard
  | setFirmwareVersion (firmwareVersion : FirmwareVersion)
deriving DecidableEq, Repr

/-- The severity of a log record. -/
inductive Level where
  | ERROR
  | CRITICAL
deriving DecidableEq, Repr

/-- What construction and teardown do that can be observed: a log record (its
severity, its event name and the value of its `reason` field), the construction
of an object (by `make_shared` or by a `create` factory, whether or not the
factory then yields an instance), and a call on an object. -/
inductive Event where
  | log (level : Level) (event reason : String)
  | construct (part : Part)
  | call (receiver : Ref) (op : Op) (args : List Ref)
deriving DecidableEq, Repr

/-- The `#ifdef` switches of the file that change what is constructed or torn down. -/
structure BuildFlags where
  ENABLE_CAPTIONS : Bool
  ENABLE_OPUS : Bool
  ACSDK_ENABLE_METRICS_RECORDING : Bool
  ENABLE_PCC : Bool
  ENABLE_MCC : Bool
  ENABLE_COMMS : Bool
  ENABLE_COMMS_AUDIO_PROXY : Bool
  ENABLE_MRM : Bool
  ENABLE_REVOKE_AUTH : Bool
deriving DecidableEq, Repr

/-- The arguments of `create`: which pointer parameters are non-null, the
collections that are iterated over, and the two values that are tested. -/
structure Inputs where
  provided : List Input
  alexaDialogStateObservers : List Component
  audioSpeakers : List Component
  additionalSpeakers : List (ChannelVolumeType × Component)
  externalMusicProviderSpeakers : List Component
  /-- whether `isValidFirmwareVersion(firmwareVersion)` holds -/
  firmwareVersionValid : Bool
  APLMaxVersion : String
deriving DecidableEq, Repr

/-- What the collaborators answer during construction and teardown. -/
structure Factories where
  /-- whether the factory (`create`, `build`, `getInstance`, a configuration
  reader) that produces this object yields an instance -/
  creates : Part → Bool
  /-- the result of a call whose boolean result the code tests -/
  succeeds : Ref → Op → List Ref → Bool
  /-- whether `localeAssetsManager->getDefaultSupportedWakeWords()` is empty -/
  defaultSupportedWakeWordsEmpty : Bool
  /-- the list `m_equalizerRuntimeSetup->getAllEqualizers()` returns -/
  allEqualizers : List Component
  /-- the list `m_equalizerRuntimeSetup->getAllEqualizerControllerListeners()` returns -/
  allEqualizerControllerListeners : List Component

/-- The candidate client while it is built or torn down: the parameters it
was given, the members and locals that are non-null, and what has happened so
far, oldest first. -/
structure Build where
  provided : List Input
  present : List Part
  events : List Event
deriving DecidableEq, Repr

/-- Whether an object is there to be called. -/
def Build.has (b : Build) : Ref → Bool
  | Ref.input name => decide (name ∈ b.provided)
  | Ref.part name => decide (name ∈ b.present)
  | Ref.element _ => true
  | Ref.this => true

/-- Record more events. -/
def Build.emit (b : Build) (events : List Event) : Build :=
  { b with events := b.events ++ events }

/-- Set a member or local: non-null (`value = true`) or null. -/
def Build.assign (b : Build) (part : Part) (value : Bool) : Build :=
  { b with present := if value then part :: b.present.filter (fun p => p ≠ part)
                      else b.present.filter (fun p => p ≠ part) }

/-- How a statement or a run of statements ends: it ran through, it returned
early after logging a failure, or it called through a null pointer (undefined
behaviour). -/
inductive Outcome where
  | completed
  | aborted
  | fault
deriving DecidableEq, Repr

/-- The statement forms `initialize` and the destructor are made of. -/
inductive Step where
  /-- the test `if (!condition) { LOG; return false; }`, on a condition of the arguments -/
  | check (holds : Bool) (level : Level) (event reason : String)
  /-- the statement `part = std::make_shared<...>(...)`, or a stack object -/
  | make (part : Part)
  /-- the statement `part = X::create(...)`: null when the factory yields nothing -/
  | create (part : Part)
  /-- the statement `part = X::getInstance()`: null when there is no instance -/
  | obtain (part : Part)
  /-- the statement `part = source` -/
  | store (part : Part) (source : Ref)
  /-- the test `if (!part) { LOG; return false; }` -/
  | require (part : Part) (level : Level) (event reason : String)
  /-- the test `if (!part) { LOG; }`, which goes on -/
  | report (part : Part) (level : Level) (event reason : String)
  /-- the statement `receiver->op(args)`, unguarded -/
  | call (receiver : Ref) (op : Op) (args : List Ref)
  /-- the statement `if (guards...) receiver->op(args)` -/
  | callIf (guards : List Part) (receiver : Ref) (op : Op) (args : List Ref)
  /-- the test `if (!receiver->op(args)) { LOG; return false; }` -/
  | requireCall (receiver : Ref) (op : Op) (args : List Ref) (level : Level)
      (event reason : String)
deriving DecidableEq, Repr

/-- Execute one statement: `completed` when execution goes on with the next one. -/
def Step.exec (env : Factories) (b : Build) : Step → Outcome × Build
  | Step.check holds level event reason =>
    if holds then (Outcome.completed, b)
    else (Outcome.aborted, b.emit [Event.log level event reason])
  | Step.make part => (Outcome.completed, (b.assign part true).emit [Event.construct part])
  | Step.create part =>
    (Outcome.completed, (b.assign part (env.creates part)).emit [Event.construct part])
  | Step.obtain part => (Outcome.completed, b.assign part (env.creates part))
  | Step.store part source => (Outcome.completed, b.assign part (b.has source))
  | Step.require part level event reason =>
    if part ∈ b.present then (Outcome.completed, b)
    else (Outcome.aborted, b.emit [Event.log level event reason])
  | Step.report part level event reason =>
    if part ∈ b.present then (Outcome.completed, b)
    else (Outcome.completed, b.emit [Event.log level event reason])
  | Step.call receiver op args =>
    if b.has receiver then (Outcome.completed, b.emit [Event.call receiver op args])
    else (Outcome.fault, b)
  | Step.callIf guards receiver op args =>
    if guards.all (fun g => decide (g ∈ b.present)) then
      if b.has receiver then (Outcome.completed, b.emit [Event.call receiver op args])
      else (Outcome.fault, b)
    else (Outcome.completed, b)
  | Step.requireCall receiver op args level event reason =>
    if b.has receiver then
      if env.succeeds receiver op args then
        (Outcome.completed, b.emit [Event.call receiver op args])
      else (Outcome.aborted,
        b.emit [Event.call receiver op args, Event.log level event reason])
    else (Outcome.fault, b)

/-- Execute statements in order until one ends the run. -/
def run (env : Factories) : List Step → Build → Outcome × Build
  | [], b => (Outcome.completed, b)
  | step :: rest, b =>
    match step.exec env b with
    | (Outcome.completed, next) => run env rest next
    | stopped => stopped

/-! ## Construction: the statements of `initialize`, in source order -/

/-- The log record of a failed `initialize`. -/
def Step.failed (reason : String) (part : Part) : Step :=
  Step.require part Level.ERROR "initializeFailed" reason

/-- A factory call whose result is tested:
`part = X::create(...); if (!part) { ACSDK_ERROR(... reason); return false; }`. -/
def created (part : Part) (reason : String) : List Step :=
  [Step.create part, Step.failed reason part]

/-- The parameters `initialize` tests for null first, each with the reason it logs. -/
def requiredInputs : List (Input × String) :=
  [(Input.audioFactory, "nullAudioFactory"),
   (Input.speakMediaPlayer, "nullSpeakMediaPlayer"),
   (Input.audioMediaPlayerFactory, "nullAudioMediaPlayerFactory"),
   (Input.alertsMediaPlayer, "nullAlertsMediaPlayer"),
   (Input.notificationsMediaPlayer, "nullNotificationsMediaPlayer"),
   (Input.bluetoothMediaPlayer, "nullBluetoothMediaPlayer"),
   (Input.ringtoneMediaPlayer, "nullRingtoneMediaPlayer"),
   (Input.systemSoundMediaPlayer, "nullSystemSoundMediaPlayer"),
   (Input.authDelegate, "nullAuthDelegate"),
   (Input.capabilitiesDelegate, "nullCapabilitiesDelegate"),
   (Input.deviceSettingStorage, "nullDeviceSettingStorage"),
   (Input.contextManager, "nullContextManager"),
   (Input.transportFactory, "nullTransportFactory"),
   (Input.avsGatewayManager, "nullAVSGatewayManager"),
   (Input.channelVolumeFactory, "nullChannelVolumeFactory"),
   (Input.visualStateProvider, "nullvisualStateProvider")]

/-- The null test of one parameter. -/
def inputCheck (inputs : Inputs) (entry : Input × String) : Step :=
  Step.check (decide (entry.1 ∈ inputs.provided)) Level.ERROR "initializeFailed" entry.2

/-- Lines 329-412: the tests of the arguments. -/
def validationSteps (inputs : Inputs) : List Step :=
  requiredInputs.map (inputCheck inputs) ++
  [Step.check (decide (inputs.APLMaxVersion ≠ "")) Level.ERROR "initializeFailed" "emptyAPLVersion"]

/-- Lines 414-524: dialog state aggregator, message router, connection manager,
certified sender, exception sender, directive sequencer, message interpreter,
registration manager, endpoint registration manager. -/
def transportSteps (inputs : Inputs) : List Step :=
  [Step.store Part.m_avsGatewayManager (Ref.input Input.avsGatewayManager),
   Step.make Part.m_dialogUXStateAggregator] ++
  inputs.alexaDialogStateObservers.map (fun observer =>
    Step.call (Ref.part Part.m_dialogUXStateAggregator) Op.addObserver [Ref.element observer]) ++
  [Step.make Part.attachmentManager,
   Step.make Part.m_messageRouter,
   Step.check (decide (Input.internetConnectionMonitor ∈ inputs.provided)) Level.CRITICAL
     "initializeFailed" "internetConnectionMonitor was nullptr",
   Step.store Part.m_internetConnectionMonitor (Ref.input Input.internetConnectionMonitor)] ++
  created Part.m_connectionManager "unableToCreateConnectionManager" ++
  created Part.m_certifiedSender "unableToCreateCertifiedSender" ++
  created Part.m_exceptionSender "unableToCreateExceptionSender" ++
  created Part.m_directiveSequencer "unableToCreateDirectiveSequencer" ++
  [Step.make Part.messageInterpreter,
   Step.call (Ref.part Part.m_connectionManager) Op.addMessageObserver
     [Ref.part Part.messageInterpreter],
   Step.make Part.m_registrationManager,
   Step.store Part.m_contextManager (Ref.input Input.contextManager)] ++
  created Part.m_endpointManager "endpointRegistrationManagerCreateFailed"

/-- Lines 526-566: device-setting storage, do-not-disturb agent, device settings manager. -/
def settingsSteps (env : Factories) : List Step :=
  [Step.store Part.m_deviceSettingStorage (Ref.input Input.deviceSettingStorage),
   Step.requireCall (Ref.part Part.m_deviceSettingStorage) Op.open_ [] Level.ERROR
     "initializeFailed" "deviceSettingStorageOpenFailed"] ++
  created Part.m_dndCapabilityAgent "unableToCreateDNDCapabilityAgent" ++
  -- addConnectionObserver(m_dndCapabilityAgent)
  [Step.call (Ref.part Part.m_connectionManager) Op.addConnectionStatusObserver
     [Ref.part Part.m_dndCapabilityAgent],
   Step.make Part.settingsManagerBuilder,
   Step.call (Ref.part Part.settingsManagerBuilder) Op.withDoNotDisturbSetting
     [Ref.part Part.m_dndCapabilityAgent],
   Step.call (Ref.part Part.settingsManagerBuilder) Op.withAlarmVolumeRampSetting [],
   Step.call (Ref.part Part.settingsManagerBuilder) Op.withWakeWordConfirmationSetting [],
   Step.call (Ref.part Part.settingsManagerBuilder) Op.withSpeechConfirmationSetting [],
   Step.call (Ref.part Part.settingsManagerBuilder) Op.withTimeZoneSetting
     [Ref.input Input.systemTimezone],
   Step.call (Ref.input Input.localeAssetsManager) Op.getDefaultSupportedWakeWords [],
   Step.call (Ref.part Part.settingsManagerBuilder)
     (if env.defaultSupportedWakeWordsEmpty then Op.withLocaleSetting
      else Op.withLocaleAndWakeWordsSettings)
     [Ref.input Input.localeAssetsManager]] ++
  -- m_deviceSettingsManager = settingsManagerBuilder.build()
  created Part.m_deviceSettingsManager "createDeviceSettingsManagerFailed" ++
  [Step.call (Ref.part Part.settingsManagerBuilder) Op.getDeviceTimezoneOffset []]

/-- Lines 568-613: audio activity tracker, interrupt model, channel
configuration, audio focus manager, caption manager. -/
def focusSteps (flags : BuildFlags) : List Step :=
  [Step.create Part.m_audioActivityTracker,
   Step.create Part.interruptModel] ++
  -- readChannelConfiguration(AUDIO_CHANNEL_CONFIG_KEY, &audioVirtualChannelConfiguration)
  created Part.audioVirtualChannelConfiguration "unableToReadAudioChannelConfiguration" ++
  [Step.make Part.m_audioFocusManager] ++
  (if flags.ENABLE_CAPTIONS then
    [Step.obtain Part.webvttParser, Step.create Part.m_captionManager]
   else [])

/-- Lines 615-742: user inactivity monitor, system sound player, audio input
processor, metric recorder, speech synthesizer, playback controller and router. -/
def speechSteps (flags : BuildFlags) : List Step :=
  created Part.m_userInactivityMonitor "unableToCreateUserInactivityMonitor" ++
  [Step.call (Ref.input Input.audioFactory) Op.systemSounds [],
   Step.create Part.m_systemSoundPlayer,
   Step.call (Ref.part Part.settingsManagerBuilder)
     (Op.getSetting DeviceSettingsIndex.WAKEWORD_CONFIRMATION) [],
   Step.call (Ref.part Part.settingsManagerBuilder)
     (Op.getSetting DeviceSettingsIndex.SPEECH_CONFIRMATION) [],
   Step.call (Ref.part Part.settingsManagerBuilder)
     (Op.getSetting DeviceSettingsIndex.WAKE_WORDS) []] ++
  (if flags.ENABLE_OPUS then
    [Step.make Part.opusEncoderContext, Step.make Part.speechEncoder]
   else []) ++
  created Part.m_audioInputProcessor "unableToCreateAudioInputProcessor" ++
  [Step.call (Ref.part Part.m_audioInputProcessor) Op.addObserver
     [Ref.part Part.m_dialogUXStateAggregator]] ++
  (if flags.ACSDK_ENABLE_METRICS_RECORDING then
    [Step.make Part.recorderImpl,
     Step.call (Ref.part Part.recorderImpl) Op.addSink [Ref.input Input.metricSinkInterface]]
   else []) ++
  created Part.m_speechSynthesizer "unableToCreateSpeechSynthesizer" ++
  [Step.call (Ref.part Part.m_speechSynthesizer) Op.addObserver
     [Ref.part Part.m_dialogUXStateAggregator]] ++
  created Part.m_playbackController "unableToCreatePlaybackController" ++
  created Part.m_playbackRouter "unableToCreatePlaybackRouter"

/-- Lines 748-773: the speakers of type AVS_SPEAKER_VOLUME, in order. -/
def allAvsSpeakers (flags : BuildFlags) (inputs : Inputs) : List Ref :=
  [Ref.input Input.speakSpeaker, Ref.input Input.systemSoundSpeaker] ++
  (inputs.additionalSpeakers.filter
    (fun entry => decide (ChannelVolumeType.AVS_SPEAKER_VOLUME = entry.1))).map
    (fun entry => Ref.element entry.2) ++
  (if flags.ENABLE_PCC then [Ref.input Input.phoneSpeaker] else []) ++
  (if flags.ENABLE_MCC then [Ref.input Input.meetingSpeaker] else []) ++
  (if flags.ENABLE_COMMS_AUDIO_PROXY then [Ref.input Input.commsSpeaker] else [])

/-- Lines 750-760: the speakers of type AVS_ALERTS_VOLUME, in order. -/
def allAlertSpeakers (inputs : Inputs) : List Ref :=
  [Ref.input Input.alertsSpeaker, Ref.input Input.notificationsSpeaker] ++
  (inputs.additionalSpeakers.filter
    (fun entry => decide (ChannelVolumeType.AVS_SPEAKER_VOLUME ≠ entry.1) &&
      decide (ChannelVolumeType.AVS_ALERTS_VOLUME = entry.1))).map
    (fun entry => Ref.element entry.2)

/-- The call `channelVolumeFactory->createChannelVolumeInterface(speaker[, type])`. -/
def createChannelVolumeInterface (type : Option ChannelVolumeType) (speaker : Ref) : Step :=
  Step.call (Ref.input Input.channelVolumeFactory) (Op.createChannelVolumeInterface type) [speaker]

/-- Lines 775-824: the channel volume interfaces and the speaker manager. -/
def speakerSteps (flags : BuildFlags) (inputs : Inputs) : List Step :=
  (allAvsSpeakers flags inputs).map (createChannelVolumeInterface none) ++
  (inputs.audioSpeakers.map (fun speaker =>
    createChannelVolumeInterface none (Ref.element speaker))) ++
  [createChannelVolumeInterface none (Ref.input Input.bluetoothSpeaker),
   createChannelVolumeInterface none (Ref.input Input.ringtoneSpeaker)] ++
  (allAlertSpeakers inputs).map
    (createChannelVolumeInterface (some ChannelVolumeType.AVS_ALERTS_VOLUME)) ++
  created Part.m_speakerManager "unableToCreateSpeakerManager"

/-- Lines 826-913: audio player, alert renderer, alerts agent, notifications
renderer and agent, interaction model agent. -/
def playerSteps : List Step :=
  created Part.m_audioPlayer "unableToCreateAudioPlayer" ++
  created Part.alertRenderer "unableToCreateAlarmRenderer" ++
  [Step.call (Ref.input Input.audioFactory) Op.alerts [],
   Step.call (Ref.part Part.settingsManagerBuilder)
     (Op.getSetting DeviceSettingsIndex.ALARM_VOLUME_RAMP) []] ++
  created Part.m_alertsCapabilityAgent "unableToCreateAlertsCapabilityAgent" ++
  -- addConnectionObserver(m_dialogUXStateAggregator)
  [Step.call (Ref.part Part.m_connectionManager) Op.addConnectionStatusObserver
     [Ref.part Part.m_dialogUXStateAggregator]] ++
  created Part.m_notificationsRenderer "unableToCreateNotificationsRenderer" ++
  [Step.call (Ref.input Input.audioFactory) Op.notifications []] ++
  created Part.m_notificationsCapabilityAgent "unableToCreateNotificationsCapabilityAgent" ++
  created Part.m_interactionCapabilityAgent "unableToCreateInteractionModelCapabilityAgent" ++
  [Step.call (Ref.part Part.m_interactionCapabilityAgent) Op.addObserver
     [Ref.part Part.m_dialogUXStateAggregator]]

/-- Lines 915-988: phone call controller, meeting client controller, call manager. -/
def telephonySteps (flags : BuildFlags) (inputs : Inputs) : List Step :=
  (if flags.ENABLE_PCC then
    [Step.create Part.m_phoneCallControllerCapabilityAgent,
     Step.report Part.m_phoneCallControllerCapabilityAgent Level.ERROR "initializeFailed"
       "unableToCreatePhoneCallControllerCapabilityAgent"]
   else []) ++
  (if flags.ENABLE_MCC then
    [Step.create Part.m_meetingClientControllerCapabilityAgent,
     Step.report Part.m_meetingClientControllerCapabilityAgent Level.ERROR "initializeFailed"
       "unableToCreateMeetingClientControllerCapabilityAgent"]
   else []) ++
  (if flags.ENABLE_COMMS then
    [Step.check (decide (Input.ringtoneMediaPlayer ∈ inputs.provided)) Level.ERROR
       "initializeFailed" "nullRingtoneMediaPlayer",
     Step.make Part.sipUserAgent,
     Step.call (Ref.input Input.audioFactory) Op.communications []] ++
    -- if (!CallManager::create(...)) { ...; return false; }
    created Part.callManagerInstance "unableToCreateCallManager" ++
    [Step.obtain Part.m_callManager,
     -- addConnectionObserver(m_callManager)
     Step.call (Ref.part Part.m_connectionManager) Op.addConnectionStatusObserver
       [Ref.part Part.m_callManager]] ++
    (if flags.ENABLE_COMMS_AUDIO_PROXY then
      [Step.create Part.m_callAudioDeviceProxy,
       Step.call (Ref.part Part.m_callManager) Op.addObserver
         [Ref.part Part.m_callAudioDeviceProxy]]
     else [])
   else [])

/-- Lines 990-1065: external media player, multi-room-music handler and agent. -/
def mediaSteps (flags : BuildFlags) (inputs : Inputs) : List Step :=
  inputs.externalMusicProviderSpeakers.map (fun speaker =>
    createChannelVolumeInterface none (Ref.element speaker)) ++
  created Part.m_externalMediaPlayer "unableToCreateExternalMediaPlayer" ++
  (if flags.ENABLE_MRM then
    created Part.mrmHandler "Unable to create mrmHandler." ++
    created Part.m_mrmCapabilityAgent "unableToCreateMRMCapabilityAgent" ++
    -- addCallStateObserver(m_mrmCapabilityAgent)
    [Step.callIf [Part.m_callManager] (Ref.part Part.m_callManager) Op.addObserver
       [Ref.part Part.m_mrmCapabilityAgent]]
   else [])

/-- Lines 1067-1137: visual activity tracker, visual focus manager, presentation
agent, template runtime, visual characteristics. -/
def visualSteps (inputs : Inputs) : List Step :=
  [Step.create Part.m_visualActivityTracker,
   Step.make Part.m_visualFocusManager] ++
  created Part.m_alexaPresentation "unableToCreateAlexaPresentationCapabilityAgent" ++
  [Step.call (Ref.part Part.m_dialogUXStateAggregator) Op.addObserver
     [Ref.part Part.m_alexaPresentation],
   Step.call (Ref.part Part.m_alexaPresentation) (Op.setAPLMaxVersion inputs.APLMaxVersion) []] ++
  created Part.m_templateRuntime "unableToCreateTemplateRuntimeCapabilityAgent" ++
  [Step.call (Ref.part Part.m_dialogUXStateAggregator) Op.addObserver
     [Ref.part Part.m_templateRuntime],
   -- addAlexaPresentationObserver(m_templateRuntime)
   Step.report Part.m_alexaPresentation Level.ERROR "addAlexaPresentationObserverFailed"
     "guiNotSupported",
   Step.callIf [Part.m_alexaPresentation] (Ref.part Part.m_alexaPresentation) Op.addObserver
     [Ref.part Part.m_templateRuntime]] ++
  created Part.m_visualCharacteristics "unableToCreateVisualCharacteristicsCapabilityAgent"

/-- Lines 1139-1176: equalizer controller and agent, when a runtime setup is given. -/
def equalizerSteps (env : Factories) (inputs : Inputs) : List Step :=
  [Step.store Part.m_equalizerRuntimeSetup (Ref.input Input.equalizerRuntimeSetup)] ++
  (if Input.equalizerRuntimeSetup ∈ inputs.provided then
    [Step.call (Ref.input Input.equalizerRuntimeSetup) Op.getModeController [],
     Step.call (Ref.input Input.equalizerRuntimeSetup) Op.getConfiguration [],
     Step.call (Ref.input Input.equalizerRuntimeSetup) Op.getStorage []] ++
    created Part.equalizerController "unableToCreateEqualizerController" ++
    [Step.call (Ref.input Input.equalizerRuntimeSetup) Op.getStorage []] ++
    created Part.m_equalizerCapabilityAgent "unableToCreateEqualizerCapabilityAgent" ++
    [Step.store Part.m_equalizerController (Ref.part Part.equalizerController),
     Step.call (Ref.part Part.m_equalizerRuntimeSetup) Op.getAllEqualizers []] ++
    env.allEqualizers.map (fun equalizer =>
      Step.call (Ref.part Part.equalizerController) Op.registerEqualizer
        [Ref.element equalizer]) ++
    [Step.call (Ref.part Part.m_equalizerRuntimeSetup) Op.getAllEqualizerControllerListeners []] ++
    env.allEqualizerControllerListeners.map (fun listener =>
      Step.call (Ref.part Part.equalizerController) Op.addListener [Ref.element listener])
   else [])

/-- Lines 1178-1261: time zone, locale and report-state handlers, system
capability provider, revoke-authorization handler, software info sender. -/
def systemSteps (flags : BuildFlags) (inputs : Inputs) : List Step :=
  [Step.call (Ref.part Part.settingsManagerBuilder)
     (Op.getSetting DeviceSettingsIndex.TIMEZONE) []] ++
  created Part.timezoneHandler "unableToCreateTimeZoneHandler" ++
  [Step.call (Ref.part Part.settingsManagerBuilder)
     (Op.getSetting DeviceSettingsIndex.LOCALE) []] ++
  created Part.localeHandler "unableToCreateLocaleHandler" ++
  [Step.call (Ref.part Part.settingsManagerBuilder) Op.getConfigurations []] ++
  created Part.reportGenerator "unableToCreateStateReportGenerator" ++
  created Part.reportStateHandler "unableToCreateReportStateHandler" ++
  created Part.systemCapabilityProvider "unableToCreateSystemCapabilityProvider" ++
  (if flags.ENABLE_REVOKE_AUTH then
    created Part.m_revokeAuthorizationHandler "unableToCreateRevokeAuthorizationHandler"
   else []) ++
  (if inputs.firmwareVersionValid then
    -- if (tempSender) { m_softwareInfoSender = tempSender; } else { ...; return false; }
    created Part.tempSender "unableToCreateSoftwareInfoSender" ++
    [Step.store Part.m_softwareInfoSender (Ref.part Part.tempSender)]
   else [])

/-- Lines 1263-1294: the bluetooth agent, when a device manager is given. -/
def bluetoothSteps (inputs : Inputs) : List Step :=
  if Input.bluetoothDeviceManager ∈ inputs.provided then
    [Step.call (Ref.input Input.bluetoothDeviceManager) Op.getEventBus [],
     Step.obtain Part.eventBus,
     Step.create Part.bluetoothMediaInputTransformer,
     Step.create Part.m_bluetooth]
  else []

/-- The call `m_defaultEndpointBuilder->withCapability(configuration, handler)`. -/
def withCapability (agent : Part) : Step :=
  Step.call (Ref.part Part.m_defaultEndpointBuilder) Op.withCapability
    [Ref.part agent, Ref.part agent]

/-- The call `m_defaultEndpointBuilder->withCapabilityConfiguration(configuration)`. -/
def withCapabilityConfiguration (configuration : Part) : Step :=
  Step.call (Ref.part Part.m_defaultEndpointBuilder) Op.withCapabilityConfiguration
    [Ref.part configuration]

/-- The call `if (agent) m_defaultEndpointBuilder->withCapability(agent, agent)`. -/
def withCapabilityIf (agent : Part) : Step :=
  Step.callIf [agent] (Ref.part Part.m_defaultEndpointBuilder) Op.withCapability
    [Ref.part agent, Ref.part agent]

/-- Lines 1296-1391: API gateway agent, Alexa interface message sender and
agent, and the default endpoint builder with its capabilities. -/
def endpointSteps (flags : BuildFlags) : List Step :=
  created Part.m_apiGatewayCapabilityAgent "unableToCreateApiGatewayCapabilityAgent" ++
  created Part.m_alexaMessageSender "unableToCreateAlexaMessageSender" ++
  created Part.m_alexaCapabilityAgent "unableToCreateAlexaCapabilityAgent" ++
  [Step.call (Ref.part Part.m_alexaCapabilityAgent) Op.addEventProcessedObserver
     [Ref.input Input.capabilitiesDelegate],
   Step.create Part.m_defaultEndpointBuilder,
   withCapability Part.m_speechSynthesizer,
   withCapability Part.m_audioPlayer,
   withCapability Part.m_externalMediaPlayer,
   withCapability Part.m_audioInputProcessor,
   withCapability Part.m_alertsCapabilityAgent,
   withCapability Part.m_apiGatewayCapabilityAgent,
   Step.call (Ref.part Part.m_alexaCapabilityAgent) Op.getCapabilityConfiguration [],
   withCapability Part.m_alexaCapabilityAgent,
   withCapabilityConfiguration Part.m_audioActivityTracker] ++
  (if flags.ENABLE_PCC then [withCapabilityIf Part.m_phoneCallControllerCapabilityAgent]
   else []) ++
  (if flags.ENABLE_MCC then [withCapabilityIf Part.m_meetingClientControllerCapabilityAgent]
   else []) ++
  [withCapability Part.m_speakerManager,
   withCapability Part.m_interactionCapabilityAgent,
   withCapability Part.m_alexaPresentation,
   withCapability Part.m_templateRuntime,
   withCapabilityConfiguration Part.m_visualActivityTracker,
   withCapability Part.m_notificationsCapabilityAgent,
   withCapability Part.m_interactionCapabilityAgent] ++
  (if flags.ENABLE_COMMS then
    [Step.obtain Part.callManager,
     -- if (m_callManager && callManager) withCapability(callManager, m_callManager)
     Step.callIf [Part.m_callManager, Part.callManager] (Ref.part Part.m_defaultEndpointBuilder)
       Op.withCapability [Ref.part Part.callManager, Ref.part Part.m_callManager]]
   else []) ++
  [withCapabilityIf Part.m_bluetooth,
   withCapabilityIf Part.m_mrmCapabilityAgent,
   withCapabilityIf Part.m_equalizerCapabilityAgent,
   withCapability Part.m_dndCapabilityAgent,
   withCapabilityConfiguration Part.systemCapabilityProvider]

/-- The test `!m_directiveSequencer->addDirectiveHandler(handler) ||` of the chain. -/
def addDirectiveHandler (handler : Part) : Step :=
  Step.requireCall (Ref.part Part.m_directiveSequencer) Op.addDirectiveHandler [Ref.part handler]
    Level.ERROR "initializeFailed" "unableToRegisterSystemDirectiveHandler"

/-- Lines 1392-1415: the system directive handlers, the software info sender
observers, and the end of the default endpoint configuration. -/
def finishingSteps (flags : BuildFlags) (inputs : Inputs) : List Step :=
  [addDirectiveHandler Part.localeHandler,
   addDirectiveHandler Part.timezoneHandler,
   addDirectiveHandler Part.reportStateHandler] ++
  (if flags.ENABLE_REVOKE_AUTH then [addDirectiveHandler Part.m_revokeAuthorizationHandler]
   else []) ++
  [addDirectiveHandler Part.m_userInactivityMonitor] ++
  (if Input.softwareInfoSenderObserver ∈ inputs.provided then
    [Step.call Ref.this Op.insertSoftwareInfoSenderObserver
      [Ref.input Input.softwareInfoSenderObserver]]
   else []) ++
  [Step.callIf [Part.m_callManager] Ref.this Op.insertSoftwareInfoSenderObserver
     [Ref.part Part.m_callManager],
   Step.requireCall (Ref.part Part.m_defaultEndpointBuilder) Op.finishDefaultEndpointConfiguration
     [] Level.ERROR "initializedFailed" "defaultEndpointConfigurationFailed"]

/-- The statements of `SmartScreenClient::initialize`, in source order. -/
def initializeSteps (flags : BuildFlags) (env : Factories) (inputs : Inputs) : List Step :=
  validationSteps inputs ++ transportSteps inputs ++ settingsSteps env ++ focusSteps flags ++
  speechSteps flags ++ speakerSteps flags inputs ++ playerSteps ++
  telephonySteps flags inputs ++ mediaSteps flags inputs ++ visualSteps inputs ++
  equalizerSteps env inputs ++ systemSteps flags inputs ++ bluetoothSteps inputs ++
  endpointSteps flags ++ finishingSteps flags inputs

/-- The call `if (member) member->shutdown()`. -/
def shutdownIf (member : Part) : Step :=
  Step.callIf [member] (Ref.part member) Op.shutdown []

/-- The interaction capabilities the destructor shuts down right after the
directive sequencer (lines 1939-1974), in order. -/
def surfaceCapabilities : List Part :=
  [Part.m_speakerManager, Part.m_alexaPresentation, Part.m_templateRuntime,
   Part.m_audioInputProcessor, Part.m_audioPlayer, Part.m_externalMediaPlayer,
   Part.m_speechSynthesizer, Part.m_alertsCapabilityAgent, Part.m_playbackController]

/-- Lines 1935-1990 of the destructor: the members shut down first, in order. -/
def firstMembers : List Part :=
  [Part.m_directiveSequencer] ++ surfaceCapabilities ++
  [Part.m_softwareInfoSender, Part.m_messageRouter, Part.m_connectionManager,
   Part.m_certifiedSender]

/-- Lines 1935-1990 of the destructor: directive sequencer, the interaction
capabilities, software info sender, message router, connection manager,
certified sender. -/
def shutdownFirst : List Step :=
  firstMembers.map shutdownIf

/-- Lines 1991-2024: the members shut down next, in order. -/
def trackerMembers (flags : BuildFlags) : List Part :=
  [Part.m_audioActivityTracker, Part.m_visualActivityTracker, Part.m_playbackRouter,
   Part.m_notificationsCapabilityAgent, Part.m_notificationsRenderer] ++
  (if flags.ENABLE_CAPTIONS then [Part.m_captionManager] else []) ++
  [Part.m_bluetooth, Part.m_userInactivityMonitor]

/-- Lines 1991-2024: activity trackers, playback router, notifications, caption
manager, bluetooth, user inactivity monitor. -/
def shutdownTrackers (flags : BuildFlags) : List Step :=
  (trackerMembers flags).map shutdownIf

/-- Lines 2025-2033: the multi-room-music agent, detached from the call manager
by `removeCallStateObserver` (lines 1791-1796), and the call manager. -/
def shutdownCalls : List Step :=
  [Step.callIf [Part.m_mrmCapabilityAgent, Part.m_callManager] (Ref.part Part.m_callManager)
     Op.removeObserver [Ref.part Part.m_mrmCapabilityAgent],
   shutdownIf Part.m_mrmCapabilityAgent,
   shutdownIf Part.m_callManager]

/-- Lines 2035-2056: the members shut down after the call manager, in order. -/
def gatewayMembers (flags : BuildFlags) : List Part :=
  [Part.m_apiGatewayCapabilityAgent, Part.m_alexaMessageSender] ++
  (if flags.ENABLE_PCC then [Part.m_phoneCallControllerCapabilityAgent] else []) ++
  (if flags.ENABLE_MCC then [Part.m_meetingClientControllerCapabilityAgent] else [])

/-- Lines 2035-2056: API gateway agent, Alexa interface message sender, phone
call controller, meeting client controller. -/
def shutdownGateways (flags : BuildFlags) : List Step :=
  (gatewayMembers flags).map shutdownIf

/-- Lines 2057-2061: the do-not-disturb agent, detached from the connection
manager by `removeConnectionObserver` (lines 1533-1536, no null test). -/
def shutdownDoNotDisturb : List Step :=
  [Step.callIf [Part.m_dndCapabilityAgent] (Ref.part Part.m_connectionManager)
     Op.removeConnectionStatusObserver [Ref.part Part.m_dndCapabilityAgent],
   shutdownIf Part.m_dndCapabilityAgent]

/-- Lines 2063-2076: visual characteristics and the equalizer block. -/
def shutdownEqualizer (env : Factories) : List Step :=
  [shutdownIf Part.m_visualCharacteristics,
   Step.callIf [Part.m_equalizerCapabilityAgent] (Ref.part Part.m_equalizerRuntimeSetup)
     Op.getAllEqualizers []] ++
  env.allEqualizers.map (fun equalizer =>
    Step.callIf [Part.m_equalizerCapabilityAgent] (Ref.part Part.m_equalizerController)
      Op.unregisterEqualizer [Ref.element equalizer]) ++
  [Step.callIf [Part.m_equalizerCapabilityAgent] (Ref.part Part.m_equalizerRuntimeSetup)
     Op.getAllEqualizerControllerListeners []] ++
  env.allEqualizerControllerListeners.map (fun listener =>
    Step.callIf [Part.m_equalizerCapabilityAgent] (Ref.part Part.m_equalizerController)
      Op.removeListener [Ref.element listener]) ++
  [shutdownIf Part.m_equalizerCapabilityAgent]

/-- Lines 2078-2081: closing the device-setting storage. -/
def closeStorage : List Step :=
  [Step.callIf [Part.m_deviceSettingStorage] (Ref.part Part.m_deviceSettingStorage) Op.close []]

/-- Lines 2083-2087: detaching the call audio device proxy. -/
def removeProxy (flags : BuildFlags) : List Step :=
  if flags.ENABLE_COMMS_AUDIO_PROXY then
    [Step.callIf [Part.m_callManager] (Ref.part Part.m_callManager) Op.removeObserver
      [Ref.part Part.m_callAudioDeviceProxy]]
  else []

/-- The statements of the destructor `SmartScreenClient::~SmartScreenClient`
(lines 1932-2088), in source order.  Its debug log records are left out. -/
def teardownSteps (flags : BuildFlags) (env : Factories) : List Step :=
  shutdownFirst ++ shutdownTrackers flags ++ shutdownCalls ++ shutdownGateways flags ++
  shutdownDoNotDisturb ++ shutdownEqualizer env ++ closeStorage ++ removeProxy flags

/-- The candidate `create` allocates: every pointer member is null. -/
def fresh (inputs : Inputs) : Build :=
  { provided := inputs.provided, present := [], events := [] }

/-- Function `SmartScreenClient::initialize`, run on a candidate: it returns
true when the outcome is `completed` and false when it is `aborted`. -/
def initializeClient (flags : BuildFlags) (env : Factories) (inputs : Inputs) (b : Build) :
    Outcome × Build :=
  run env (initializeSteps flags env inputs) b

/-- The destructor `SmartScreenClient::~SmartScreenClient`, run on a candidate. -/
def teardown (flags : BuildFlags) (env : Factories) (b : Build) : Outcome × Build :=
  run env (teardownSteps flags env) b

/-- What the destructor does on a client, apart from what happened before. -/
def teardownEvents (flags : BuildFlags) (env : Factories) (b : Build) : List Event :=
  (teardown flags env { b with events := [] }).2.events

/-- The event of a call `member->shutdown()`. -/
def shutdownOf (member : Part) : Event :=
  Event.call (Ref.part member) Op.shutdown []

/-- Whether an event is a `shutdown` call. -/
def Event.isShutdown : Event → Bool
  | Event.call _ Op.shutdown _ => true
  | _ => false

/-- In a trace, `second` occurs, and only after an occurrence of `first`. -/
def comesBefore (first second : Event) (events : List Event) : Prop :=
  ∃ earlier later, events = earlier ++ first :: later ∧ second ∉ earlier ∧ second ∈ later

/-- What `create` hands back: an instance, or null after the candidate (if one
was allocated) has been destroyed; `undefined` when construction or the
destructor called through a null pointer.  Each carries the final state, with
everything that happened. -/
inductive Created where
  | client (built : Build)
  | null (discarded : Build)
  | undefined (state : Build)
deriving DecidableEq, Repr

/-- Function `SmartScreenClient::create` (lines 108-252). -/
def create (flags : BuildFlags) (env : Factories) (inputs : Inputs) : Created :=
  if Input.deviceInfo ∈ inputs.provided then
    match initializeClient flags env inputs (fresh inputs) with
    | (Outcome.completed, client) => Created.client client
    | (Outcome.aborted, candidate) =>
      -- return nullptr: the unique_ptr destroys the candidate
      match teardown flags env candidate with
      | (Outcome.fault, state) => Created.undefined state
      | (_, discarded) => Created.null discarded
    | (Outcome.fault, state) => Created.undefined state
  else
    Created.null ((fresh inputs).emit [Event.log Level.ERROR "initializeFailed" "nullDeviceInfo"])

/-- Every pointer parameter, non-null. -/
def allInputs : List Input :=
  [Input.deviceInfo, Input.customerDataManager, Input.speakMediaPlayer,
   Input.audioMediaPlayerFactory, Input.alertsMediaPlayer, Input.notificationsMediaPlayer,
   Input.bluetoothMediaPlayer, Input.ringtoneMediaPlayer, Input.systemSoundMediaPlayer,
   Input.metricSinkInterface, Input.speakSpeaker, Input.alertsSpeaker,
   Input.notificationsSpeaker, Input.bluetoothSpeaker, Input.ringtoneSpeaker,
   Input.systemSoundSpeaker, Input.phoneSpeaker, Input.phoneCaller, Input.meetingSpeaker,
   Input.meetingClient, Input.calendarClient, Input.commsMediaPlayer, Input.commsSpeaker,
   Input.sharedDataStream, Input.equalizerRuntimeSetup, Input.audioFactory, Input.authDelegate,
   Input.alertStorage, Input.messageStorage, Input.notificationsStorage,
   Input.deviceSettingStorage, Input.bluetoothStorage, Input.miscStorage,
   Input.internetConnectionMonitor, Input.capabilitiesDelegate, Input.contextManager,
   Input.transportFactory, Input.localeAssetsManager, Input.systemTimezone,
   Input.softwareInfoSenderObserver, Input.bluetoothDeviceManager, Input.avsGatewayManager,
   Input.powerResourceManager, Input.diagnostics, Input.externalCapabilitiesBuilder,
   Input.channelVolumeFactory, Input.visualStateProvider]

/-- A complete set of arguments: every pointer non-null, one dialog state
observer, one audio speaker, a valid firmware version. -/
def sampleInputs : Inputs :=
  { provided := allInputs
    alexaDialogStateObservers := [{ id := 100 }]
    audioSpeakers := [{ id := 101 }]
    additionalSpeakers := []
    externalMusicProviderSpeakers := []
    firmwareVersionValid := true
    APLMaxVersion := "1.4" }

/-- The same arguments with one pointer null. -/
def Inputs.without (inputs : Inputs) (name : Input) : Inputs :=
  { inputs with provided := inputs.provided.filter (fun i => i ≠ name) }

/-- Collaborators with which every factory yields an instance and every tested
call succeeds; one equalizer and one listener. -/
def sampleFactories : Factories :=
  { creates := fun _ => true
    succeeds := fun _ _ _ => true
    defaultSupportedWakeWordsEmpty := false
    allEqualizers := [{ id := 200 }]
    allEqualizerControllerListeners := [{ id := 201 }] }

/-- The same collaborators, except that the factory of one object yields nothing. -/
def Factories.failing (env : Factories) (part : Part) : Factories :=
  { env with creates := fun p => decide (p ≠ part) && env.creates p }

/-- No optional feature compiled in. -/
def plainFlags : BuildFlags :=
  { ENABLE_CAPTIONS := false, ENABLE_OPUS := false, ACSDK_ENABLE_METRICS_RECORDING := false,
    ENABLE_PCC := false, ENABLE_MCC := false, ENABLE_COMMS := false,
    ENABLE_COMMS_AUDIO_PROXY := false, ENABLE_MRM := false, ENABLE_REVOKE_AUTH := false }

/-- Every optional feature compiled in. -/
def allFlags : BuildFlags :=
  { ENABLE_CAPTIONS := true, ENABLE_OPUS := true, ACSDK_ENABLE_METRICS_RECORDING := true,
    ENABLE_PCC := true, ENABLE_MCC := true, ENABLE_COMMS := true,
    ENABLE_COMMS_AUDIO_PROXY := true, ENABLE_MRM := true, ENABLE_REVOKE_AUTH := true }

/-! ## Reading a run of guarded calls -/

/-- Whether a statement is a guarded call `if (guards...) receiver->op(args)`. -/
def Step.isGuardedCall : Step → Bool
  | Step.callIf _ _ _ _ => true
  | _ => false

/-- The event a guarded call issues in a given state, if its guards hold. -/
def Step.fires (b : Build) : Step → Option Event
  | Step.callIf guards receiver op args =>
    if guards.all (fun g => decide (g ∈ b.present)) then some (Event.call receiver op args)
    else none
  | _ => none

/-- Whether a guarded call, in a given state, does not call through a null
pointer: its guards fail or its receiver is there. -/
def Step.faultFree (b : Build) : Step → Bool
  | Step.callIf guards receiver _ _ =>
    !(guards.all (fun g => decide (g ∈ b.present))) || b.has receiver
  | _ => true

/-- Whether a statement calls the member function `op` (on any object). -/
def Step.calls (op : Op) : Step → Bool
  | Step.call _ called _ => decide (called = op)
  | Step.callIf _ _ called _ => decide (called = op)
  | Step.requireCall _ called _ _ _ _ => decide (called = op)
  | _ => false

/-- The final state `create` leaves, whatever it hands back. -/
def Created.state : Created → Build
  | Created.client built => built
  | Created.null discarded => discarded
  | Created.undefined state => state

/-- Whether `create` hands back null. -/
def Created.isNull : Created → Bool
  | Created.null _ => true
  | _ => false

/-- The client `create` builds from the sample arguments, every optional
feature compiled in and every factory succeeding. -/
def sampleBuilt : Build :=
  (create allFlags sampleFactories sampleInputs).state

/-- The event of `removeConnectionObserver(m_dndCapabilityAgent)`. -/
def detachDoNotDisturb : Event :=
  Event.call (Ref.part Part.m_connectionManager) Op.removeConnectionStatusObserver
    [Ref.part Part.m_dndCapabilityAgent]

/-- The event of `removeCallStateObserver(m_mrmCapabilityAgent)`. -/
def detachMultiRoomMusic : Event :=
  Event.call (Ref.part Part.m_callManager) Op.removeObserver
    [Ref.part Part.m_mrmCapabilityAgent]

/-- The event of `m_deviceSettingStorage->close()`. -/
def closeOfStorage : Event :=
  Event.call (Ref.part Part.m_deviceSettingStorage) Op.close []

/-- The sample arguments with `internetConnectionMonitor` null. -/
def sampleNoInternetMonitor : Inputs :=
  sampleInputs.without Input.internetConnectionMonitor

/-- The sample arguments with `localeAssetsManager` null. -/
def sampleNoLocaleAssets : Inputs :=
  sampleInputs.without Input.localeAssetsManager

/-! ## Statements that do not depend on one member -/

/-- Whether a statement runs through whether or not member `p` is null, given
that it runs through when `p` is non-null: it is not a test of `p`, it does not
call through `p` unless guarded by `p`, and it does not set `p` from another
object. -/
def Step.insensitiveTo (p : Part) : Step → Bool
  | Step.check _ _ _ _ => true
  | Step.make part => decide (part ≠ p)
  | Step.create _ => true
  | Step.obtain _ => true
  | Step.store part source => decide (part ≠ p) && decide (source ≠ Ref.part p)
  | Step.require part _ _ _ => decide (part ≠ p)
  | Step.report _ _ _ _ => true
  | Step.call receiver _ _ => decide (receiver ≠ Ref.part p)
  | Step.callIf guards receiver _ _ => decide (receiver ≠ Ref.part p) || decide (p ∈ guards)
  | Step.requireCall receiver _ _ _ _ _ => decide (receiver ≠ Ref.part p)

/-- Two candidates built from the same arguments whose members agree, except
that `p` is null in the second. -/
def Build.agreesExcept (p : Part) (b other : Build) : Prop :=
  other.provided = b.provided ∧ p ∉ other.present ∧
    ∀ q, q ≠ p → (q ∈ other.present ↔ q ∈ b.present)

/-- The optional members whose factory `initialize` lets fail: it logs the
failure of the first two and does not test the third. -/
def toleratedMembers : List Part :=
  [Part.m_phoneCallControllerCapabilityAgent, Part.m_meetingClientControllerCapabilityAgent,
   Part.m_captionManager]

/-- The sample collaborators, except that the certified sender factory yields nothing. -/
def sampleNoCertifiedSender : Factories :=
  sampleFactories.failing Part.m_certifiedSender

/-- The candidate built from the sample arguments at the point where
`initialize` tests the certified sender: the 27 statements before that test
have run. -/
def sampleReached : Build :=
  (run sampleNoCertifiedSender
    ((initializeSteps plainFlags sampleNoCertifiedSender sampleInputs).take 27)
    (fresh sampleInputs)).2

/-- The sample arguments with `contextManager` and `avsGatewayManager` null. -/
def sampleTwoMissing : Inputs :=
  (sampleInputs.without Input.contextManager).without Input.avsGatewayManager

/-! ## Member functions of the built client -/

/-- The `CapabilitiesObserverInterface::State` value the code compares with;
any other value of the type is `other`. -/
inductive CapabilitiesObserverInterface.State where
  | SUCCESS
  | other (value : Nat)
deriving DecidableEq, Repr

/-- A `CapabilitiesObserverInterface::Error`, never inspected. -/
structure CapabilitiesObserverInterface.Error where
  value : Nat
deriving DecidableEq, Repr

/-- An `avsCommon::sdkInterfaces::endpoints::EndpointIdentifier`. -/
abbrev EndpointIdentifier := String

/-- Member function `SmartScreenClient::onCapabilitiesStateChange` (lines 1418-1426). -/
def onCapabilitiesStateChange (newState : CapabilitiesObserverInterface.State)
    (_newError : CapabilitiesObserverInterface.Error)
    (_addedOrUpdatedEndpoints _deletedEndpoints : List EndpointIdentifier) : Exec Unit := do
  if CapabilitiesObserverInterface.State.SUCCESS = newState then
    invoke (fun c => c.m_connectionManager) Method.enable

/-- The `avsCommon::avs::FocusState` value the code compares with; any other
value of the type is `other`. -/
inductive FocusState where
  | FOREGROUND
  | other (value : Nat)
deriving DecidableEq, Repr

/-- An `avsCommon::avs::MixingBehavior`, never inspected. -/
structure MixingBehavior where
  value : Nat
deriving DecidableEq, Repr

/-- The constant `APL_INTERFACE` (line 1478). -/
def APL_INTERFACE : String := "Alexa.Presentation.APL"

/-- Member function `SmartScreenClient::forceExit` (lines 1480-1484).  The
constant `FocusManagerInterface::DIALOG_CHANNEL_NAME` is declared outside this
file and is a parameter here; `shared_from_this()` is the client itself. -/
def forceExit (DIALOG_CHANNEL_NAME : String) : List Step :=
  [Step.call (Ref.part Part.m_audioFocusManager)
    (Op.acquireChannel DIALOG_CHANNEL_NAME APL_INTERFACE) [Ref.this]]

/-- Member function `SmartScreenClient::clearCard` (lines 1497-1500). -/
def clearCard : List Step :=
  [Step.call (Ref.part Part.m_alexaPresentation) Op.clearCard [],
   Step.call (Ref.part Part.m_templateRuntime) Op.clearCard []]

/-- Member function `SmartScreenClient::onFocusChanged` (lines 1486-1495). -/
def onFocusChanged (newFocus : FocusState) (_behavior : MixingBehavior) : List Step :=
  if newFocus = FocusState.FOREGROUND then
    -- stopForegroundActivity()
    [Step.call (Ref.part Part.m_audioFocusManager) Op.stopForegroundActivity [],
     Step.call (Ref.part Part.m_audioInputProcessor) Op.resetState []] ++
    clearCard
  else []

/-- What the collaborators answer to `setFirmwareVersion`. -/
structure SenderAnswers where
  /-- whether `SoftwareInfoSender::create(firmwareVersion,
  sendSoftwareInfoOnConnected, ...)` yields an instance -/
  create : FirmwareVersion → Bool → Bool
  /-- the result of `m_softwareInfoSender->setFirmwareVersion(firmwareVersion)` -/
  setFirmwareVersion : FirmwareVersion → Bool

/-- The event of `m_softwareInfoSender->setFirmwareVersion(firmwareVersion)`. -/
def forwardOfFirmwareVersion (firmwareVersion : FirmwareVersion) : Event :=
  Event.call (Ref.part Part.m_softwareInfoSender) (Op.setFirmwareVersion firmwareVersion) []

/-- Member function `SmartScreenClient::setFirmwareVersion` (lines 1698-1720):
its result and the client it leaves. -/
def setFirmwareVersion (env : SenderAnswers) (firmwareVersion : FirmwareVersion) (b : Build) :
    Bool × Build :=
  if Part.m_softwareInfoSender ∉ b.present then
    let created := (b.assign Part.m_softwareInfoSender (env.create firmwareVersion true)).emit
      [Event.construct Part.m_softwareInfoSender]
    if Part.m_softwareInfoSender ∈ created.present then (true, created)
    else (false, created.emit
      [Event.log Level.ERROR "setFirmwareVersionFailed" "unableToCreateSoftwareInfoSender"])
  else
    (env.setFirmwareVersion firmwareVersion, b.emit [forwardOfFirmwareVersion firmwareVersion])

/-- A sequence of `setFirmwareVersion` calls, each with its own collaborator
answers: the results in order and the client left at the end. -/
def setFirmwareVersionAll : List (SenderAnswers × FirmwareVersion) → Build → List Bool × Build
  | [], b => ([], b)
  | (env, firmwareVersion) :: rest, b =>
    let first := setFirmwareVersion env firmwareVersion b
    let others := setFirmwareVersionAll rest first.2
    (first.1 :: others.1, others.2)

/-- Along a sequence of `setFirmwareVersion` calls, the number of calls that
install a sender: calls that find `m_softwareInfoSender` null and whose factory
yields an instance. -/
def installations : List (SenderAnswers × FirmwareVersion) → Build → Nat
  | [], _ => 0
  | (env, firmwareVersion) :: rest, b =>
    (if Part.m_softwareInfoSender ∉ b.present ∧ env.create firmwareVersion true = true then 1
     else 0) + installations rest (setFirmwareVersion env firmwareVersion b).2

/-- Whether an event is the construction of the software info sender. -/
def Event.isSenderConstruction : Event → Bool
  | Event.construct Part.m_softwareInfoSender => true
  | _ => false

/-! ## Threads inside `connect` -/

/-- Where a thread stands inside `connect` (lines 1428-1460): each point is
followed by at most one read or write of a member or one call on a
collaborator. -/
inductive ConnectPoint where
  /-- before the tests `if (performReset)` and `if (m_defaultEndpointBuilder)` -/
  | entry
  /-- before `m_defaultEndpointBuilder->buildDefaultEndpoint()` -/
  | build
  /-- before `m_endpointManager->registerEndpoint(std::move(defaultEndpoint))` and the poll -/
  | registerEndpoint (defaultEndpoint : Endpoint)
  /-- before `m_defaultEndpointBuilder.reset()` -/
  | reset
  /-- before `m_endpointManager->waitForPendingRegistrationsToEnqueue()` -/
  | waitForPendingRegistrationsToEnqueue
  /-- before `m_avsGatewayManager->setAVSGatewayAssigner(m_connectionManager)` -/
  | setAVSGatewayAssigner
  /-- before `m_connectionManager->enable()` -/
  | enable
  /-- after the function has returned -/
  | returned
deriving DecidableEq, Repr

/-- One step of a thread inside `connect`, from a point to the next. -/
def connectStep (env : Collaborators) (performReset : Bool) : ConnectPoint → Exec ConnectPoint
  | ConnectPoint.entry => do
      if performReset then
        if (← member (fun c => c.m_defaultEndpointBuilder)).isSome then
          return ConnectPoint.build
        else
          return ConnectPoint.waitForPendingRegistrationsToEnqueue
      else
        return ConnectPoint.enable
  | ConnectPoint.build => do
      invoke (fun c => c.m_defaultEndpointBuilder) Method.buildDefaultEndpoint
      match env.buildDefaultEndpoint with
      | none => return ConnectPoint.returned
      | some defaultEndpoint => return ConnectPoint.registerEndpoint defaultEndpoint
  | ConnectPoint.registerEndpoint defaultEndpoint => do
      invoke (fun c => c.m_endpointManager) (Method.registerEndpoint defaultEndpoint)
      let resultFuture := env.registerEndpoint defaultEndpoint
      if resultFuture.status = future_status.ready then
        let result := resultFuture.value
        if result ≠ RegistrationResult.SUCCEEDED then
          return ConnectPoint.returned
      return ConnectPoint.reset
  | ConnectPoint.reset => do
      modify (fun m => { m with self := { m.self with m_defaultEndpointBuilder := none } })
      return ConnectPoint.waitForPendingRegistrationsToEnqueue
  | ConnectPoint.waitForPendingRegistrationsToEnqueue => do
      invoke (fun c => c.m_endpointManager) Method.waitForPendingRegistrationsToEnqueue
      return ConnectPoint.setAVSGatewayAssigner
  | ConnectPoint.setAVSGatewayAssigner => do
      let connectionManager ← member (fun c => c.m_connectionManager)
      invoke (fun c => c.m_avsGatewayManager) (Method.setAVSGatewayAssigner connectionManager)
      return ConnectPoint.enable
  | ConnectPoint.enable => do
      invoke (fun c => c.m_connectionManager) Method.enable
      return ConnectPoint.returned
  | ConnectPoint.returned => return ConnectPoint.returned

/-- Threads that all run `connect(performReset)` on the same client, one step
at a time: `schedule` names the thread that takes each step. -/
def interleave (env : Collaborators) (performReset : Bool) :
    List Nat → List ConnectPoint → Exec (List ConnectPoint)
  | [], threads => pure threads
  | thread :: schedule, threads =>
    match threads.get? thread with
    | none => interleave env performReset schedule threads
    | some point => do
        let next ← connectStep env performReset point
        interleave env performReset schedule (threads.set thread next)

/-- The interface `channelVolumeFactory->createChannelVolumeInterface(speaker[,
type])` returns: the speaker it wraps and the type argument, `none` when the
argument is left to the callee's default. -/
structure ChannelVolume where
  speaker : Ref
  type : Option ChannelVolumeType
deriving DecidableEq, Repr

/-- The vector `audioChannelVolumeInterfaces` (lines 786-790). -/
def audioChannelVolumeInterfaces (inputs : Inputs) : List ChannelVolume :=
  inputs.audioSpeakers.map (fun speaker => { speaker := Ref.element speaker, type := none })

/-- The vector `allAvsChannelVolumeInterfaces` once it is complete (lines 779-802). -/
def allAvsChannelVolumeInterfaces (flags : BuildFlags) (inputs : Inputs) : List ChannelVolume :=
  (allAvsSpeakers flags inputs).map (fun speaker => { speaker := speaker, type := none }) ++
  audioChannelVolumeInterfaces inputs ++
  [{ speaker := Ref.input Input.bluetoothSpeaker, type := none },
   { speaker := Ref.input Input.ringtoneSpeaker, type := none }]

/-- The vector `allAlertChannelVolumeInterfaces` (lines 804-808). -/
def allAlertChannelVolumeInterfaces (inputs : Inputs) : List ChannelVolume :=
  (allAlertSpeakers inputs).map (fun speaker =>
    { speaker := speaker, type := some ChannelVolumeType.AVS_ALERTS_VOLUME })

/-- The vector `allChannelVolumeInterfaces` handed to `SpeakerManager::create`
(lines 815-822). -/
def allChannelVolumeInterfaces (flags : BuildFlags) (inputs : Inputs) : List ChannelVolume :=
  allAvsChannelVolumeInterfaces flags inputs ++ allAlertChannelVolumeInterfaces inputs

/-- The channel volume interfaces `SpeakerManager::create` is handed (line 821). -/
def speakerManagerChannelVolumeInterfaces (flags : BuildFlags) (inputs : Inputs) :
    List ChannelVolume :=
  allChannelVolumeInterfaces flags inputs

/-- The channel volume interfaces `AudioPlayer::create` is handed (line 838). -/
def audioPlayerChannelVolumeInterfaces (inputs : Inputs) : List ChannelVolume :=
  audioChannelVolumeInterfaces inputs

/-- The interface a `createChannelVolumeInterface` call returns, if the
statement is such a call. -/
def Step.channelVolume : Step → Option ChannelVolume
  | Step.call _ (Op.createChannelVolumeInterface type) [speaker] =>
    some { speaker := speaker, type := type }
  | _ => none

/-- The additional speakers of one type, in iteration order. -/
def additionalOfType (type : ChannelVolumeType) (inputs : Inputs) : List Component :=
  (inputs.additionalSpeakers.filter (fun entry => decide (entry.1 = type))).map (fun entry => entry.2)

/-! ## Reading the statements of `initialize` and of the destructor -/

/-- The member or local a statement assigns, if it assigns one. -/
def Step.target : Step → Option Part
  | Step.make part => some part
  | Step.create part => some part
  | Step.obtain part => some part
  | Step.store part _ => some part
  | _ => none

/-- Whether a statement assigns none of the given members and locals. -/
def Step.spares (parts : List Part) (step : Step) : Bool :=
  match step.target with
  | none => true
  | some part => decide (part ∉ parts)

/-- Lines 329-524 of `initialize`: the tests of the arguments and the transport. -/
def beforeSettings (inputs : Inputs) : List Step :=
  validationSteps inputs ++ transportSteps inputs

/-- Lines 526-1137 of `initialize`: from the device settings to the visual components. -/
def settingsToVisual (flags : BuildFlags) (env : Factories) (inputs : Inputs) : List Step :=
  settingsSteps env ++ focusSteps flags ++ speechSteps flags ++ speakerSteps flags inputs ++
  playerSteps ++ telephonySteps flags inputs ++ mediaSteps flags inputs ++ visualSteps inputs

/-- Lines 1178-1415 of `initialize`: what follows the equalizer. -/
def afterEqualizer (flags : BuildFlags) (inputs : Inputs) : List Step :=
  systemSteps flags inputs ++ bluetoothSteps inputs ++ endpointSteps flags ++
  finishingSteps flags inputs

/-- The members the destructor calls `shutdown` on, in order. -/
def shutdownMembers (flags : BuildFlags) : List Part :=
  firstMembers ++ trackerMembers flags ++ [Part.m_mrmCapabilityAgent, Part.m_callManager] ++
  gatewayMembers flags ++
  [Part.m_dndCapabilityAgent, Part.m_visualCharacteristics, Part.m_equalizerCapabilityAgent]

/-- The agent a statement registers on the default endpoint builder with
`withCapability`, if it is such a call: the handler argument. -/
def Step.registers : Step → Option Ref
  | Step.call _ Op.withCapability [_, handler] => some handler
  | Step.callIf _ _ Op.withCapability [_, handler] => some handler
  | _ => none

/-- The agent a `withCapability` call on the default endpoint builder
registered, if the event is such a call. -/
def Event.registered : Event → Option Ref
  | Event.call (Ref.part Part.m_defaultEndpointBuilder) Op.withCapability [_, handler] =>
    some handler
  | _ => none

/-- A client with the do-not-disturb agent and the device-setting storage but
no connection manager. -/
def sampleOrphanedAgent : Build :=
  { provided := [], present := [Part.m_dndCapabilityAgent, Part.m_deviceSettingStorage],
    events := [] }

/-- Concrete answers to `setFirmwareVersion`: the factory yields an instance
for versions above 1 when asked to send on connection, and the installed
sender accepts even versions. -/
def sampleSenderAnswers : SenderAnswers :=
  { create := fun firmwareVersion sendSoftwareInfoOnConnected =>
      sendSoftwareInfoOnConnected && decide (1 < firmwareVersion)
    setFirmwareVersion := fun firmwareVersion => decide (firmwareVersion % 2 = 0) }

/-- The sample arguments with an invalid firmware version. -/
def sampleNoFirmware : Inputs :=
  { sampleInputs with firmwareVersionValid := false }

/-- The client `create` builds from the sample arguments when the firmware
version is not valid, no optional feature compiled in. -/
def sampleUnversioned : Build :=
  (create plainFlags sampleFactories sampleNoFirmware).state

/-- The sample arguments with three additional speakers, one of each kind. -/
def sampleWithAdditional : Inputs :=
  { sampleInputs with
    additionalSpeakers :=
      [(ChannelVolumeType.AVS_SPEAKER_VOLUME, { id := 110 }),
       (ChannelVolumeType.AVS_ALERTS_VOLUME, { id := 111 }),
       (ChannelVolumeType.other 7, { id := 112 })] }

/-! ## The construction steps `initialize` tests -/

/-- The construction steps of `initialize` whose result is tested with
`if (!part) { ACSDK_ERROR(...); return false; }`, in source order: the member
or local, the reason logged, and whether the step is compiled in and reached
with the given arguments. -/
def testedSteps (flags : BuildFlags) (inputs : Inputs) : List (Part × String × Bool) :=
  [(Part.m_connectionManager, "unableToCreateConnectionManager", true),
   (Part.m_certifiedSender, "unableToCreateCertifiedSender", true),
   (Part.m_exceptionSender, "unableToCreateExceptionSender", true),
   (Part.m_directiveSequencer, "unableToCreateDirectiveSequencer", true),
   (Part.m_endpointManager, "endpointRegistrationManagerCreateFailed", true),
   (Part.m_dndCapabilityAgent, "unableToCreateDNDCapabilityAgent", true),
   (Part.m_deviceSettingsManager, "createDeviceSettingsManagerFailed", true),
   (Part.audioVirtualChannelConfiguration, "unableToReadAudioChannelConfiguration", true),
   (Part.m_userInactivityMonitor, "unableToCreateUserInactivityMonitor", true),
   (Part.m_audioInputProcessor, "unableToCreateAudioInputProcessor", true),
   (Part.m_speechSynthesizer, "unableToCreateSpeechSynthesizer", true),
   (Part.m_playbackController, "unableToCreatePlaybackController", true),
   (Part.m_playbackRouter, "unableToCreatePlaybackRouter", true),
   (Part.m_speakerManager, "unableToCreateSpeakerManager", true),
   (Part.m_audioPlayer, "unableToCreateAudioPlayer", true),
   (Part.alertRenderer, "unableToCreateAlarmRenderer", true),
   (Part.m_alertsCapabilityAgent, "unableToCreateAlertsCapabilityAgent", true),
   (Part.m_notificationsRenderer, "unableToCreateNotificationsRenderer", true),
   (Part.m_notificationsCapabilityAgent, "unableToCreateNotificationsCapabilityAgent", true),
   (Part.m_interactionCapabilityAgent, "unableToCreateInteractionModelCapabilityAgent", true),
   (Part.callManagerInstance, "unableToCreateCallManager", flags.ENABLE_COMMS),
   (Part.m_externalMediaPlayer, "unableToCreateExternalMediaPlayer", true),
   (Part.mrmHandler, "Unable to create mrmHandler.", flags.ENABLE_MRM),
   (Part.m_mrmCapabilityAgent, "unableToCreateMRMCapabilityAgent", flags.ENABLE_MRM),
   (Part.m_alexaPresentation, "unableToCreateAlexaPresentationCapabilityAgent", true),
   (Part.m_templateRuntime, "unableToCreateTemplateRuntimeCapabilityAgent", true),
   (Part.m_visualCharacteristics, "unableToCreateVisualCharacteristicsCapabilityAgent", true),
   (Part.equalizerController, "unableToCreateEqualizerController",
     decide (Input.equalizerRuntimeSetup ∈ inputs.provided)),
   (Part.m_equalizerCapabilityAgent, "unableToCreateEqualizerCapabilityAgent",
     decide (Input.equalizerRuntimeSetup ∈ inputs.provided)),
   (Part.timezoneHandler, "unableToCreateTimeZoneHandler", true),
   (Part.localeHandler, "unableToCreateLocaleHandler", true),
   (Part.reportGenerator, "unableToCreateStateReportGenerator", true),
   (Part.reportStateHandler, "unableToCreateReportStateHandler", true),
   (Part.systemCapabilityProvider, "unableToCreateSystemCapabilityProvider", true),
   (Part.m_revokeAuthorizationHandler, "unableToCreateRevokeAuthorizationHandler",
     flags.ENABLE_REVOKE_AUTH),
   (Part.tempSender, "unableToCreateSoftwareInfoSender", inputs.firmwareVersionValid),
   (Part.m_apiGatewayCapabilityAgent, "unableToCreateApiGatewayCapabilityAgent", true),
   (Part.m_alexaMessageSender, "unableToCreateAlexaMessageSender", true),
   (Part.m_alexaCapabilityAgent, "unableToCreateAlexaCapabilityAgent", true)]

/-- A list of statements contains, for the entries of a list of tested
construction steps that are compiled in, the statements
`part = X::create(...); if (!part) { LOG; return false; }` in the order of the
list, and no other statement of it assigns a member or local of an entry that
is still to come. -/
inductive InOrder : List (Part × String × Bool) → List Step → Prop where
  | done (steps : List Step) : InOrder [] steps
  | skip (pending : List (Part × String × Bool)) (chunk rest : List Step) :
      chunk.all (Step.spares (pending.map (fun entry => entry.1))) = true →
      InOrder pending rest → InOrder pending (chunk ++ rest)
  | here (part : Part) (reason : String) (pending : List (Part × String × Bool))
      (rest : List Step) :
      part ∉ pending.map (fun entry => entry.1) →
      InOrder pending rest → InOrder ((part, reason, true) :: pending) (created part reason ++ rest)
  | absent (part : Part) (reason : String) (pending : List (Part × String × Bool))
      (rest : List Step) :
      InOrder pending rest → InOrder ((part, reason, false) :: pending) rest

/-- Whether a call is a `waitForPendingRegistrationsToEnqueue` call. -/
def Call.isWait (c : Call) : Bool :=
  decide (c.method = Method.waitForPendingRegistrationsToEnqueue)

/-- Whether, in a call trace, every `enable` call comes after a
`registerEndpoint` call and after a `waitForPendingRegistrationsToEnqueue`
call; `registered` and `enqueued` say whether such a call came before the
trace. -/
def enabledInOrder : Bool → Bool → List Call → Bool
  | _, _, [] => true
  | registered, enqueued, c :: rest =>
    if c.method = Method.enable then
      registered && enqueued && enabledInOrder registered enqueued rest
    else
      enabledInOrder (registered || c.isRegisterEndpoint) (enqueued || c.isWait) rest

/-- Whether a thread at this point of `connect(true)` has passed the test of
the builder reference: it has called `buildDefaultEndpoint` or found the
reference empty. -/
def ConnectPoint.hasBuilt : ConnectPoint → Bool
  | ConnectPoint.entry => false
  | ConnectPoint.build => false
  | _ => true

/-- Whether a thread at this point has called `buildDefaultEndpoint` and is
about to call `registerEndpoint`. -/
def ConnectPoint.isRegister : ConnectPoint → Bool
  | ConnectPoint.registerEndpoint _ => true
  | _ => false

/-- Whether a thread can be at this point of `connect(true)` only after a
`registerEndpoint` call has been issued (by it or, if it found the builder
reference empty, by the thread that emptied it or by an earlier call). -/
def ConnectPoint.afterRegistration : ConnectPoint → Bool
  | ConnectPoint.reset => true
  | ConnectPoint.waitForPendingRegistrationsToEnqueue => true
  | ConnectPoint.setAVSGatewayAssigner => true
  | ConnectPoint.enable => true
  | _ => false

/-- Whether a thread can be at this point of `connect(true)` only after it has
called `waitForPendingRegistrationsToEnqueue`. -/
def ConnectPoint.afterEnqueue : ConnectPoint → Bool
  | ConnectPoint.setAVSGatewayAssigner => true
  | ConnectPoint.enable => true
  | _ => false

/-- What holds of the threads inside `connect(true)` and of the calls issued so
far, at every moment of every interleaving: a `registerEndpoint` call has been
issued (or the client had no builder reference left at the start, `served`) if
the builder reference is empty or a thread is past the registration; a
`waitForPendingRegistrationsToEnqueue` call has been issued if a thread is past
it; every `enable` call so far came after such calls; and the
`buildDefaultEndpoint` calls are at most as many as the threads that have
passed the test of the builder reference, the `registerEndpoint` calls at most
as many as the `buildDefaultEndpoint` calls of threads that are past the
registration. -/
def ConnectInvariant (served : Bool) (threads : List ConnectPoint) (m : Machine) : Prop :=
  (m.self.m_defaultEndpointBuilder = none →
    (served || m.calls.any Call.isRegisterEndpoint) = true) ∧
  (∀ point ∈ threads, point.afterRegistration = true →
    (served || m.calls.any Call.isRegisterEndpoint) = true) ∧
  (∀ point ∈ threads, point.afterEnqueue = true → m.calls.any Call.isWait = true) ∧
  enabledInOrder served false m.calls = true ∧
  (callsOf Method.buildDefaultEndpoint m.calls).length ≤
    threads.countP ConnectPoint.hasBuilt ∧
  (m.calls.filter Call.isRegisterEndpoint).length + threads.countP ConnectPoint.isRegister ≤
    (callsOf Method.buildDefaultEndpoint m.calls).length

/-! ## Running the member functions -/

/-- The members a successful `initialize` leaves non-null, by name. -/
theorem initialized_iff (c : SmartScreenClient) :
    c.initialized = true ↔ ∃ cm em gm fm aip, c.m_connectionManager = some cm ∧
      c.m_endpointManager = some em ∧ c.m_avsGatewayManager = some gm ∧
      c.m_audioFocusManager = some fm ∧ c.m_audioInputProcessor = some aip := by
  obtain ⟨_ | cm, _ | em, _ | gm, _ | fm, _ | aip, b⟩ := c <;> simp [SmartScreenClient.initialized]

/-- The result and the calls of `notifyOfWakeWord`, in closed form. -/
theorem notifyOfWakeWord_run (env : Collaborators) (m : Machine) (cm fm aip : Component)
    (hcm : m.self.m_connectionManager = some cm) (hfm : m.self.m_audioFocusManager = some fm)
    (haip : m.self.m_audioInputProcessor = some aip)
    (p : AudioProvider) (b e : Index) (k : String) (ts : time_point) (md : KWDMetadata) :
    (notifyOfWakeWord env p b e k ts md).run m =
      some (if env.isConnected then env.recognize
                { audioProvider := p, initiator := Initiator.WAKEWORD, startOfSpeechTimestamp := ts,
                  begin := some b, keywordEndIndex := some e, keyword := some k, KWDMetadata := some md }
              else promise_set_value (decide (env.KEYWORD_TEXT_STOP = k)),
            m.issue ((if env.debug5 then [{ receiver := cm, method := Method.isConnected }] else []) ++
              { receiver := cm, method := Method.isConnected } ::
              (if env.isConnected then [Call.mk aip (Method.recognize
                  { audioProvider := p, initiator := Initiator.WAKEWORD, startOfSpeechTimestamp := ts,
                    begin := some b, keywordEndIndex := some e, keyword := some k, KWDMetadata := some md })]
                else if env.KEYWORD_TEXT_STOP = k then
                  [{ receiver := fm, method := Method.stopForegroundActivity }]
                else []))) := by
  cases hd : env.debug5 <;> cases hc : env.isConnected <;> by_cases hk : env.KEYWORD_TEXT_STOP = k <;>
  simp [notifyOfWakeWord, stopForegroundActivity, Machine.issue, invoke, hcm, hfm, haip, hd, hc, hk,
    promise_set_value, StateT.run, bind, StateT.bind, pure, StateT.pure, Option.bind]

/-- The result and the call of `notifyOfTapToTalk`. -/
theorem notifyOfTapToTalk_run (env : Collaborators) (m : Machine) (aip : Component)
    (haip : m.self.m_audioInputProcessor = some aip)
    (p : AudioProvider) (b : Index) (ts : time_point) :
    (notifyOfTapToTalk env p b ts).run m =
      some (env.recognize
              { audioProvider := p, initiator := Initiator.TAP, startOfSpeechTimestamp := ts,
                begin := some b, keywordEndIndex := none, keyword := none, KWDMetadata := none },
            m.issue [Call.mk aip (Method.recognize
              { audioProvider := p, initiator := Initiator.TAP, startOfSpeechTimestamp := ts,
                begin := some b, keywordEndIndex := none, keyword := none, KWDMetadata := none })]) := by
  simp [notifyOfTapToTalk, Machine.issue, invoke, haip, StateT.run, bind, StateT.bind, pure,
    StateT.pure, Option.bind]

/-- The result and the call of `notifyOfHoldToTalkStart`. -/
theorem notifyOfHoldToTalkStart_run (env : Collaborators) (m : Machine) (aip : Component)
    (haip : m.self.m_audioInputProcessor = some aip) (p : AudioProvider) (ts : time_point) :
    (notifyOfHoldToTalkStart env p ts).run m =
      some (env.recognize
              { audioProvider := p, initiator := Initiator.PRESS_AND_HOLD, startOfSpeechTimestamp := ts,
                begin := none, keywordEndIndex := none, keyword := none, KWDMetadata := none },
            m.issue [Call.mk aip (Method.recognize
              { audioProvider := p, initiator := Initiator.PRESS_AND_HOLD, startOfSpeechTimestamp := ts,
                begin := none, keywordEndIndex := none, keyword := none, KWDMetadata := none })]) := by
  simp [notifyOfHoldToTalkStart, Machine.issue, invoke, haip, StateT.run, bind, StateT.bind, pure,
    StateT.pure, Option.bind]

/-- The result and the call of `notifyOfHoldToTalkEnd`. -/
theorem notifyOfHoldToTalkEnd_run (env : Collaborators) (m : Machine) (aip : Component)
    (haip : m.self.m_audioInputProcessor = some aip) :
    (notifyOfHoldToTalkEnd env).run m =
      some (env.stopCapture, m.issue [{ receiver := aip, method := Method.stopCapture }]) := by
  simp [notifyOfHoldToTalkEnd, Machine.issue, invoke, haip, StateT.run, bind, StateT.bind, pure,
    StateT.pure, Option.bind]

/-- The result and the call of `notifyOfTapToTalkEnd`. -/
theorem notifyOfTapToTalkEnd_run (env : Collaborators) (m : Machine) (aip : Component)
    (haip : m.self.m_audioInputProcessor = some aip) :
    (notifyOfTapToTalkEnd env).run m =
      some (env.stopCapture, m.issue [{ receiver := aip, method := Method.stopCapture }]) := by
  simp [notifyOfTapToTalkEnd, Machine.issue, invoke, haip, StateT.run, bind, StateT.bind, pure,
    StateT.pure, Option.bind]

/-- The call of `connect(false)`. -/
theorem connect_false_run (env : Collaborators) (m : Machine) (cm : Component)
    (hcm : m.self.m_connectionManager = some cm) :
    (connect env false).run m = some ((), m.issue [{ receiver := cm, method := Method.enable }]) := by
  simp [connect, Machine.issue, invoke, hcm, StateT.run, bind, StateT.bind, pure, StateT.pure,
    Option.bind]

/-- The calls of `connect(true)` once the builder reference is empty. -/
theorem connect_true_consumed_run (env : Collaborators) (m : Machine) (cm em gm : Component)
    (hcm : m.self.m_connectionManager = some cm) (hem : m.self.m_endpointManager = some em)
    (hgm : m.self.m_avsGatewayManager = some gm) (hb : m.self.m_defaultEndpointBuilder = none) :
    (connect env true).run m =
      some ((), m.issue
        [{ receiver := em, method := Method.waitForPendingRegistrationsToEnqueue },
         { receiver := gm, method := Method.setAVSGatewayAssigner (some cm) },
         { receiver := cm, method := Method.enable }]) := by
  simp [connect, Machine.issue, invoke, member, hcm, hem, hgm, hb, StateT.run, bind, StateT.bind,
    pure, StateT.pure, Option.bind]

/-- The call of `connect(true)` when the builder yields no endpoint. -/
theorem connect_true_unbuilt_run (env : Collaborators) (m : Machine) (builder : Component)
    (hb : m.self.m_defaultEndpointBuilder = some builder) (he : env.buildDefaultEndpoint = none) :
    (connect env true).run m =
      some ((), m.issue [{ receiver := builder, method := Method.buildDefaultEndpoint }]) := by
  simp [connect, Machine.issue, invoke, member, hb, he, StateT.run, bind, StateT.bind,
    pure, StateT.pure, Option.bind]

/-- The calls of `connect(true)` when the registration has already failed at the poll. -/
theorem connect_true_failed_run (env : Collaborators) (m : Machine) (em builder : Component)
    (ep : Endpoint) (hem : m.self.m_endpointManager = some em)
    (hb : m.self.m_defaultEndpointBuilder = some builder) (he : env.buildDefaultEndpoint = some ep)
    (hready : (env.registerEndpoint ep).status = future_status.ready)
    (hfailed : (env.registerEndpoint ep).value ≠ RegistrationResult.SUCCEEDED) :
    (connect env true).run m =
      some ((), m.issue
        [{ receiver := builder, method := Method.buildDefaultEndpoint },
         { receiver := em, method := Method.registerEndpoint ep }]) := by
  simp [connect, Machine.issue, invoke, member, hem, hb, he, hready, hfailed, StateT.run, bind,
    StateT.bind, pure, StateT.pure, Option.bind]

/-- The calls and the effect of `connect(true)` when the default endpoint is
submitted and the poll finds no failure. -/
theorem connect_true_submitted_run (env : Collaborators) (m : Machine)
    (cm em gm builder : Component) (ep : Endpoint)
    (hcm : m.self.m_connectionManager = some cm) (hem : m.self.m_endpointManager = some em)
    (hgm : m.self.m_avsGatewayManager = some gm)
    (hb : m.self.m_defaultEndpointBuilder = some builder) (he : env.buildDefaultEndpoint = some ep)
    (hpoll : ¬ ((env.registerEndpoint ep).status = future_status.ready ∧
      (env.registerEndpoint ep).value ≠ RegistrationResult.SUCCEEDED)) :
    (connect env true).run m =
      some ((), Machine.mk { m.self with m_defaultEndpointBuilder := none } (m.calls ++
        [{ receiver := builder, method := Method.buildDefaultEndpoint },
         { receiver := em, method := Method.registerEndpoint ep },
         { receiver := em, method := Method.waitForPendingRegistrationsToEnqueue },
         { receiver := gm, method := Method.setAVSGatewayAssigner (some cm) },
         { receiver := cm, method := Method.enable }])) := by
  by_cases hs : (env.registerEndpoint ep).status = future_status.ready
  · have hv : (env.registerEndpoint ep).value = RegistrationResult.SUCCEEDED := by
      by_contra hne
      exact hpoll ⟨hs, hne⟩
    simp [connect, invoke, member, hcm, hem, hgm, hb, he, hs, hv, StateT.run, bind, StateT.bind,
      pure, StateT.pure, Option.bind, modify, modifyGet, MonadStateOf.modifyGet, StateT.modifyGet]
  · simp [connect, invoke, member, hcm, hem, hgm, hb, he, hs, StateT.run, bind, StateT.bind,
      pure, StateT.pure, Option.bind, modify, modifyGet, MonadStateOf.modifyGet, StateT.modifyGet]

/-- Dropping the value a member function returns keeps its calls and its effect. -/
theorem Exec.run_discard {α : Type} (x : Exec α) (m : Machine) (a : α) (after : Machine)
    (h : x.run m = some (a, after)) :
    (do let _ ← x : Exec Unit).run m = some ((), after) := by
  simp only [StateT.run] at h
  simp [StateT.run, bind, StateT.bind, h, pure, StateT.pure, Option.bind]

/-- Once the builder reference is empty, no request builds or registers the
default endpoint, and none changes the client. -/
theorem perform_consumed (env : Collaborators) (r : Request) (m : Machine)
    (hinit : m.self.initialized = true) (hb : m.self.m_defaultEndpointBuilder = none) :
    ∃ calls, (r.perform env).run m = some ((), m.issue calls) ∧
      callsOf Method.buildDefaultEndpoint calls = [] ∧ calls.filter Call.isRegisterEndpoint = [] := by
  obtain ⟨cm, em, gm, fm, aip, hcm, hem, hgm, hfm, haip⟩ := (initialized_iff m.self).1 hinit
  cases r with
  | connect performReset =>
    cases performReset
    · exact ⟨_, connect_false_run env m cm hcm, by simp [callsOf], by simp [Call.isRegisterEndpoint]⟩
    · exact ⟨_, connect_true_consumed_run env m cm em gm hcm hem hgm hb, by simp [callsOf], by simp [Call.isRegisterEndpoint]⟩
  | disconnect =>
    refine ⟨[{ receiver := cm, method := Method.disable }], ?_, by simp [callsOf], by simp [Call.isRegisterEndpoint]⟩
    simp [Request.perform, disconnect, invoke, hcm, Machine.issue, StateT.run]
  | getDefaultEndpointBuilder =>
    refine ⟨[], ?_, rfl, rfl⟩
    simp [Request.perform, getDefaultEndpointBuilder, member, Machine.issue, StateT.run, bind, StateT.bind, pure, StateT.pure, Option.bind]
  | stopForegroundActivity =>
    refine ⟨[{ receiver := fm, method := Method.stopForegroundActivity }], ?_, by simp [callsOf], by simp [Call.isRegisterEndpoint]⟩
    simp [Request.perform, stopForegroundActivity, invoke, hfm, Machine.issue, StateT.run]
  | notifyOfWakeWord p b e k ts md =>
    refine ⟨_, Exec.run_discard _ m _ _ (notifyOfWakeWord_run env m cm fm aip hcm hfm haip p b e k ts md), ?_⟩
    cases env.debug5 <;> cases env.isConnected <;> by_cases hk : env.KEYWORD_TEXT_STOP = k <;>
    simp [hk, callsOf, Call.isRegisterEndpoint]
  | notifyOfTapToTalk p b ts =>
    exact ⟨_, Exec.run_discard _ m _ _ (notifyOfTapToTalk_run env m aip haip p b ts), by simp [callsOf], by simp [Call.isRegisterEndpoint]⟩
  | notifyOfHoldToTalkStart p ts =>
    exact ⟨_, Exec.run_discard _ m _ _ (notifyOfHoldToTalkStart_run env m aip haip p ts), by simp [callsOf], by simp [Call.isRegisterEndpoint]⟩
  | notifyOfHoldToTalkEnd =>
    exact ⟨_, Exec.run_discard _ m _ _ (notifyOfHoldToTalkEnd_run env m aip haip), by simp [callsOf], by simp [Call.isRegisterEndpoint]⟩
  | notifyOfTapToTalkEnd =>
    exact ⟨_, Exec.run_discard _ m _ _ (notifyOfTapToTalkEnd_run env m aip haip), by simp [callsOf], by simp [Call.isRegisterEndpoint]⟩

/-- Once the builder reference is empty, no sequence of requests builds or
registers the default endpoint, and none changes the client. -/
theorem performAll_consumed (requests : List (Collaborators × Request)) :
    ∀ m : Machine, m.self.initialized = true → m.self.m_defaultEndpointBuilder = none →
      ∃ calls, (performAll requests).run m = some ((), m.issue calls) ∧
      callsOf Method.buildDefaultEndpoint calls = [] ∧ calls.filter Call.isRegisterEndpoint = [] := by
  induction requests with
  | nil =>
    intro m _ _
    exact ⟨[], by simp [performAll, Machine.issue, StateT.run, pure, StateT.pure], rfl, rfl⟩
  | cons head rest ih =>
    intro m hinit hb
    obtain ⟨env, r⟩ := head
    obtain ⟨l1, h1, hb1, hr1⟩ := perform_consumed env r m hinit hb
    obtain ⟨l2, h2, hb2, hr2⟩ := ih (m.issue l1) hinit hb
    refine ⟨l1 ++ l2, ?_, ?_, by simp [hr1, hr2]⟩
    · simp only [StateT.run, Machine.issue, List.append_assoc] at h1 h2
      simp [performAll, StateT.run, bind, StateT.bind, h1, h2, Machine.issue, Option.bind]
    · simp only [callsOf] at hb1 hb2
      simp [callsOf, hb1, hb2]

/-! ## Request dispatch -/

/-- C1: a `notifyOfWakeWord` call made on an initialized client while the
connection manager reports not connected, with the keyword equal to
`AudioInputProcessor::KEYWORD_TEXT_STOP` and any other arguments, returns a
future that is already resolved to true, calls `stopForegroundActivity` on the
audio focus manager exactly once, and never calls `recognize`. -/
theorem notifyOfWakeWord_offline_stop (env : Collaborators) (c : SmartScreenClient)
    (wakeWordAudioProvider : AudioProvider) (beginIndex endIndex : Index) (keyword : String)
    (startOfSpeechTimestamp : time_point) (metadata : KWDMetadata)
    (hinit : c.initialized = true) (hoffline : env.isConnected = false)
    (hstop : keyword = env.KEYWORD_TEXT_STOP) :
    ∃ focusManager result after,
      c.m_audioFocusManager = some focusManager ∧
      (notifyOfWakeWord env wakeWordAudioProvider beginIndex endIndex keyword
        startOfSpeechTimestamp metadata).run (start c) = some (result, after) ∧
      result.status = future_status.ready ∧ result.value = true ∧
      callsOf Method.stopForegroundActivity after.calls =
        [{ receiver := focusManager, method := Method.stopForegroundActivity }] ∧
      after.calls.filter Call.isRecognize = [] := by
  obtain ⟨cm, em, gm, fm, aip, hcm, -, -, hfm, haip⟩ := (initialized_iff c).1 hinit
  refine ⟨fm, _, _, hfm, notifyOfWakeWord_run env (start c) cm fm aip hcm hfm haip _ _ _ _ _ _, ?_⟩
  subst hstop
  cases hd : env.debug5 <;>
  simp [hoffline, hd, promise_set_value, Machine.issue, start, callsOf, Call.isRecognize]

/-- C1 at a concrete input: the sample client, offline, keyword "STOP". -/
theorem notifyOfWakeWord_offline_stop_witness :
    sampleClient.initialized = true ∧ sampleOffline.isConnected = false ∧
    "STOP" = sampleOffline.KEYWORD_TEXT_STOP ∧
    ∃ focusManager result after,
      sampleClient.m_audioFocusManager = some focusManager ∧
      (notifyOfWakeWord sampleOffline sampleProvider 1 2 "STOP" 3 none).run (start sampleClient) =
        some (result, after) ∧
      result.status = future_status.ready ∧ result.value = true ∧
      callsOf Method.stopForegroundActivity after.calls =
        [{ receiver := focusManager, method := Method.stopForegroundActivity }] ∧
      after.calls.filter Call.isRecognize = [] :=
  ⟨rfl, rfl, rfl,
    notifyOfWakeWord_offline_stop sampleOffline sampleClient sampleProvider 1 2 "STOP" 3 none
      rfl rfl rfl⟩

/-- C2: a `notifyOfWakeWord` call made on an initialized client while the
connection manager reports not connected, with any keyword other than
`AudioInputProcessor::KEYWORD_TEXT_STOP`, returns a future that is already
resolved to false and does nothing else: the client is unchanged, neither
`recognize` nor `stopForegroundActivity` is called, and the only calls issued
are `isConnected` queries on the connection manager. -/
theorem notifyOfWakeWord_offline_other (env : Collaborators) (c : SmartScreenClient)
    (wakeWordAudioProvider : AudioProvider) (beginIndex endIndex : Index) (keyword : String)
    (startOfSpeechTimestamp : time_point) (metadata : KWDMetadata)
    (hinit : c.initialized = true) (hoffline : env.isConnected = false)
    (hother : keyword ≠ env.KEYWORD_TEXT_STOP) :
    ∃ connectionManager result after,
      c.m_connectionManager = some connectionManager ∧
      (notifyOfWakeWord env wakeWordAudioProvider beginIndex endIndex keyword
        startOfSpeechTimestamp metadata).run (start c) = some (result, after) ∧
      result.status = future_status.ready ∧ result.value = false ∧
      after.self = c ∧
      after.calls.filter Call.isRecognize = [] ∧
      callsOf Method.stopForegroundActivity after.calls = [] ∧
      ∀ call ∈ after.calls,
        call = { receiver := connectionManager, method := Method.isConnected } := by
  obtain ⟨cm, em, gm, fm, aip, hcm, -, -, hfm, haip⟩ := (initialized_iff c).1 hinit
  refine ⟨cm, _, _, hcm, notifyOfWakeWord_run env (start c) cm fm aip hcm hfm haip _ _ _ _ _ _, ?_⟩
  have hk : ¬ env.KEYWORD_TEXT_STOP = keyword := fun h => hother h.symm
  cases hd : env.debug5 <;>
  simp [hoffline, hd, hk, promise_set_value, Machine.issue, start, callsOf, Call.isRecognize]

/-- C2 at a concrete input: the sample client, offline, keyword "ALEXA". -/
theorem notifyOfWakeWord_offline_other_witness :
    sampleClient.initialized = true ∧ sampleOffline.isConnected = false ∧
    "ALEXA" ≠ sampleOffline.KEYWORD_TEXT_STOP ∧
    ∃ connectionManager result after,
      sampleClient.m_connectionManager = some connectionManager ∧
      (notifyOfWakeWord sampleOffline sampleProvider 1 2 "ALEXA" 3 none).run (start sampleClient) =
        some (result, after) ∧
      result.status = future_status.ready ∧ result.value = false ∧
      after.self = sampleClient ∧
      after.calls.filter Call.isRecognize = [] ∧
      callsOf Method.stopForegroundActivity after.calls = [] ∧
      ∀ call ∈ after.calls,
        call = { receiver := connectionManager, method := Method.isConnected } :=
  ⟨rfl, rfl, by decide,
    notifyOfWakeWord_offline_other sampleOffline sampleClient sampleProvider 1 2 "ALEXA" 3 none
      rfl rfl (by decide)⟩

/-- C3: a `notifyOfWakeWord` call made on an initialized client while
connected, for every keyword (the stop keyword included), calls `recognize`
on the audio input processor exactly once, with the same audio provider,
initiator WAKEWORD, the same start-of-speech timestamp, begin index, end
index, keyword and keyword-detector metadata; it returns the future that call
returned, unchanged, and does not call `stopForegroundActivity`. -/
theorem notifyOfWakeWord_online (env : Collaborators) (c : SmartScreenClient)
    (wakeWordAudioProvider : AudioProvider) (beginIndex endIndex : Index) (keyword : String)
    (startOfSpeechTimestamp : time_point) (metadata : KWDMetadata)
    (hinit : c.initialized = true) (honline : env.isConnected = true) :
    ∃ audioInputProcessor args after,
      c.m_audioInputProcessor = some audioInputProcessor ∧
      args = { audioProvider := wakeWordAudioProvider, initiator := Initiator.WAKEWORD,
               startOfSpeechTimestamp := startOfSpeechTimestamp, begin := some beginIndex,
               keywordEndIndex := some endIndex, keyword := some keyword,
               KWDMetadata := some metadata } ∧
      (notifyOfWakeWord env wakeWordAudioProvider beginIndex endIndex keyword
        startOfSpeechTimestamp metadata).run (start c) = some (env.recognize args, after) ∧
      after.calls.filter Call.isRecognize =
        [{ receiver := audioInputProcessor, method := Method.recognize args }] ∧
      callsOf Method.stopForegroundActivity after.calls = [] := by
  obtain ⟨cm, em, gm, fm, aip, hcm, -, -, hfm, haip⟩ := (initialized_iff c).1 hinit
  have hrun := notifyOfWakeWord_run env (start c) cm fm aip hcm hfm haip wakeWordAudioProvider
    beginIndex endIndex keyword startOfSpeechTimestamp metadata
  simp only [honline, if_true] at hrun
  refine ⟨aip, _, _, haip, rfl, hrun, ?_⟩
  cases hd : env.debug5 <;> simp [Machine.issue, start, callsOf, Call.isRecognize]

/-- C3 at a concrete input: the sample client, online, keyword "STOP". -/
theorem notifyOfWakeWord_online_witness :
    sampleClient.initialized = true ∧ sampleOnline.isConnected = true ∧
    ∃ audioInputProcessor args after,
      sampleClient.m_audioInputProcessor = some audioInputProcessor ∧
      args = { audioProvider := sampleProvider, initiator := Initiator.WAKEWORD,
               startOfSpeechTimestamp := 3, begin := some 1,
               keywordEndIndex := some 2, keyword := some "STOP",
               KWDMetadata := some (some ['k']) } ∧
      (notifyOfWakeWord sampleOnline sampleProvider 1 2 "STOP" 3 (some ['k'])).run
        (start sampleClient) = some (sampleOnline.recognize args, after) ∧
      after.calls.filter Call.isRecognize =
        [{ receiver := audioInputProcessor, method := Method.recognize args }] ∧
      callsOf Method.stopForegroundActivity after.calls = [] :=
  ⟨rfl, rfl,
    notifyOfWakeWord_online sampleOnline sampleClient sampleProvider 1 2 "STOP" 3 (some ['k'])
      rfl rfl⟩

/-- C4: on an initialized client, whatever the connectivity state and so in
particular while connected, `notifyOfTapToTalk` calls `recognize` exactly once
with (provider, initiator TAP, timestamp, begin index), `notifyOfHoldToTalkStart`
calls `recognize` exactly once with (provider, initiator PRESS_AND_HOLD,
timestamp), and `notifyOfHoldToTalkEnd` and `notifyOfTapToTalkEnd` each call
`stopCapture` exactly once; each returns the future the audio input processor
returned, leaves the client unchanged and issues no other call. -/
theorem trigger_delegation (env : Collaborators) (c : SmartScreenClient)
    (provider : AudioProvider) (beginIndex : Index) (startOfSpeechTimestamp : time_point)
    (hinit : c.initialized = true) :
    ∃ audioInputProcessor tapArgs holdArgs,
      c.m_audioInputProcessor = some audioInputProcessor ∧
      tapArgs = { audioProvider := provider, initiator := Initiator.TAP,
                  startOfSpeechTimestamp := startOfSpeechTimestamp, begin := some beginIndex,
                  keywordEndIndex := none, keyword := none, KWDMetadata := none } ∧
      holdArgs = { audioProvider := provider, initiator := Initiator.PRESS_AND_HOLD,
                   startOfSpeechTimestamp := startOfSpeechTimestamp, begin := none,
                   keywordEndIndex := none, keyword := none, KWDMetadata := none } ∧
      (notifyOfTapToTalk env provider beginIndex startOfSpeechTimestamp).run (start c) =
        some (env.recognize tapArgs,
          Machine.mk c [{ receiver := audioInputProcessor, method := Method.recognize tapArgs }]) ∧
      (notifyOfHoldToTalkStart env provider startOfSpeechTimestamp).run (start c) =
        some (env.recognize holdArgs,
          Machine.mk c [{ receiver := audioInputProcessor, method := Method.recognize holdArgs }]) ∧
      (notifyOfHoldToTalkEnd env).run (start c) =
        some (env.stopCapture,
          Machine.mk c [{ receiver := audioInputProcessor, method := Method.stopCapture }]) ∧
      (notifyOfTapToTalkEnd env).run (start c) =
        some (env.stopCapture,
          Machine.mk c [{ receiver := audioInputProcessor, method := Method.stopCapture }]) := by
  obtain ⟨cm, em, gm, fm, aip, -, -, -, -, haip⟩ := (initialized_iff c).1 hinit
  refine ⟨aip, _, _, haip, rfl, rfl, ?_, ?_, ?_, ?_⟩
  · rw [notifyOfTapToTalk_run env (start c) aip haip]; rfl
  · rw [notifyOfHoldToTalkStart_run env (start c) aip haip]; rfl
  · rw [notifyOfHoldToTalkEnd_run env (start c) aip haip]; rfl
  · rw [notifyOfTapToTalkEnd_run env (start c) aip haip]; rfl

/-- C4 at a concrete input: the sample client while connected. -/
theorem trigger_delegation_witness :
    sampleClient.initialized = true ∧ sampleOnline.isConnected = true ∧
    ∃ audioInputProcessor tapArgs holdArgs,
      sampleClient.m_audioInputProcessor = some audioInputProcessor ∧
      tapArgs = { audioProvider := sampleProvider, initiator := Initiator.TAP,
                  startOfSpeechTimestamp := 3, begin := some 1,
                  keywordEndIndex := none, keyword := none, KWDMetadata := none } ∧
      holdArgs = { audioProvider := sampleProvider, initiator := Initiator.PRESS_AND_HOLD,
                   startOfSpeechTimestamp := 3, begin := none,
                   keywordEndIndex := none, keyword := none, KWDMetadata := none } ∧
      (notifyOfTapToTalk sampleOnline sampleProvider 1 3).run (start sampleClient) =
        some (sampleOnline.recognize tapArgs,
          Machine.mk sampleClient
            [{ receiver := audioInputProcessor, method := Method.recognize tapArgs }]) ∧
      (notifyOfHoldToTalkStart sampleOnline sampleProvider 3).run (start sampleClient) =
        some (sampleOnline.recognize holdArgs,
          Machine.mk sampleClient
            [{ receiver := audioInputProcessor, method := Method.recognize holdArgs }]) ∧
      (notifyOfHoldToTalkEnd sampleOnline).run (start sampleClient) =
        some (sampleOnline.stopCapture,
          Machine.mk sampleClient
            [{ receiver := audioInputProcessor, method := Method.stopCapture }]) ∧
      (notifyOfTapToTalkEnd sampleOnline).run (start sampleClient) =
        some (sampleOnline.stopCapture,
          Machine.mk sampleClient
            [{ receiver := audioInputProcessor, method := Method.stopCapture }]) :=
  ⟨rfl, rfl, trigger_delegation sampleOnline sampleClient sampleProvider 1 3 rfl⟩

/-! ## Connecting -/

/-- C5: on an initialized client that still holds the default endpoint
builder, when the builder yields an endpoint and the zero-duration poll of the
registration future does not find an already-resolved result other than
SUCCEEDED (the future is not ready, whatever its value turns out to be, or is
ready with SUCCEEDED), `connect(true)` issues exactly `buildDefaultEndpoint`,
`registerEndpoint`, `waitForPendingRegistrationsToEnqueue`,
`setAVSGatewayAssigner(connection manager)` and `enable`, in this order:
`enable` is called exactly once and only after the enqueue wait. -/
theorem connect_reset_enqueues_before_enable (env : Collaborators) (c : SmartScreenClient)
    (builder : Component) (endpoint : Endpoint)
    (hinit : c.initialized = true) (hheld : c.m_defaultEndpointBuilder = some builder)
    (hbuilt : env.buildDefaultEndpoint = some endpoint)
    (hpoll : ¬ ((env.registerEndpoint endpoint).status = future_status.ready ∧
      (env.registerEndpoint endpoint).value ≠ RegistrationResult.SUCCEEDED)) :
    ∃ connectionManager endpointManager gatewayManager after,
      c.m_connectionManager = some connectionManager ∧
      c.m_endpointManager = some endpointManager ∧
      c.m_avsGatewayManager = some gatewayManager ∧
      (connect env true).run (start c) = some ((), after) ∧
      after.calls =
        [{ receiver := builder, method := Method.buildDefaultEndpoint },
         { receiver := endpointManager, method := Method.registerEndpoint endpoint },
         { receiver := endpointManager, method := Method.waitForPendingRegistrationsToEnqueue },
         { receiver := gatewayManager,
           method := Method.setAVSGatewayAssigner (some connectionManager) },
         { receiver := connectionManager, method := Method.enable }] ∧
      callsOf Method.enable after.calls =
        [{ receiver := connectionManager, method := Method.enable }] ∧
      precededBy Method.waitForPendingRegistrationsToEnqueue Method.enable after.calls = true := by
  obtain ⟨cm, em, gm, fm, aip, hcm, hem, hgm, -, -⟩ := (initialized_iff c).1 hinit
  refine ⟨cm, em, gm, _, hcm, hem, hgm,
    connect_true_submitted_run env (start c) cm em gm builder endpoint hcm hem hgm hheld hbuilt hpoll,
    ?_, ?_, ?_⟩
  · simp [start]
  · simp [start, callsOf]
  · simp [start, precededBy]

/-- C5 at a concrete input: the sample client, registration still pending at the poll. -/
theorem connect_reset_enqueues_before_enable_witness :
    sampleClient.initialized = true ∧
    sampleClient.m_defaultEndpointBuilder = some { id := 6 } ∧
    sampleOnline.buildDefaultEndpoint = some { endpointId := 0 } ∧
    ¬ ((sampleOnline.registerEndpoint { endpointId := 0 }).status = future_status.ready ∧
      (sampleOnline.registerEndpoint { endpointId := 0 }).value ≠ RegistrationResult.SUCCEEDED) ∧
    ∃ connectionManager endpointManager gatewayManager after,
      sampleClient.m_connectionManager = some connectionManager ∧
      sampleClient.m_endpointManager = some endpointManager ∧
      sampleClient.m_avsGatewayManager = some gatewayManager ∧
      (connect sampleOnline true).run (start sampleClient) = some ((), after) ∧
      after.calls =
        [{ receiver := { id := 6 }, method := Method.buildDefaultEndpoint },
         { receiver := endpointManager, method := Method.registerEndpoint { endpointId := 0 } },
         { receiver := endpointManager, method := Method.waitForPendingRegistrationsToEnqueue },
         { receiver := gatewayManager,
           method := Method.setAVSGatewayAssigner (some connectionManager) },
         { receiver := connectionManager, method := Method.enable }] ∧
      callsOf Method.enable after.calls =
        [{ receiver := connectionManager, method := Method.enable }] ∧
      precededBy Method.waitForPendingRegistrationsToEnqueue Method.enable after.calls = true :=
  ⟨rfl, rfl, rfl, by decide,
    connect_reset_enqueues_before_enable sampleOnline sampleClient { id := 6 } { endpointId := 0 }
      rfl rfl rfl (by decide)⟩

/-- C6: on an initialized client that still holds the default endpoint
builder, when the zero-duration poll finds the registration future already
resolved with a result other than SUCCEEDED, `connect(true)` returns after
`buildDefaultEndpoint` and `registerEndpoint`: it calls neither
`waitForPendingRegistrationsToEnqueue` nor `setAVSGatewayAssigner` nor
`enable`, so the connection is not enabled. -/
theorem connect_reset_registration_failed (env : Collaborators) (c : SmartScreenClient)
    (builder : Component) (endpoint : Endpoint)
    (hinit : c.initialized = true) (hheld : c.m_defaultEndpointBuilder = some builder)
    (hbuilt : env.buildDefaultEndpoint = some endpoint)
    (hready : (env.registerEndpoint endpoint).status = future_status.ready)
    (hfailed : (env.registerEndpoint endpoint).value ≠ RegistrationResult.SUCCEEDED) :
    ∃ endpointManager after,
      c.m_endpointManager = some endpointManager ∧
      (connect env true).run (start c) = some ((), after) ∧
      after.calls =
        [{ receiver := builder, method := Method.buildDefaultEndpoint },
         { receiver := endpointManager, method := Method.registerEndpoint endpoint }] ∧
      callsOf Method.waitForPendingRegistrationsToEnqueue after.calls = [] ∧
      (∀ assigner, callsOf (Method.setAVSGatewayAssigner assigner) after.calls = []) ∧
      callsOf Method.enable after.calls = [] := by
  obtain ⟨cm, em, gm, fm, aip, -, hem, -, -, -⟩ := (initialized_iff c).1 hinit
  refine ⟨em, _, hem,
    connect_true_failed_run env (start c) em builder endpoint hem hheld hbuilt hready hfailed,
    ?_, ?_, ?_, ?_⟩
  · simp [start, Machine.issue]
  · simp [start, Machine.issue, callsOf]
  · intro assigner
    simp [start, Machine.issue, callsOf]
  · simp [start, Machine.issue, callsOf]

/-- C6 at a concrete input: the sample client, registration already failed at the poll. -/
theorem connect_reset_registration_failed_witness :
    sampleClient.initialized = true ∧
    sampleClient.m_defaultEndpointBuilder = some { id := 6 } ∧
    sampleRegistrationFailed.buildDefaultEndpoint = some { endpointId := 0 } ∧
    (sampleRegistrationFailed.registerEndpoint { endpointId := 0 }).status =
      future_status.ready ∧
    (sampleRegistrationFailed.registerEndpoint { endpointId := 0 }).value ≠
      RegistrationResult.SUCCEEDED ∧
    ∃ endpointManager after,
      sampleClient.m_endpointManager = some endpointManager ∧
      (connect sampleRegistrationFailed true).run (start sampleClient) = some ((), after) ∧
      after.calls =
        [{ receiver := { id := 6 }, method := Method.buildDefaultEndpoint },
         { receiver := endpointManager, method := Method.registerEndpoint { endpointId := 0 } }] ∧
      callsOf Method.waitForPendingRegistrationsToEnqueue after.calls = [] ∧
      (∀ assigner, callsOf (Method.setAVSGatewayAssigner assigner) after.calls = []) ∧
      callsOf Method.enable after.calls = [] :=
  ⟨rfl, rfl, rfl, rfl, by decide,
    connect_reset_registration_failed sampleRegistrationFailed sampleClient { id := 6 }
      { endpointId := 0 } rfl rfl rfl rfl (by decide)⟩

/-- C7: on a client that still holds the default endpoint builder, when
`buildDefaultEndpoint` yields no endpoint, `connect(true)` returns right after
that call: it calls neither `registerEndpoint` nor
`waitForPendingRegistrationsToEnqueue` nor `setAVSGatewayAssigner` nor `enable`,
and the client is unchanged. -/
theorem connect_reset_no_endpoint (env : Collaborators) (c : SmartScreenClient)
    (builder : Component)
    (hheld : c.m_defaultEndpointBuilder = some builder)
    (hnone : env.buildDefaultEndpoint = none) :
    ∃ after,
      (connect env true).run (start c) = some ((), after) ∧
      after.self = c ∧
      after.calls = [{ receiver := builder, method := Method.buildDefaultEndpoint }] ∧
      after.calls.filter Call.isRegisterEndpoint = [] ∧
      callsOf Method.waitForPendingRegistrationsToEnqueue after.calls = [] ∧
      (∀ assigner, callsOf (Method.setAVSGatewayAssigner assigner) after.calls = []) ∧
      callsOf Method.enable after.calls = [] := by
  refine ⟨_, connect_true_unbuilt_run env (start c) builder hheld hnone, rfl, ?_, ?_, ?_, ?_, ?_⟩
  · simp [start, Machine.issue]
  · simp [start, Machine.issue, Call.isRegisterEndpoint]
  · simp [start, Machine.issue, callsOf]
  · intro assigner
    simp [start, Machine.issue, callsOf]
  · simp [start, Machine.issue, callsOf]

/-- C7 at a concrete input: the sample client with a builder that yields nothing. -/
theorem connect_reset_no_endpoint_witness :
    sampleClient.m_defaultEndpointBuilder = some { id := 6 } ∧
    sampleUnbuildable.buildDefaultEndpoint = none ∧
    ∃ after,
      (connect sampleUnbuildable true).run (start sampleClient) = some ((), after) ∧
      after.self = sampleClient ∧
      after.calls = [{ receiver := { id := 6 }, method := Method.buildDefaultEndpoint }] ∧
      after.calls.filter Call.isRegisterEndpoint = [] ∧
      callsOf Method.waitForPendingRegistrationsToEnqueue after.calls = [] ∧
      (∀ assigner, callsOf (Method.setAVSGatewayAssigner assigner) after.calls = []) ∧
      callsOf Method.enable after.calls = [] :=
  ⟨rfl, rfl, connect_reset_no_endpoint sampleUnbuildable sampleClient { id := 6 } rfl rfl⟩

/-- C8: on every initialized client, `connect(false)` issues exactly one call,
`enable` on the connection manager, and leaves the client as it was: the
default endpoint builder reference, the endpoint registration manager and the
gateway manager are neither changed nor called. -/
theorem connect_without_reset (env : Collaborators) (c : SmartScreenClient)
    (hinit : c.initialized = true) :
    ∃ connectionManager after,
      c.m_connectionManager = some connectionManager ∧
      (connect env false).run (start c) = some ((), after) ∧
      after.calls = [{ receiver := connectionManager, method := Method.enable }] ∧
      after.self.m_defaultEndpointBuilder = c.m_defaultEndpointBuilder ∧
      after.self.m_endpointManager = c.m_endpointManager ∧
      after.self.m_avsGatewayManager = c.m_avsGatewayManager ∧
      after.self = c := by
  obtain ⟨cm, em, gm, fm, aip, hcm, -, -, -, -⟩ := (initialized_iff c).1 hinit
  exact ⟨cm, _, hcm, connect_false_run env (start c) cm hcm, by simp [start, Machine.issue],
    rfl, rfl, rfl, rfl⟩

/-- C8 at a concrete input: the sample client. -/
theorem connect_without_reset_witness :
    sampleClient.initialized = true ∧
    ∃ connectionManager after,
      sampleClient.m_connectionManager = some connectionManager ∧
      (connect sampleOnline false).run (start sampleClient) = some ((), after) ∧
      after.calls = [{ receiver := connectionManager, method := Method.enable }] ∧
      after.self.m_defaultEndpointBuilder = sampleClient.m_defaultEndpointBuilder ∧
      after.self.m_endpointManager = sampleClient.m_endpointManager ∧
      after.self.m_avsGatewayManager = sampleClient.m_avsGatewayManager ∧
      after.self = sampleClient :=
  ⟨rfl, connect_without_reset sampleOnline sampleClient rfl⟩

/-- C9: after a `connect(true)` that submitted the default endpoint and found
no failure at the poll, the builder reference is empty
(`getDefaultEndpointBuilder` returns null), and whatever requests follow, each
with collaborators answering as they like, none of them, and so no later
`connect(true)`, calls `buildDefaultEndpoint` or `registerEndpoint`: over the
whole history the default endpoint is built once and submitted for
registration exactly once. -/
theorem connect_reset_one_shot (env : Collaborators) (c : SmartScreenClient)
    (builder : Component) (endpoint : Endpoint)
    (hinit : c.initialized = true) (hheld : c.m_defaultEndpointBuilder = some builder)
    (hbuilt : env.buildDefaultEndpoint = some endpoint)
    (hpoll : ¬ ((env.registerEndpoint endpoint).status = future_status.ready ∧
      (env.registerEndpoint endpoint).value ≠ RegistrationResult.SUCCEEDED))
    (later : List (Collaborators × Request)) :
    ∃ first last laterCalls,
      (connect env true).run (start c) = some ((), first) ∧
      first.self.m_defaultEndpointBuilder = none ∧
      getDefaultEndpointBuilder.run first = some (none, first) ∧
      (performAll later).run first = some ((), last) ∧
      last.calls = first.calls ++ laterCalls ∧
      callsOf Method.buildDefaultEndpoint laterCalls = [] ∧
      laterCalls.filter Call.isRegisterEndpoint = [] ∧
      last.self.m_defaultEndpointBuilder = none ∧
      (callsOf Method.buildDefaultEndpoint last.calls).length = 1 ∧
      (last.calls.filter Call.isRegisterEndpoint).length = 1 := by
  obtain ⟨cm, em, gm, fm, aip, hcm, hem, hgm, -, -⟩ := (initialized_iff c).1 hinit
  have hfirst :=
    connect_true_submitted_run env (start c) cm em gm builder endpoint hcm hem hgm hheld hbuilt hpoll
  obtain ⟨laterCalls, hlater, hnobuild, hnoregister⟩ :=
    performAll_consumed later
      (Machine.mk { (start c).self with m_defaultEndpointBuilder := none } ((start c).calls ++
        [{ receiver := builder, method := Method.buildDefaultEndpoint },
         { receiver := em, method := Method.registerEndpoint endpoint },
         { receiver := em, method := Method.waitForPendingRegistrationsToEnqueue },
         { receiver := gm, method := Method.setAVSGatewayAssigner (some cm) },
         { receiver := cm, method := Method.enable }]))
      hinit rfl
  refine ⟨_, _, laterCalls, hfirst, rfl, rfl, hlater, rfl, hnobuild, hnoregister, rfl, ?_, ?_⟩
  · simp only [callsOf] at hnobuild
    simp [Machine.issue, start, callsOf, hnobuild]
  · simp [Machine.issue, start, Call.isRegisterEndpoint, hnoregister]

/-- C9 at a concrete input: the sample client connects with a reset, then is
asked to connect with a reset twice more, the builder being willing to build
again each time. -/
theorem connect_reset_one_shot_witness :
    sampleClient.initialized = true ∧
    sampleClient.m_defaultEndpointBuilder = some { id := 6 } ∧
    sampleOnline.buildDefaultEndpoint = some { endpointId := 0 } ∧
    ∃ first last laterCalls,
      (connect sampleOnline true).run (start sampleClient) = some ((), first) ∧
      first.self.m_defaultEndpointBuilder = none ∧
      getDefaultEndpointBuilder.run first = some (none, first) ∧
      (performAll [(sampleOnline, Request.connect true), (sampleOffline, Request.connect true)]).run
        first = some ((), last) ∧
      last.calls = first.calls ++ laterCalls ∧
      callsOf Method.buildDefaultEndpoint laterCalls = [] ∧
      laterCalls.filter Call.isRegisterEndpoint = [] ∧
      last.self.m_defaultEndpointBuilder = none ∧
      (callsOf Method.buildDefaultEndpoint last.calls).length = 1 ∧
      (last.calls.filter Call.isRegisterEndpoint).length = 1 :=
  ⟨rfl, rfl, rfl,
    connect_reset_one_shot sampleOnline sampleClient { id := 6 } { endpointId := 0 }
      rfl rfl rfl (by decide)
      [(sampleOnline, Request.connect true), (sampleOffline, Request.connect true)]⟩

/-- C10, as stated, fails: from the state the first successful `connect(true)`
leaves on the sample client, a second `connect(true)` issues
`waitForPendingRegistrationsToEnqueue`, `setAVSGatewayAssigner` and `enable`,
whereas `connect(false)` issues `enable` only. -/
theorem connect_twice_differs_from_connect_false :
    (connect sampleOnline true).run (start sampleClient) =
      some ((), Machine.mk sampleConsumed
        [{ receiver := { id := 6 }, method := Method.buildDefaultEndpoint },
         { receiver := { id := 2 }, method := Method.registerEndpoint { endpointId := 0 } },
         { receiver := { id := 2 }, method := Method.waitForPendingRegistrationsToEnqueue },
         { receiver := { id := 3 }, method := Method.setAVSGatewayAssigner (some { id := 1 }) },
         { receiver := { id := 1 }, method := Method.enable }]) ∧
    (connect sampleOnline true).run (start sampleConsumed) =
      some ((), Machine.mk sampleConsumed
        [{ receiver := { id := 2 }, method := Method.waitForPendingRegistrationsToEnqueue },
         { receiver := { id := 3 }, method := Method.setAVSGatewayAssigner (some { id := 1 }) },
         { receiver := { id := 1 }, method := Method.enable }]) ∧
    (connect sampleOnline false).run (start sampleConsumed) =
      some ((), Machine.mk sampleConsumed [{ receiver := { id := 1 }, method := Method.enable }]) ∧
    (connect sampleOnline true).run (start sampleConsumed) ≠
      (connect sampleOnline false).run (start sampleConsumed) := by
  refine ⟨rfl, rfl, rfl, ?_⟩
  decide

/-- C10, amended: from the state the first successful `connect(true)` leaves,
a second `connect(true)` and a `connect(false)` leave the same state, and the
second `connect(true)` issues `waitForPendingRegistrationsToEnqueue` on the
endpoint registration manager and `setAVSGatewayAssigner(connection manager)`
on the gateway manager, followed by the calls of `connect(false)`, which are
the single `enable` on the connection manager. -/
theorem connect_twice_second_call (env again : Collaborators) (c : SmartScreenClient)
    (builder : Component) (endpoint : Endpoint)
    (hinit : c.initialized = true) (hheld : c.m_defaultEndpointBuilder = some builder)
    (hbuilt : env.buildDefaultEndpoint = some endpoint)
    (hpoll : ¬ ((env.registerEndpoint endpoint).status = future_status.ready ∧
      (env.registerEndpoint endpoint).value ≠ RegistrationResult.SUCCEEDED)) :
    ∃ connectionManager endpointManager gatewayManager first viaTrue viaFalse,
      c.m_connectionManager = some connectionManager ∧
      c.m_endpointManager = some endpointManager ∧
      c.m_avsGatewayManager = some gatewayManager ∧
      (connect env true).run (start c) = some ((), first) ∧
      (connect again true).run (start first.self) = some ((), viaTrue) ∧
      (connect again false).run (start first.self) = some ((), viaFalse) ∧
      viaTrue.self = viaFalse.self ∧
      viaFalse.calls = [{ receiver := connectionManager, method := Method.enable }] ∧
      viaTrue.calls =
        [{ receiver := endpointManager, method := Method.waitForPendingRegistrationsToEnqueue },
         { receiver := gatewayManager,
           method := Method.setAVSGatewayAssigner (some connectionManager) }] ++
        viaFalse.calls := by
  obtain ⟨cm, em, gm, fm, aip, hcm, hem, hgm, -, -⟩ := (initialized_iff c).1 hinit
  refine ⟨cm, em, gm, _, _, _, hcm, hem, hgm,
    connect_true_submitted_run env (start c) cm em gm builder endpoint hcm hem hgm hheld hbuilt hpoll,
    connect_true_consumed_run again _ cm em gm hcm hem hgm rfl,
    connect_false_run again _ cm hcm, rfl, ?_, ?_⟩
  · simp [start, Machine.issue]
  · simp [start, Machine.issue]

/-- C10, amended, at a concrete input: the sample client. -/
theorem connect_twice_second_call_witness :
    sampleClient.initialized = true ∧
    sampleClient.m_defaultEndpointBuilder = some { id := 6 } ∧
    sampleOnline.buildDefaultEndpoint = some { endpointId := 0 } ∧
    ∃ connectionManager endpointManager gatewayManager first viaTrue viaFalse,
      sampleClient.m_connectionManager = some connectionManager ∧
      sampleClient.m_endpointManager = some endpointManager ∧
      sampleClient.m_avsGatewayManager = some gatewayManager ∧
      (connect sampleOnline true).run (start sampleClient) = some ((), first) ∧
      (connect sampleOnline true).run (start first.self) = some ((), viaTrue) ∧
      (connect sampleOnline false).run (start first.self) = some ((), viaFalse) ∧
      viaTrue.self = viaFalse.self ∧
      viaFalse.calls = [{ receiver := connectionManager, method := Method.enable }] ∧
      viaTrue.calls =
        [{ receiver := endpointManager, method := Method.waitForPendingRegistrationsToEnqueue },
         { receiver := gatewayManager,
           method := Method.setAVSGatewayAssigner (some connectionManager) }] ++
        viaFalse.calls :=
  ⟨rfl, rfl, rfl,
    connect_twice_second_call sampleOnline sampleOnline sampleClient { id := 6 } { endpointId := 0 }
      rfl rfl rfl (by decide)⟩

set_option maxRecDepth 100000

/-! ## Sequences of connect calls -/

/-- One `connect` call followed by more of them. -/
theorem connectAll_cons (env : Collaborators) (performReset : Bool)
    (rest : List (Collaborators × Bool)) (m first : Machine)
    (h : (connect env performReset).run m = some ((), first)) :
    (connectAll ((env, performReset) :: rest)).run m = (connectAll rest).run first := by
  simp only [StateT.run] at h
  simp [connectAll, performAll, Request.perform, StateT.run, bind, StateT.bind, h, Option.bind]

/-- The early returns of a sequence, read off the calls of its first call. -/
theorem earlyReturns_cons (env : Collaborators) (performReset : Bool)
    (rest : List (Collaborators × Bool)) (m first : Machine) (issued : List Call)
    (h : (connect env performReset).run m = some ((), first))
    (hcalls : first.calls = m.calls ++ issued) :
    earlyReturns ((env, performReset) :: rest) m =
      (if issued.any (fun c => decide (c.method = Method.enable)) then 0 else 1) +
        earlyReturns rest first := by
  simp only [earlyReturns, returnsEarly, h, hcalls, List.drop_left]
  cases issued.any (fun c => decide (c.method = Method.enable)) <;> simp

/-- A call of `connect` on an initialized client returns early exactly when it
resets, the builder reference is still held, and the builder yields no
endpoint or the poll finds the registration resolved with a failure. -/
theorem returnsEarly_iff (env : Collaborators) (performReset : Bool) (m : Machine)
    (hinit : m.self.initialized = true) :
    returnsEarly env performReset m =
      (performReset && m.self.m_defaultEndpointBuilder.isSome && env.aborts) := by
  obtain ⟨cm, em, gm, fm, aip, hcm, hem, hgm, -, -⟩ := (initialized_iff m.self).1 hinit
  cases performReset with
  | false =>
    simp [returnsEarly, connect_false_run env m cm hcm, Machine.issue]
  | true =>
    cases hb : m.self.m_defaultEndpointBuilder with
    | none =>
      simp [returnsEarly, connect_true_consumed_run env m cm em gm hcm hem hgm hb, Machine.issue]
    | some builder =>
      cases he : env.buildDefaultEndpoint with
      | none =>
        simp [returnsEarly, connect_true_unbuilt_run env m builder hb he, Machine.issue,
          Collaborators.aborts, he]
      | some endpoint =>
        by_cases hpoll : (env.registerEndpoint endpoint).status = future_status.ready ∧
            (env.registerEndpoint endpoint).value ≠ RegistrationResult.SUCCEEDED
        · simp [returnsEarly,
            connect_true_failed_run env m em builder endpoint hem hb he hpoll.1 hpoll.2,
            Machine.issue, Collaborators.aborts, he, hpoll.1, hpoll.2]
        · have haborts : env.aborts = false := by
            simp only [Collaborators.aborts, he]
            by_cases hs : (env.registerEndpoint endpoint).status = future_status.ready
            · have hv : (env.registerEndpoint endpoint).value = RegistrationResult.SUCCEEDED := by
                by_contra hne
                exact hpoll ⟨hs, hne⟩
              simp [hs, hv]
            · simp [hs]
          simp [returnsEarly,
            connect_true_submitted_run env m cm em gm builder endpoint hcm hem hgm hb he hpoll,
            haborts]

/-- Every sequence of `connect` calls on an initialized client runs through.
The number of its `buildDefaultEndpoint` calls is the number of its calls that
return early, plus one if the sequence uses up the builder reference; once the
builder reference is empty it stays empty, nothing is built and no call
returns early. -/
theorem connectAll_build_bound (calls : List (Collaborators × Bool)) :
    ∀ m : Machine, m.self.initialized = true →
      ∃ after issued, (connectAll calls).run m = some ((), after) ∧
        after.calls = m.calls ++ issued ∧
        (callsOf Method.buildDefaultEndpoint issued).length =
          earlyReturns calls m +
            (if (m.self.m_defaultEndpointBuilder.isSome &&
                after.self.m_defaultEndpointBuilder.isNone) = true then 1 else 0) ∧
        (m.self.m_defaultEndpointBuilder = none →
          after.self.m_defaultEndpointBuilder = none ∧
          callsOf Method.buildDefaultEndpoint issued = [] ∧ earlyReturns calls m = 0) := by
  induction calls with
  | nil =>
    intro m _
    refine ⟨m, [], by simp [connectAll, performAll, StateT.run, pure, StateT.pure], by simp,
      ?_, fun h => ⟨h, rfl, rfl⟩⟩
    cases hb : m.self.m_defaultEndpointBuilder <;> simp [callsOf, earlyReturns]
  | cons head rest ih =>
    intro m hinit
    obtain ⟨env, performReset⟩ := head
    obtain ⟨cm, em, gm, fm, aip, hcm, hem, hgm, -, -⟩ := (initialized_iff m.self).1 hinit
    cases performReset with
    | false =>
      have hrun := connect_false_run env m cm hcm
      have hearly := earlyReturns_cons env false rest m _
        [{ receiver := cm, method := Method.enable }] hrun rfl
      obtain ⟨after, issued, hrest, hcalls, hcount, hnone⟩ := ih (m.issue _) hinit
      refine ⟨after, [{ receiver := cm, method := Method.enable }] ++ issued,
        (connectAll_cons env false rest m _ hrun).trans hrest, ?_, ?_, ?_⟩
      · simp [hcalls, Machine.issue]
      · simp only [callsOf] at hcount
        simp only [Machine.issue] at hcount hearly
        simpa [callsOf, hearly] using hcount
      · intro hb
        obtain ⟨h1, h2, h3⟩ := hnone hb
        simp only [callsOf] at h2
        simp only [Machine.issue] at h3 hearly
        exact ⟨h1, by simp [callsOf, h2], by simp [hearly, h3]⟩
    | true =>
      cases hb : m.self.m_defaultEndpointBuilder with
      | none =>
        have hrun := connect_true_consumed_run env m cm em gm hcm hem hgm hb
        have hearly := earlyReturns_cons env true rest m _
          [{ receiver := em, method := Method.waitForPendingRegistrationsToEnqueue },
           { receiver := gm, method := Method.setAVSGatewayAssigner (some cm) },
           { receiver := cm, method := Method.enable }] hrun rfl
        obtain ⟨after, issued, hrest, hcalls, -, hnone⟩ := ih (m.issue _) hinit
        obtain ⟨h1, h2, h3⟩ := hnone hb
        simp only [callsOf] at h2
        simp only [Machine.issue] at h3 hearly
        refine ⟨after,
          [{ receiver := em, method := Method.waitForPendingRegistrationsToEnqueue },
           { receiver := gm, method := Method.setAVSGatewayAssigner (some cm) },
           { receiver := cm, method := Method.enable }] ++ issued,
          (connectAll_cons env true rest m _ hrun).trans hrest, ?_, ?_, ?_⟩
        · simp [hcalls, Machine.issue]
        · simp [callsOf, h2, hearly, h3]
        · intro _
          exact ⟨h1, by simp [callsOf, h2], by simp [hearly, h3]⟩
      | some builder =>
        cases he : env.buildDefaultEndpoint with
        | none =>
          have hrun := connect_true_unbuilt_run env m builder hb he
          have hearly := earlyReturns_cons env true rest m _
            [{ receiver := builder, method := Method.buildDefaultEndpoint }] hrun rfl
          obtain ⟨after, issued, hrest, hcalls, hcount, -⟩ := ih (m.issue _) hinit
          refine ⟨after, [{ receiver := builder, method := Method.buildDefaultEndpoint }] ++ issued,
            (connectAll_cons env true rest m _ hrun).trans hrest, ?_, ?_, ?_⟩
          · simp [hcalls, Machine.issue]
          · simp only [callsOf] at hcount
            simp only [Machine.issue, hb] at hcount hearly
            simp only [callsOf, hearly]
            simp [hcount]
            omega
          · intro h
            simp at h
        | some endpoint =>
          by_cases hpoll : (env.registerEndpoint endpoint).status = future_status.ready ∧
              (env.registerEndpoint endpoint).value ≠ RegistrationResult.SUCCEEDED
          · have hrun := connect_true_failed_run env m em builder endpoint hem hb he hpoll.1 hpoll.2
            have hearly := earlyReturns_cons env true rest m _
              [{ receiver := builder, method := Method.buildDefaultEndpoint },
               { receiver := em, method := Method.registerEndpoint endpoint }] hrun rfl
            obtain ⟨after, issued, hrest, hcalls, hcount, -⟩ := ih (m.issue _) hinit
            refine ⟨after,
              [{ receiver := builder, method := Method.buildDefaultEndpoint },
               { receiver := em, method := Method.registerEndpoint endpoint }] ++ issued,
              (connectAll_cons env true rest m _ hrun).trans hrest, ?_, ?_, ?_⟩
            · simp [hcalls, Machine.issue]
            · simp only [callsOf] at hcount
              simp only [Machine.issue, hb] at hcount hearly
              simp only [callsOf, hearly]
              simp [hcount]
              omega
            · intro h
              simp at h
          · have hrun := connect_true_submitted_run env m cm em gm builder endpoint hcm hem hgm hb
              he hpoll
            have hearly := earlyReturns_cons env true rest m _
              [{ receiver := builder, method := Method.buildDefaultEndpoint },
               { receiver := em, method := Method.registerEndpoint endpoint },
               { receiver := em, method := Method.waitForPendingRegistrationsToEnqueue },
               { receiver := gm, method := Method.setAVSGatewayAssigner (some cm) },
               { receiver := cm, method := Method.enable }] hrun rfl
            obtain ⟨after, issued, hrest, hcalls, -, hnone⟩ :=
              ih (Machine.mk { m.self with m_defaultEndpointBuilder := none } (m.calls ++
                [{ receiver := builder, method := Method.buildDefaultEndpoint },
                 { receiver := em, method := Method.registerEndpoint endpoint },
                 { receiver := em, method := Method.waitForPendingRegistrationsToEnqueue },
                 { receiver := gm, method := Method.setAVSGatewayAssigner (some cm) },
                 { receiver := cm, method := Method.enable }])) hinit
            obtain ⟨h1, h2, h3⟩ := hnone rfl
            simp only [callsOf] at h2
            refine ⟨after,
              [{ receiver := builder, method := Method.buildDefaultEndpoint },
               { receiver := em, method := Method.registerEndpoint endpoint },
               { receiver := em, method := Method.waitForPendingRegistrationsToEnqueue },
               { receiver := gm, method := Method.setAVSGatewayAssigner (some cm) },
               { receiver := cm, method := Method.enable }] ++ issued,
              (connectAll_cons env true rest m _ hrun).trans hrest, ?_, ?_, ?_⟩
            · simp [hcalls]
            · simp [callsOf, h2, hearly, h3, h1]
            · intro h
              simp at h

/-- C11, as stated, fails: on the sample client a `connect(true)` whose
registration has already failed when polled returns early and keeps the builder
reference, so the next `connect(true)` calls `buildDefaultEndpoint` on the same
builder a second time. -/
theorem connect_after_aborted_reset_builds_again :
    (connectAll [(sampleRegistrationFailed, true), (sampleOnline, true)]).run
        (start sampleClient) =
      some ((), Machine.mk sampleConsumed
        [{ receiver := { id := 6 }, method := Method.buildDefaultEndpoint },
         { receiver := { id := 2 }, method := Method.registerEndpoint { endpointId := 0 } },
         { receiver := { id := 6 }, method := Method.buildDefaultEndpoint },
         { receiver := { id := 2 }, method := Method.registerEndpoint { endpointId := 0 } },
         { receiver := { id := 2 }, method := Method.waitForPendingRegistrationsToEnqueue },
         { receiver := { id := 3 }, method := Method.setAVSGatewayAssigner (some { id := 1 }) },
         { receiver := { id := 1 }, method := Method.enable }]) ∧
    (callsOf Method.buildDefaultEndpoint
      [{ receiver := { id := 6 }, method := Method.buildDefaultEndpoint },
       { receiver := { id := 2 }, method := Method.registerEndpoint { endpointId := 0 } },
       { receiver := { id := 6 }, method := Method.buildDefaultEndpoint },
       { receiver := { id := 2 }, method := Method.registerEndpoint { endpointId := 0 } },
       { receiver := { id := 2 }, method := Method.waitForPendingRegistrationsToEnqueue },
       { receiver := { id := 3 }, method := Method.setAVSGatewayAssigner (some { id := 1 }) },
       { receiver := { id := 1 }, method := Method.enable }]).length = 2 :=
  ⟨rfl, rfl⟩

/-- C11, amended: every sequence of `connect` calls on an initialized client
runs through, and the number of its `buildDefaultEndpoint` calls is the number
of calls of the sequence that return early (a call returns early when it
returns without enabling the connection, which it does exactly when it resets,
the builder reference is still held, and the builder yields no endpoint or the
poll finds the registration resolved with a failure), plus one if the sequence
uses up the builder reference; so it is at most one more than the number of
early returns, and at most one when no call of the sequence returns early. -/
theorem connect_builds_once_per_early_return (c : SmartScreenClient)
    (calls : List (Collaborators × Bool)) (hinit : c.initialized = true) :
    (∀ env performReset (m : Machine), m.self.initialized = true →
      returnsEarly env performReset m =
        (performReset && m.self.m_defaultEndpointBuilder.isSome && env.aborts)) ∧
    ∃ after, (connectAll calls).run (start c) = some ((), after) ∧
      (callsOf Method.buildDefaultEndpoint after.calls).length =
        earlyReturns calls (start c) +
          (if (c.m_defaultEndpointBuilder.isSome &&
              after.self.m_defaultEndpointBuilder.isNone) = true then 1 else 0) ∧
      (callsOf Method.buildDefaultEndpoint after.calls).length ≤
        earlyReturns calls (start c) + 1 ∧
      (earlyReturns calls (start c) = 0 →
        (callsOf Method.buildDefaultEndpoint after.calls).length ≤ 1) := by
  obtain ⟨after, issued, hrun, hcalls, hcount, -⟩ := connectAll_build_bound calls (start c) hinit
  have hissued : after.calls = issued := by simpa [start] using hcalls
  have hexact : (callsOf Method.buildDefaultEndpoint after.calls).length =
      earlyReturns calls (start c) +
        (if (c.m_defaultEndpointBuilder.isSome &&
            after.self.m_defaultEndpointBuilder.isNone) = true then 1 else 0) := by
    rw [hissued]
    exact hcount
  refine ⟨fun env performReset m hm => returnsEarly_iff env performReset m hm,
    after, hrun, hexact, ?_, ?_⟩
  · rw [hexact]
    split <;> omega
  · intro hnone
    rw [hexact, hnone]
    split <;> omega

/-- C11, amended, on the sample client: two early returns, a `connect(true)`
that submits the endpoint, and two more calls of which neither returns early,
though the collaborators of the last would make a held builder fail: three
`buildDefaultEndpoint` calls, two early returns. -/
theorem connect_builds_once_per_early_return_witness :
    sampleClient.initialized = true ∧
    earlyReturns [(sampleUnbuildable, true), (sampleRegistrationFailed, true),
      (sampleOnline, true), (sampleOnline, true), (sampleRegistrationFailed, true)]
      (start sampleClient) = 2 ∧
    ∃ after, (connectAll [(sampleUnbuildable, true), (sampleRegistrationFailed, true),
        (sampleOnline, true), (sampleOnline, true), (sampleRegistrationFailed, true)]).run
          (start sampleClient) = some ((), after) ∧
      (callsOf Method.buildDefaultEndpoint after.calls).length =
        earlyReturns [(sampleUnbuildable, true), (sampleRegistrationFailed, true),
          (sampleOnline, true), (sampleOnline, true), (sampleRegistrationFailed, true)]
          (start sampleClient) +
          (if (sampleClient.m_defaultEndpointBuilder.isSome &&
              after.self.m_defaultEndpointBuilder.isNone) = true then 1 else 0) ∧
      (callsOf Method.buildDefaultEndpoint after.calls).length ≤
        earlyReturns [(sampleUnbuildable, true), (sampleRegistrationFailed, true),
          (sampleOnline, true), (sampleOnline, true), (sampleRegistrationFailed, true)]
          (start sampleClient) + 1 ∧
      (earlyReturns [(sampleUnbuildable, true), (sampleRegistrationFailed, true),
          (sampleOnline, true), (sampleOnline, true), (sampleRegistrationFailed, true)]
          (start sampleClient) = 0 →
        (callsOf Method.buildDefaultEndpoint after.calls).length ≤ 1) :=
  ⟨rfl, by decide, (connect_builds_once_per_early_return sampleClient _ rfl).2⟩

/-! ## Running statements -/

@[simp] theorem Build.emit_present (b : Build) (events : List Event) :
    (b.emit events).present = b.present := rfl

@[simp] theorem Build.emit_provided (b : Build) (events : List Event) :
    (b.emit events).provided = b.provided := rfl

@[simp] theorem Build.emit_events (b : Build) (events : List Event) :
    (b.emit events).events = b.events ++ events := rfl

@[simp] theorem Build.emit_nil (b : Build) : b.emit [] = b := by
  simp [Build.emit]

@[simp] theorem Build.emit_emit (b : Build) (first second : List Event) :
    (b.emit first).emit second = b.emit (first ++ second) := by
  simp [Build.emit]

@[simp] theorem Build.has_emit (b : Build) (events : List Event) (object : Ref) :
    (b.emit events).has object = b.has object := by
  cases object <;> rfl

@[simp] theorem run_nil (env : Factories) (b : Build) :
    run env [] b = (Outcome.completed, b) := rfl

/-- Running two lists of statements one after the other. -/
theorem run_append (env : Factories) (first second : List Step) :
    ∀ b : Build, run env (first ++ second) b =
      match run env first b with
      | (Outcome.completed, next) => run env second next
      | stopped => stopped := by
  induction first with
  | nil => intro b; rfl
  | cons step rest ih =>
    intro b
    simp only [List.cons_append, run]
    rcases h : step.exec env b with ⟨outcome, next⟩
    cases outcome
    · exact ih next
    · rfl
    · rfl

/-- Running statements after a list that runs through. -/
theorem run_append_completed (env : Factories) (first second : List Step) (b next : Build)
    (h : run env first b = (Outcome.completed, next)) :
    run env (first ++ second) b = run env second next := by
  rw [run_append, h]

/-- A list of statements one of which ends the run: what follows is not executed. -/
theorem run_append_stopped (env : Factories) (first second : List Step) (b next : Build)
    (outcome : Outcome) (h : run env first b = (outcome, next))
    (hstopped : outcome ≠ Outcome.completed) :
    run env (first ++ second) b = (outcome, next) := by
  rw [run_append, h]
  cases outcome <;> simp at hstopped <;> rfl

/-- One statement only adds events; it never changes the arguments. -/
theorem Step.exec_extends (env : Factories) (b : Build) (step : Step) :
    ∃ events, (step.exec env b).2.events = b.events ++ events ∧
      (step.exec env b).2.provided = b.provided := by
  cases step with
  | check holds level event reason =>
    cases holds
    · exact ⟨[Event.log level event reason], rfl, rfl⟩
    · exact ⟨[], by simp [Step.exec], rfl⟩
  | make part => exact ⟨[Event.construct part], rfl, rfl⟩
  | create part => exact ⟨[Event.construct part], rfl, rfl⟩
  | obtain part => exact ⟨[], by simp [Step.exec, Build.assign], rfl⟩
  | store part source => exact ⟨[], by simp [Step.exec, Build.assign], rfl⟩
  | require part level event reason =>
    by_cases h : part ∈ b.present
    · exact ⟨[], by simp [Step.exec, h], by simp [Step.exec, h]⟩
    · exact ⟨[Event.log level event reason], by simp [Step.exec, h], by simp [Step.exec, h]⟩
  | report part level event reason =>
    by_cases h : part ∈ b.present
    · exact ⟨[], by simp [Step.exec, h], by simp [Step.exec, h]⟩
    · exact ⟨[Event.log level event reason], by simp [Step.exec, h], by simp [Step.exec, h]⟩
  | call receiver op args =>
    cases h : b.has receiver
    · exact ⟨[], by simp [Step.exec, h], by simp [Step.exec, h]⟩
    · exact ⟨[Event.call receiver op args], by simp [Step.exec, h], by simp [Step.exec, h]⟩
  | callIf guards receiver op args =>
    cases hg : guards.all (fun g => decide (g ∈ b.present))
    · exact ⟨[], by simp [Step.exec, hg], by simp [Step.exec, hg]⟩
    · cases h : b.has receiver
      · exact ⟨[], by simp [Step.exec, hg, h], by simp [Step.exec, hg, h]⟩
      · exact ⟨[Event.call receiver op args], by simp [Step.exec, hg, h],
          by simp [Step.exec, hg, h]⟩
  | requireCall receiver op args level event reason =>
    cases h : b.has receiver
    · exact ⟨[], by simp [Step.exec, h], by simp [Step.exec, h]⟩
    · cases hs : env.succeeds receiver op args
      · exact ⟨[Event.call receiver op args, Event.log level event reason],
          by simp [Step.exec, h, hs], by simp [Step.exec, h, hs]⟩
      · exact ⟨[Event.call receiver op args], by simp [Step.exec, h, hs],
          by simp [Step.exec, h, hs]⟩

/-- A run only adds events; it never changes the arguments. -/
theorem run_extends (env : Factories) (steps : List Step) :
    ∀ b : Build, ∃ events, (run env steps b).2.events = b.events ++ events ∧
      (run env steps b).2.provided = b.provided := by
  induction steps with
  | nil => intro b; exact ⟨[], by simp, rfl⟩
  | cons step rest ih =>
    intro b
    obtain ⟨first, hfirst, hprovided⟩ := Step.exec_extends env b step
    simp only [run]
    rcases h : step.exec env b with ⟨outcome, next⟩
    rw [h] at hfirst hprovided
    simp only at hfirst hprovided
    cases outcome
    · obtain ⟨more, hmore, hp⟩ := ih next
      exact ⟨first ++ more, by simp [hmore, hfirst], by simp [hp, hprovided]⟩
    · exact ⟨first, hfirst, hprovided⟩
    · exact ⟨first, hfirst, hprovided⟩

/-- What a guarded call issues does not depend on the events so far. -/
theorem Step.fires_emit (b : Build) (events : List Event) (step : Step) :
    Step.fires (b.emit events) step = Step.fires b step := by
  cases step <;> rfl

/-- Whether a guarded call is free of null calls does not depend on the events so far. -/
theorem Step.faultFree_emit (b : Build) (events : List Event) (step : Step) :
    Step.faultFree (b.emit events) step = Step.faultFree b step := by
  cases step <;> simp [Step.faultFree]

/-- A list of guarded calls none of which calls through a null pointer runs
through, changes no member, and issues the events of the calls whose guards hold. -/
theorem run_guarded (env : Factories) (steps : List Step) :
    ∀ b : Build, (∀ step ∈ steps, step.isGuardedCall = true) →
      (∀ step ∈ steps, step.faultFree b = true) →
      run env steps b = (Outcome.completed, b.emit (steps.filterMap (Step.fires b))) := by
  induction steps with
  | nil => intro b _ _; simp
  | cons step rest ih =>
    intro b hguarded hfree
    cases step with
    | callIf guards receiver op args =>
      have hstep := hfree _ (List.mem_cons_self _ _)
      simp only [Step.faultFree] at hstep
      cases hg : guards.all (fun g => decide (g ∈ b.present))
      · have hnext := ih b (fun s hs => hguarded s (List.mem_cons_of_mem _ hs))
          (fun s hs => hfree s (List.mem_cons_of_mem _ hs))
        simp [run, Step.exec, hg, hnext, Step.fires]
      · have hhas : b.has receiver = true := by simpa [hg] using hstep
        have hnext := ih (b.emit [Event.call receiver op args])
          (fun s hs => hguarded s (List.mem_cons_of_mem _ hs))
          (fun s hs => by
            rw [Step.faultFree_emit]
            exact hfree s (List.mem_cons_of_mem _ hs))
        have hfires : Step.fires (b.emit [Event.call receiver op args]) = Step.fires b :=
          funext (Step.fires_emit b _)
        simp [run, Step.exec, hg, hhas, hnext, Step.fires, hfires]
    | check _ _ _ _ => simpa [Step.isGuardedCall] using hguarded _ (List.mem_cons_self _ _)
    | make _ => simpa [Step.isGuardedCall] using hguarded _ (List.mem_cons_self _ _)
    | create _ => simpa [Step.isGuardedCall] using hguarded _ (List.mem_cons_self _ _)
    | obtain _ => simpa [Step.isGuardedCall] using hguarded _ (List.mem_cons_self _ _)
    | store _ _ => simpa [Step.isGuardedCall] using hguarded _ (List.mem_cons_self _ _)
    | require _ _ _ _ => simpa [Step.isGuardedCall] using hguarded _ (List.mem_cons_self _ _)
    | report _ _ _ _ => simpa [Step.isGuardedCall] using hguarded _ (List.mem_cons_self _ _)
    | call _ _ _ => simpa [Step.isGuardedCall] using hguarded _ (List.mem_cons_self _ _)
    | requireCall _ _ _ _ _ _ =>
      simpa [Step.isGuardedCall] using hguarded _ (List.mem_cons_self _ _)

/-! ## Teardown -/

/-- If `second` follows a stretch that contains `first` but not `second`, then
`first` comes before `second`. -/
theorem comesBefore_of_mem (first second : Event) (stretch later : List Event)
    (hfirst : first ∈ stretch) (hsecond : second ∉ stretch) :
    comesBefore first second (stretch ++ second :: later) := by
  obtain ⟨head, tail, hsplit⟩ := List.append_of_mem hfirst
  refine ⟨head, tail ++ second :: later, by simp [hsplit], ?_, by simp⟩
  intro h
  exact hsecond (by simp [hsplit, h])

/-- Two different events cannot each come before the other. -/
theorem comesBefore_asymm (first second : Event) (events : List Event)
    (hne : first ≠ second) (h : comesBefore first second events) :
    ¬ comesBefore second first events := by
  rintro ⟨earlier', later', hsplit', hnot', -⟩
  obtain ⟨earlier, later, hsplit, hnot, -⟩ := h
  rw [hsplit] at hsplit'
  rcases List.append_eq_append_iff.1 hsplit' with ⟨middle, h1, h2⟩ | ⟨middle, h1, h2⟩
  · cases middle with
    | nil =>
      simp at h2
      exact hne h2.1
    | cons e rest =>
      simp at h2
      exact hnot' (by simp [h1, h2.1])
  · cases middle with
    | nil =>
      simp at h2
      exact hne h2.1.symm
    | cons e rest =>
      simp at h2
      exact hnot (by simp [h1, h2.1])

/-- The events of a list of `if (member) member->shutdown()` statements. -/
theorem fires_shutdownIf (b : Build) (members : List Part) :
    (members.map shutdownIf).filterMap (Step.fires b) =
      (members.filter (fun member => decide (member ∈ b.present))).map shutdownOf := by
  induction members with
  | nil => rfl
  | cons member rest ih =>
    by_cases h : member ∈ b.present <;>
      simp [List.filterMap_cons, Step.fires, shutdownIf, shutdownOf, h, ih]

/-- A list of `if (member) member->shutdown()` statements is a list of guarded calls. -/
theorem shutdownIf_guarded (members : List Part) :
    ∀ step ∈ members.map shutdownIf, step.isGuardedCall = true := by
  intro step h
  obtain ⟨member, -, rfl⟩ := List.mem_map.1 h
  rfl

/-- A list of `if (member) member->shutdown()` statements never calls through null. -/
theorem shutdownIf_faultFree (b : Build) (members : List Part) :
    ∀ step ∈ members.map shutdownIf, step.faultFree b = true := by
  intro step h
  obtain ⟨member, -, rfl⟩ := List.mem_map.1 h
  by_cases hm : member ∈ b.present <;> simp [Step.faultFree, shutdownIf, Build.has, hm]

/-- The destructor starts with a stretch of guarded calls that is free of null
calls: its events are the events of that stretch, then whatever follows. -/
theorem teardownEvents_of_stretch (flags : BuildFlags) (env : Factories) (b : Build)
    (stretch remaining : List Step)
    (hsplit : teardownSteps flags env = stretch ++ remaining)
    (hguarded : ∀ step ∈ stretch, step.isGuardedCall = true)
    (hfree : ∀ step ∈ stretch, step.faultFree b = true) :
    ∃ rest, teardownEvents flags env b = stretch.filterMap (Step.fires b) ++ rest := by
  have hfree0 : ∀ step ∈ stretch, step.faultFree { b with events := [] } = true := by
    intro step h
    have := hfree step h
    cases step <;> first | rfl | simpa [Step.faultFree, Build.has] using this
  have hrun := run_guarded env stretch { b with events := [] } hguarded hfree0
  obtain ⟨rest, hrest, -⟩ := run_extends env remaining
    (Build.emit { b with events := [] }
      (stretch.filterMap (Step.fires { b with events := [] })))
  have hfires : Step.fires { b with events := [] } = Step.fires b := by
    funext step; cases step <;> rfl
  refine ⟨rest, ?_⟩
  simp only [teardownEvents, teardown, hsplit, run_append_completed env _ _ _ _ hrun, hrest]
  simp [hfires]

/-- The order of the first stretch of the destructor, read off its events. -/
theorem shutdown_chain_order (middle rest events : List Event)
    (hmiddle : ∀ e ∈ middle, e = shutdownOf Part.m_softwareInfoSender)
    (hevents : events = [shutdownOf Part.m_directiveSequencer] ++
      surfaceCapabilities.map shutdownOf ++ middle ++
      [shutdownOf Part.m_messageRouter, shutdownOf Part.m_connectionManager,
       shutdownOf Part.m_certifiedSender] ++ rest) :
    events.head? = some (shutdownOf Part.m_directiveSequencer) ∧
    (∀ capability ∈ surfaceCapabilities,
      comesBefore (shutdownOf capability) (shutdownOf Part.m_messageRouter) events ∧
      comesBefore (shutdownOf capability) (shutdownOf Part.m_connectionManager) events) ∧
    comesBefore (shutdownOf Part.m_messageRouter) (shutdownOf Part.m_certifiedSender) events ∧
    comesBefore (shutdownOf Part.m_connectionManager) (shutdownOf Part.m_certifiedSender)
      events := by
  have hnot : ∀ member : Part, member ≠ Part.m_softwareInfoSender →
      member ≠ Part.m_directiveSequencer → member ∉ surfaceCapabilities →
      shutdownOf member ∉ [shutdownOf Part.m_directiveSequencer] ++
        surfaceCapabilities.map shutdownOf ++ middle := by
    intro member h1 h2 h3 hmem
    simp only [List.mem_append, List.mem_singleton, List.mem_map] at hmem
    rcases hmem with (h | ⟨other, hother, h⟩) | h
    · exact h2 (by simpa [shutdownOf] using h)
    · have : other = member := by simpa [shutdownOf] using h
      exact h3 (this ▸ hother)
    · exact h1 (by simpa [shutdownOf] using hmiddle _ h)
  subst hevents
  refine ⟨by simp, ?_, ?_, ?_⟩
  · intro capability hcapability
    have hin : shutdownOf capability ∈ [shutdownOf Part.m_directiveSequencer] ++
        surfaceCapabilities.map shutdownOf ++ middle := by
      simp only [List.mem_append, List.mem_map]
      exact Or.inl (Or.inr ⟨capability, hcapability, rfl⟩)
    constructor
    · have h := comesBefore_of_mem _ _ _
        (shutdownOf Part.m_connectionManager :: shutdownOf Part.m_certifiedSender :: rest) hin
        (hnot Part.m_messageRouter (by decide) (by decide) (by decide))
      simpa using h
    · have h := comesBefore_of_mem (shutdownOf capability)
        (shutdownOf Part.m_connectionManager)
        ([shutdownOf Part.m_directiveSequencer] ++ surfaceCapabilities.map shutdownOf ++
          middle ++ [shutdownOf Part.m_messageRouter])
        (shutdownOf Part.m_certifiedSender :: rest)
        (List.mem_append_left _ hin)
        (by
          intro hmem
          rcases List.mem_append.1 hmem with h | h
          · exact hnot Part.m_connectionManager (by decide) (by decide) (by decide) h
          · simp [shutdownOf] at h)
      simpa using h
  · have h := comesBefore_of_mem (shutdownOf Part.m_messageRouter)
      (shutdownOf Part.m_certifiedSender)
      ([shutdownOf Part.m_directiveSequencer] ++ surfaceCapabilities.map shutdownOf ++
        middle ++ [shutdownOf Part.m_messageRouter, shutdownOf Part.m_connectionManager])
      rest (by simp)
      (by
        intro hmem
        rcases List.mem_append.1 hmem with h | h
        · exact hnot Part.m_certifiedSender (by decide) (by decide) (by decide) h
        · simp [shutdownOf] at h)
    simpa using h
  · have h := comesBefore_of_mem (shutdownOf Part.m_connectionManager)
      (shutdownOf Part.m_certifiedSender)
      ([shutdownOf Part.m_directiveSequencer] ++ surfaceCapabilities.map shutdownOf ++
        middle ++ [shutdownOf Part.m_messageRouter, shutdownOf Part.m_connectionManager])
      rest (by simp)
      (by
        intro hmem
        rcases List.mem_append.1 hmem with h | h
        · exact hnot Part.m_certifiedSender (by decide) (by decide) (by decide) h
        · simp [shutdownOf] at h)
    simpa using h

/-- C19: in the teardown of a client on which the directive sequencer, the
speaker manager, the presentation agent, the template runtime, the audio input
processor, the audio player, the external media player, the speech
synthesizer, the alerts agent, the playback controller, the message router, the
connection manager and the certified sender are present (as on every fully
built client), the first call is the directive sequencer's `shutdown`; the
`shutdown` of each of those nine interaction capabilities comes before the
`shutdown` of the message router and before that of the connection manager;
and both of those come before the certified sender's `shutdown`. -/
theorem teardown_shutdown_chain (flags : BuildFlags) (env : Factories) (b : Build)
    (hsequencer : Part.m_directiveSequencer ∈ b.present)
    (hsurface : ∀ capability ∈
      [Part.m_speakerManager, Part.m_alexaPresentation, Part.m_templateRuntime,
       Part.m_audioInputProcessor, Part.m_audioPlayer, Part.m_externalMediaPlayer,
       Part.m_speechSynthesizer, Part.m_alertsCapabilityAgent, Part.m_playbackController],
      capability ∈ b.present)
    (hrouter : Part.m_messageRouter ∈ b.present)
    (hconnection : Part.m_connectionManager ∈ b.present)
    (hsender : Part.m_certifiedSender ∈ b.present) :
    (teardownEvents flags env b).head? =
      some (Event.call (Ref.part Part.m_directiveSequencer) Op.shutdown []) ∧
    (∀ capability ∈
      [Part.m_speakerManager, Part.m_alexaPresentation, Part.m_templateRuntime,
       Part.m_audioInputProcessor, Part.m_audioPlayer, Part.m_externalMediaPlayer,
       Part.m_speechSynthesizer, Part.m_alertsCapabilityAgent, Part.m_playbackController],
      comesBefore (Event.call (Ref.part capability) Op.shutdown [])
        (Event.call (Ref.part Part.m_messageRouter) Op.shutdown [])
        (teardownEvents flags env b) ∧
      comesBefore (Event.call (Ref.part capability) Op.shutdown [])
        (Event.call (Ref.part Part.m_connectionManager) Op.shutdown [])
        (teardownEvents flags env b)) ∧
    comesBefore (Event.call (Ref.part Part.m_messageRouter) Op.shutdown [])
      (Event.call (Ref.part Part.m_certifiedSender) Op.shutdown [])
      (teardownEvents flags env b) ∧
    comesBefore (Event.call (Ref.part Part.m_connectionManager) Op.shutdown [])
      (Event.call (Ref.part Part.m_certifiedSender) Op.shutdown [])
      (teardownEvents flags env b) := by
  have hall : ∀ capability ∈ surfaceCapabilities, capability ∈ b.present := hsurface
  obtain ⟨rest, hevents⟩ := teardownEvents_of_stretch flags env b shutdownFirst
    (shutdownTrackers flags ++ shutdownCalls ++ shutdownGateways flags ++
      shutdownDoNotDisturb ++ shutdownEqualizer env ++ closeStorage ++ removeProxy flags)
    (by simp [teardownSteps]) (shutdownIf_guarded _) (shutdownIf_faultFree b _)
  have hfilter : surfaceCapabilities.filter (fun member => decide (member ∈ b.present)) =
      surfaceCapabilities := by
    rw [List.filter_eq_self]
    intro capability h
    simpa using hall capability h
  rw [shutdownFirst, fires_shutdownIf, firstMembers] at hevents
  simp only [List.filter_append, hfilter, List.map_append] at hevents
  refine shutdown_chain_order
    (([Part.m_softwareInfoSender].filter (fun member => decide (member ∈ b.present))).map
      shutdownOf) rest _ ?_ ?_
  · intro e he
    obtain ⟨member, hmember, rfl⟩ := List.mem_map.1 he
    have := (List.mem_filter.1 hmember).1
    simp at this
    rw [this]
  · rw [hevents]
    by_cases hsis : Part.m_softwareInfoSender ∈ b.present <;>
      simp [List.filter_cons, hsequencer, hrouter, hconnection, hsender, hsis]

/-- C19 on the client built from the sample arguments, where the thirteen
`shutdown` calls of the chain are events 1 to 10 and 12 to 14 of the teardown. -/
theorem teardown_shutdown_chain_witness :
    Part.m_directiveSequencer ∈ sampleBuilt.present ∧
    (∀ capability ∈
      [Part.m_speakerManager, Part.m_alexaPresentation, Part.m_templateRuntime,
       Part.m_audioInputProcessor, Part.m_audioPlayer, Part.m_externalMediaPlayer,
       Part.m_speechSynthesizer, Part.m_alertsCapabilityAgent, Part.m_playbackController],
      capability ∈ sampleBuilt.present) ∧
    Part.m_messageRouter ∈ sampleBuilt.present ∧
    Part.m_connectionManager ∈ sampleBuilt.present ∧
    Part.m_certifiedSender ∈ sampleBuilt.present ∧
    (teardownEvents allFlags sampleFactories sampleBuilt).take 14 =
      [Event.call (Ref.part Part.m_directiveSequencer) Op.shutdown [],
       Event.call (Ref.part Part.m_speakerManager) Op.shutdown [],
       Event.call (Ref.part Part.m_alexaPresentation) Op.shutdown [],
       Event.call (Ref.part Part.m_templateRuntime) Op.shutdown [],
       Event.call (Ref.part Part.m_audioInputProcessor) Op.shutdown [],
       Event.call (Ref.part Part.m_audioPlayer) Op.shutdown [],
       Event.call (Ref.part Part.m_externalMediaPlayer) Op.shutdown [],
       Event.call (Ref.part Part.m_speechSynthesizer) Op.shutdown [],
       Event.call (Ref.part Part.m_alertsCapabilityAgent) Op.shutdown [],
       Event.call (Ref.part Part.m_playbackController) Op.shutdown [],
       Event.call (Ref.part Part.m_softwareInfoSender) Op.shutdown [],
       Event.call (Ref.part Part.m_messageRouter) Op.shutdown [],
       Event.call (Ref.part Part.m_connectionManager) Op.shutdown [],
       Event.call (Ref.part Part.m_certifiedSender) Op.shutdown []] ∧
    (teardownEvents allFlags sampleFactories sampleBuilt).head? =
      some (Event.call (Ref.part Part.m_directiveSequencer) Op.shutdown []) ∧
    (∀ capability ∈
      [Part.m_speakerManager, Part.m_alexaPresentation, Part.m_templateRuntime,
       Part.m_audioInputProcessor, Part.m_audioPlayer, Part.m_externalMediaPlayer,
       Part.m_speechSynthesizer, Part.m_alertsCapabilityAgent, Part.m_playbackController],
      comesBefore (Event.call (Ref.part capability) Op.shutdown [])
        (Event.call (Ref.part Part.m_messageRouter) Op.shutdown [])
        (teardownEvents allFlags sampleFactories sampleBuilt) ∧
      comesBefore (Event.call (Ref.part capability) Op.shutdown [])
        (Event.call (Ref.part Part.m_connectionManager) Op.shutdown [])
        (teardownEvents allFlags sampleFactories sampleBuilt)) ∧
    comesBefore (Event.call (Ref.part Part.m_messageRouter) Op.shutdown [])
      (Event.call (Ref.part Part.m_certifiedSender) Op.shutdown [])
      (teardownEvents allFlags sampleFactories sampleBuilt) ∧
    comesBefore (Event.call (Ref.part Part.m_connectionManager) Op.shutdown [])
      (Event.call (Ref.part Part.m_certifiedSender) Op.shutdown [])
      (teardownEvents allFlags sampleFactories sampleBuilt) :=
  ⟨by decide, by decide, by decide, by decide, by decide, by decide,
    teardown_shutdown_chain allFlags sampleFactories sampleBuilt (by decide) (by decide)
      (by decide) (by decide) (by decide)⟩

/-- An event a list of guarded calls issues comes from one of its statements. -/
theorem mem_fires (b : Build) (steps : List Step) (e : Event)
    (h : e ∈ steps.filterMap (Step.fires b)) :
    ∃ guards receiver op args, Step.callIf guards receiver op args ∈ steps ∧
      e = Event.call receiver op args := by
  obtain ⟨step, hstep, hfires⟩ := List.mem_filterMap.1 h
  cases step with
  | callIf guards receiver op args =>
    refine ⟨guards, receiver, op, args, hstep, ?_⟩
    simp only [Step.fires] at hfires
    split at hfires
    · exact (Option.some.inj hfires).symm
    · cases hfires
  | _ => simp [Step.fires] at hfires

/-- The first four stretches of the destructor are guarded calls. -/
theorem shutdown_stretch_guarded (flags : BuildFlags) :
    ∀ step ∈ shutdownFirst ++ shutdownTrackers flags ++ shutdownCalls ++ shutdownGateways flags,
      step.isGuardedCall = true := by
  intro step h
  simp only [List.mem_append] at h
  rcases h with ((h | h) | h) | h
  · exact shutdownIf_guarded _ step h
  · exact shutdownIf_guarded _ step h
  · simp only [shutdownCalls, List.mem_cons, List.mem_singleton, List.not_mem_nil,
      or_false] at h
    rcases h with rfl | rfl | rfl <;> rfl
  · exact shutdownIf_guarded _ step h

/-- The first four stretches of the destructor never call through a null pointer. -/
theorem shutdown_stretch_faultFree (flags : BuildFlags) (b : Build) :
    ∀ step ∈ shutdownFirst ++ shutdownTrackers flags ++ shutdownCalls ++ shutdownGateways flags,
      step.faultFree b = true := by
  intro step h
  simp only [List.mem_append] at h
  rcases h with ((h | h) | h) | h
  · exact shutdownIf_faultFree b _ step h
  · exact shutdownIf_faultFree b _ step h
  · simp only [shutdownCalls, List.mem_cons, List.mem_singleton, List.not_mem_nil,
      or_false] at h
    rcases h with rfl | rfl | rfl
    · by_cases h1 : Part.m_mrmCapabilityAgent ∈ b.present <;>
        by_cases h2 : Part.m_callManager ∈ b.present <;>
        simp [Step.faultFree, Build.has, h1, h2]
    · exact shutdownIf_faultFree b [Part.m_mrmCapabilityAgent] _ (by simp)
    · exact shutdownIf_faultFree b [Part.m_callManager] _ (by simp)
  · exact shutdownIf_faultFree b _ step h

/-- C18: in teardown, whenever both the multi-room-music agent and the call
manager are present, the agent is detached from call-state notifications
(`removeObserver` on the call manager) before the call manager receives its
`shutdown` call. -/
theorem teardown_detaches_mrm_first (flags : BuildFlags) (env : Factories) (b : Build)
    (hagent : Part.m_mrmCapabilityAgent ∈ b.present)
    (hmanager : Part.m_callManager ∈ b.present) :
    comesBefore detachMultiRoomMusic (shutdownOf Part.m_callManager)
      (teardownEvents flags env b) := by
  obtain ⟨rest, hevents⟩ := teardownEvents_of_stretch flags env b
    (shutdownFirst ++ shutdownTrackers flags ++ shutdownCalls)
    (shutdownGateways flags ++ shutdownDoNotDisturb ++ shutdownEqualizer env ++ closeStorage ++
      removeProxy flags)
    (by simp [teardownSteps])
    (fun step h => shutdown_stretch_guarded flags step (List.mem_append_left _ h))
    (fun step h => shutdown_stretch_faultFree flags b step (List.mem_append_left _ h))
  rw [hevents]
  refine ⟨(shutdownFirst ++ shutdownTrackers flags).filterMap (Step.fires b),
    shutdownOf Part.m_mrmCapabilityAgent :: shutdownOf Part.m_callManager :: rest, ?_, ?_, ?_⟩
  · simp [List.filterMap_append, shutdownCalls, Step.fires, shutdownIf, hagent, hmanager,
      detachMultiRoomMusic, shutdownOf]
  · intro hmem
    rw [List.filterMap_append, shutdownFirst, shutdownTrackers, fires_shutdownIf,
      fires_shutdownIf] at hmem
    simp only [List.mem_append, List.mem_map, List.mem_filter] at hmem
    rcases hmem with ⟨member, ⟨hmember, -⟩, heq⟩ | ⟨member, ⟨hmember, -⟩, heq⟩
    · have : member = Part.m_callManager := by simpa [shutdownOf] using heq
      subst this
      simp [firstMembers, surfaceCapabilities] at hmember
    · have : member = Part.m_callManager := by simpa [shutdownOf] using heq
      subst this
      cases hc : flags.ENABLE_CAPTIONS <;> simp [trackerMembers, hc] at hmember
  · simp

/-- C17: the destructor does not do this.  In the teardown of every client on
which the do-not-disturb agent and the connection manager are present, the
connection manager receives its `shutdown` call first (line 1985), and the
agent is detached from connection-status notifications
(`removeConnectionStatusObserver` on the connection manager) only later (line
2059), right before the agent's own `shutdown` call: the detach does not come
before the `shutdown` of the subject of the edge. -/
theorem teardown_shuts_connection_down_before_detach (flags : BuildFlags) (env : Factories)
    (b : Build) (hagent : Part.m_dndCapabilityAgent ∈ b.present)
    (hmanager : Part.m_connectionManager ∈ b.present) :
    comesBefore (shutdownOf Part.m_connectionManager) detachDoNotDisturb
      (teardownEvents flags env b) ∧
    ¬ comesBefore detachDoNotDisturb (shutdownOf Part.m_connectionManager)
      (teardownEvents flags env b) ∧
    ∃ earlier later, teardownEvents flags env b =
      earlier ++ detachDoNotDisturb :: shutdownOf Part.m_dndCapabilityAgent :: later := by
  have hboth : comesBefore (shutdownOf Part.m_connectionManager) detachDoNotDisturb
        (teardownEvents flags env b) ∧
      ∃ earlier later, teardownEvents flags env b =
        earlier ++ detachDoNotDisturb :: shutdownOf Part.m_dndCapabilityAgent :: later := by
    obtain ⟨rest, hevents⟩ := teardownEvents_of_stretch flags env b
      ((shutdownFirst ++ shutdownTrackers flags ++ shutdownCalls ++ shutdownGateways flags) ++
        shutdownDoNotDisturb)
      (shutdownEqualizer env ++ closeStorage ++ removeProxy flags)
      (by simp [teardownSteps])
      (by
        intro step h
        rcases List.mem_append.1 h with h | h
        · exact shutdown_stretch_guarded flags step h
        · simp only [shutdownDoNotDisturb, List.mem_cons, List.mem_singleton,
            List.not_mem_nil, or_false] at h
          rcases h with rfl | rfl <;> rfl)
      (by
        intro step h
        rcases List.mem_append.1 h with h | h
        · exact shutdown_stretch_faultFree flags b step h
        · simp only [shutdownDoNotDisturb, List.mem_cons, List.mem_singleton,
            List.not_mem_nil, or_false] at h
          rcases h with rfl | rfl
          · simp [Step.faultFree, Build.has, hmanager]
          · exact shutdownIf_faultFree b [Part.m_dndCapabilityAgent] _ (by simp))
    have hsplit : teardownEvents flags env b =
        (shutdownFirst ++ shutdownTrackers flags ++ shutdownCalls ++
          shutdownGateways flags).filterMap (Step.fires b) ++
        detachDoNotDisturb :: (shutdownOf Part.m_dndCapabilityAgent :: rest) := by
      rw [hevents, List.filterMap_append]
      simp [shutdownDoNotDisturb, Step.fires, shutdownIf, hagent, detachDoNotDisturb, shutdownOf]
    refine ⟨?_, _, _, hsplit⟩
    rw [hsplit]
    apply comesBefore_of_mem
    · simp only [List.filterMap_append, List.mem_append]
      refine Or.inl (Or.inl (Or.inl ?_))
      rw [shutdownFirst, fires_shutdownIf]
      exact List.mem_map.2 ⟨Part.m_connectionManager,
        List.mem_filter.2 ⟨by simp [firstMembers], by simpa using hmanager⟩, rfl⟩
    · intro hmem
      obtain ⟨guards, receiver, op, args, hstep, heq⟩ := mem_fires b _ _ hmem
      simp only [detachDoNotDisturb, Event.call.injEq] at heq
      obtain ⟨rfl, rfl, rfl⟩ := heq
      simp only [List.mem_append, shutdownFirst, shutdownTrackers, shutdownGateways,
        List.mem_map] at hstep
      rcases hstep with ((⟨member, -, h⟩ | ⟨member, -, h⟩) | h) | ⟨member, -, h⟩
      · simp [shutdownIf] at h
      · simp [shutdownIf] at h
      · simp [shutdownCalls, shutdownIf] at h
      · simp [shutdownIf] at h

  set_option maxRecDepth 100000 in
  exact ⟨hboth.1, comesBefore_asymm _ _ _ (by decide) hboth.1, hboth.2⟩

/-- C17 on the client built from the sample arguments, every optional feature
compiled in: the `shutdown` of the connection manager is event 13 of the
teardown, the detach of the do-not-disturb agent event 30. -/
theorem teardown_shuts_connection_down_before_detach_witness :
    Part.m_dndCapabilityAgent ∈ sampleBuilt.present ∧
    Part.m_connectionManager ∈ sampleBuilt.present ∧
    (teardownEvents allFlags sampleFactories sampleBuilt).get? 12 =
      some (Event.call (Ref.part Part.m_connectionManager) Op.shutdown []) ∧
    (teardownEvents allFlags sampleFactories sampleBuilt).get? 29 =
      some (Event.call (Ref.part Part.m_connectionManager) Op.removeConnectionStatusObserver
        [Ref.part Part.m_dndCapabilityAgent]) ∧
    comesBefore (shutdownOf Part.m_connectionManager) detachDoNotDisturb
      (teardownEvents allFlags sampleFactories sampleBuilt) ∧
    ¬ comesBefore detachDoNotDisturb (shutdownOf Part.m_connectionManager)
      (teardownEvents allFlags sampleFactories sampleBuilt) ∧
    ∃ earlier later, teardownEvents allFlags sampleFactories sampleBuilt =
      earlier ++ detachDoNotDisturb :: shutdownOf Part.m_dndCapabilityAgent :: later :=
  ⟨by decide, by decide, by decide, by decide,
    teardown_shuts_connection_down_before_detach allFlags sampleFactories sampleBuilt
      (by decide) (by decide)⟩

/-- The destructor as its first four stretches followed by the rest. -/
theorem teardownSteps_split (flags : BuildFlags) (env : Factories) :
    teardownSteps flags env =
      (shutdownFirst ++ shutdownTrackers flags ++ shutdownCalls ++ shutdownGateways flags) ++
        (shutdownDoNotDisturb ++ (shutdownEqualizer env ++ (closeStorage ++ removeProxy flags))) := by
  simp [teardownSteps]

/-- Every statement of the destructor is a guarded call. -/
theorem teardownSteps_guarded (flags : BuildFlags) (env : Factories) :
    ∀ step ∈ teardownSteps flags env, step.isGuardedCall = true := by
  intro step h
  rw [teardownSteps_split] at h
  rcases List.mem_append.1 h with h | h
  · exact shutdown_stretch_guarded flags step h
  rcases List.mem_append.1 h with h | h
  · simp only [shutdownDoNotDisturb, List.mem_cons, List.mem_singleton,
      List.not_mem_nil, or_false] at h
    rcases h with rfl | rfl <;> rfl
  rcases List.mem_append.1 h with h | h
  · simp only [shutdownEqualizer, List.mem_append, List.mem_cons, List.mem_singleton,
      List.mem_map, List.not_mem_nil, or_false] at h
    rcases h with (((((rfl | rfl) | ⟨_, -, rfl⟩) | rfl) | ⟨_, -, rfl⟩) | rfl) <;> rfl
  rcases List.mem_append.1 h with h | h
  · simp only [closeStorage, List.mem_singleton] at h
    subst h; rfl
  · cases hc : flags.ENABLE_COMMS_AUDIO_PROXY <;> simp [removeProxy, hc] at h
    subst h; rfl

/-- The destructor never calls through a null pointer when the connection
manager is present whenever the do-not-disturb agent is, and the equalizer
runtime setup and controller are present whenever the equalizer agent is. -/
theorem teardownSteps_faultFree (flags : BuildFlags) (env : Factories) (b : Build)
    (hdnd : Part.m_dndCapabilityAgent ∈ b.present → Part.m_connectionManager ∈ b.present)
    (hequalizer : Part.m_equalizerCapabilityAgent ∈ b.present →
      Part.m_equalizerRuntimeSetup ∈ b.present ∧ Part.m_equalizerController ∈ b.present) :
    ∀ step ∈ teardownSteps flags env, step.faultFree b = true := by
  intro step h
  rw [teardownSteps_split] at h
  rcases List.mem_append.1 h with h | h
  · exact shutdown_stretch_faultFree flags b step h
  rcases List.mem_append.1 h with h | h
  · simp only [shutdownDoNotDisturb, List.mem_cons, List.mem_singleton,
      List.not_mem_nil, or_false] at h
    rcases h with rfl | rfl
    · by_cases ha : Part.m_dndCapabilityAgent ∈ b.present
      · simp [Step.faultFree, Build.has, ha, hdnd ha]
      · simp [Step.faultFree, ha]
    · exact shutdownIf_faultFree b [Part.m_dndCapabilityAgent] _ (by simp)
  rcases List.mem_append.1 h with h | h
  · simp only [shutdownEqualizer, List.mem_append, List.mem_cons, List.mem_singleton,
      List.mem_map, List.not_mem_nil, or_false] at h
    by_cases ha : Part.m_equalizerCapabilityAgent ∈ b.present
    · obtain ⟨hsetup, hcontroller⟩ := hequalizer ha
      rcases h with (((((rfl | rfl) | ⟨_, -, rfl⟩) | rfl) | ⟨_, -, rfl⟩) | rfl)
      · exact shutdownIf_faultFree b [Part.m_visualCharacteristics] _ (by simp)
      · simp [Step.faultFree, Build.has, hsetup]
      · simp [Step.faultFree, Build.has, hcontroller]
      · simp [Step.faultFree, Build.has, hsetup]
      · simp [Step.faultFree, Build.has, hcontroller]
      · exact shutdownIf_faultFree b [Part.m_equalizerCapabilityAgent] _ (by simp)
    · rcases h with (((((rfl | rfl) | ⟨_, -, rfl⟩) | rfl) | ⟨_, -, rfl⟩) | rfl)
      · exact shutdownIf_faultFree b [Part.m_visualCharacteristics] _ (by simp)
      · simp [Step.faultFree, ha]
      · simp [Step.faultFree, ha]
      · simp [Step.faultFree, ha]
      · simp [Step.faultFree, ha]
      · exact shutdownIf_faultFree b [Part.m_equalizerCapabilityAgent] _ (by simp)
  rcases List.mem_append.1 h with h | h
  · simp only [closeStorage, List.mem_singleton] at h
    subst h
    by_cases hs : Part.m_deviceSettingStorage ∈ b.present <;>
      simp [Step.faultFree, Build.has, hs]
  · cases hc : flags.ENABLE_COMMS_AUDIO_PROXY <;> simp [removeProxy, hc] at h
    subst h
    by_cases hm : Part.m_callManager ∈ b.present <;> simp [Step.faultFree, Build.has, hm]

/-- Under the same conditions the destructor runs through, and its events are
those of its guarded calls whose guards hold. -/
theorem teardown_closed_form (flags : BuildFlags) (env : Factories) (b : Build)
    (hdnd : Part.m_dndCapabilityAgent ∈ b.present → Part.m_connectionManager ∈ b.present)
    (hequalizer : Part.m_equalizerCapabilityAgent ∈ b.present →
      Part.m_equalizerRuntimeSetup ∈ b.present ∧ Part.m_equalizerController ∈ b.present) :
    teardown flags env b =
      (Outcome.completed, b.emit ((teardownSteps flags env).filterMap (Step.fires b))) :=
  run_guarded env _ b (teardownSteps_guarded flags env)
    (teardownSteps_faultFree flags env b hdnd hequalizer)

/-- C20: in a teardown that calls through no null pointer (the connection
manager is present if the do-not-disturb agent is, the equalizer runtime setup
and controller are present if the equalizer agent is) on a client that holds
the device-setting storage, the destructor runs through and `close()` on the
storage is issued exactly once, after every `shutdown` call of the teardown:
no `shutdown` follows it, and the `shutdown` of the do-not-disturb agent, which
holds a reference to the storage, precedes it when that agent is present. -/
theorem teardown_closes_storage_last (flags : BuildFlags) (env : Factories) (b : Build)
    (hstorage : Part.m_deviceSettingStorage ∈ b.present)
    (hdnd : Part.m_dndCapabilityAgent ∈ b.present → Part.m_connectionManager ∈ b.present)
    (hequalizer : Part.m_equalizerCapabilityAgent ∈ b.present →
      Part.m_equalizerRuntimeSetup ∈ b.present ∧ Part.m_equalizerController ∈ b.present) :
    (teardown flags env b).1 = Outcome.completed ∧
    ∃ before after, teardownEvents flags env b = before ++ closeOfStorage :: after ∧
      closeOfStorage ∉ before ∧ closeOfStorage ∉ after ∧
      (∀ e ∈ after, e.isShutdown = false) ∧
      (∀ e ∈ teardownEvents flags env b, e.isShutdown = true → e ∈ before) ∧
      (Part.m_dndCapabilityAgent ∈ b.present →
        shutdownOf Part.m_dndCapabilityAgent ∈ before) := by
  have hrun := teardown_closed_form flags env b hdnd hequalizer
  have hrun0 := teardown_closed_form flags env { b with events := [] } hdnd hequalizer
  have hfires : Step.fires { b with events := [] } = Step.fires b := by
    funext step; cases step <;> rfl
  have hevents : teardownEvents flags env b =
      ((shutdownFirst ++ shutdownTrackers flags ++ shutdownCalls ++ shutdownGateways flags) ++
        (shutdownDoNotDisturb ++ shutdownEqualizer env)).filterMap (Step.fires b) ++
      closeOfStorage :: (removeProxy flags).filterMap (Step.fires b) := by
    simp only [teardownEvents, hrun0, hfires, Build.emit_events, List.nil_append]
    rw [teardownSteps_split]
    simp [List.filterMap_append, closeStorage, Step.fires, hstorage, closeOfStorage]
  have hafter : ∀ e ∈ (removeProxy flags).filterMap (Step.fires b),
      e.isShutdown = false ∧ e ≠ closeOfStorage := by
    intro e he
    obtain ⟨guards, receiver, op, args, hstep, rfl⟩ := mem_fires b _ _ he
    cases hc : flags.ENABLE_COMMS_AUDIO_PROXY <;> simp [removeProxy, hc] at hstep
    obtain ⟨-, -, rfl, -⟩ := hstep
    exact ⟨rfl, by simp [closeOfStorage]⟩
  have hbefore : closeOfStorage ∉
      ((shutdownFirst ++ shutdownTrackers flags ++ shutdownCalls ++ shutdownGateways flags) ++
        (shutdownDoNotDisturb ++ shutdownEqualizer env)).filterMap (Step.fires b) := by
    intro hmem
    obtain ⟨guards, receiver, op, args, hstep, heq⟩ := mem_fires b _ _ hmem
    simp only [closeOfStorage, Event.call.injEq] at heq
    obtain ⟨rfl, rfl, rfl⟩ := heq
    simp only [List.mem_append, shutdownFirst, shutdownTrackers, shutdownGateways,
      List.mem_map] at hstep
    rcases hstep with (((⟨member, -, h⟩ | ⟨member, -, h⟩) | h) | ⟨member, -, h⟩) | h | h
    · simp [shutdownIf] at h
    · simp [shutdownIf] at h
    · simp [shutdownCalls, shutdownIf] at h
    · simp [shutdownIf] at h
    · simp [shutdownDoNotDisturb, shutdownIf] at h
    · simp [shutdownEqualizer, shutdownIf] at h
  refine ⟨by rw [hrun], _, _, hevents, hbefore, ?_, ?_, ?_, ?_⟩
  · intro hmem
    exact (hafter _ hmem).2 rfl
  · intro e he
    exact (hafter e he).1
  · intro e he hshutdown
    rw [hevents] at he
    rcases List.mem_append.1 he with h | h
    · exact h
    · rcases List.mem_cons.1 h with h | h
      · subst h
        simp [closeOfStorage, Event.isShutdown] at hshutdown
      · rw [(hafter e h).1] at hshutdown
        cases hshutdown
  · intro hagent
    apply List.mem_filterMap.2
    refine ⟨shutdownIf Part.m_dndCapabilityAgent, ?_, ?_⟩
    · simp [shutdownDoNotDisturb]
    · simp [Step.fires, shutdownIf, hagent, shutdownOf]

/-- Every statement of the destructor is guarded by at least one member. -/
theorem teardownSteps_guards (flags : BuildFlags) (env : Factories) :
    ∀ step ∈ teardownSteps flags env, ∃ guard guards receiver op args,
      step = Step.callIf (guard :: guards) receiver op args := by
  intro step h
  simp only [teardownSteps, shutdownFirst, shutdownTrackers, shutdownCalls, shutdownGateways,
    shutdownDoNotDisturb, shutdownEqualizer, closeStorage, removeProxy, List.mem_append,
    List.mem_map, List.mem_cons, List.mem_singleton, List.not_mem_nil, or_false] at h
  rcases h with (((((((⟨_, -, rfl⟩ | ⟨_, -, rfl⟩) | rfl | rfl | rfl) | ⟨_, -, rfl⟩) | rfl | rfl) |
    ((((rfl | rfl) | ⟨_, -, rfl⟩) | rfl) | ⟨_, -, rfl⟩) | rfl) | rfl) | h)
  all_goals first
    | exact ⟨_, _, _, _, _, rfl⟩
    | (cases hc : flags.ENABLE_COMMS_AUDIO_PROXY <;> simp [hc] at h
       subst h
       exact ⟨_, _, _, _, _, rfl⟩)

/-- On a candidate with every member null the destructor does nothing. -/
theorem teardown_of_none_present (flags : BuildFlags) (env : Factories) (b : Build)
    (h : b.present = []) : teardown flags env b = (Outcome.completed, b) := by
  rw [teardown_closed_form flags env b (by simp [h]) (by simp [h])]
  have hnone : (teardownSteps flags env).filterMap (Step.fires b) = [] := by
    apply List.filterMap_eq_nil_iff.2
    intro step hstep
    obtain ⟨guard, guards, receiver, op, args, rfl⟩ := teardownSteps_guards flags env step hstep
    simp [Step.fires, h]
  rw [hnone, Build.emit_nil]

/-! ## Validation of the arguments -/

/-- The null tests of parameters that are all non-null run through and leave
no trace. -/
theorem run_inputChecks (env : Factories) (inputs : Inputs) (entries : List (Input × String))
    (b : Build) (h : ∀ entry ∈ entries, entry.1 ∈ inputs.provided) :
    run env (entries.map (inputCheck inputs)) b = (Outcome.completed, b) := by
  induction entries with
  | nil => rfl
  | cons entry rest ih =>
    have hentry : entry.1 ∈ inputs.provided := h entry (List.mem_cons_self _ _)
    simp only [List.map_cons, run, inputCheck, Step.exec, hentry, decide_True, if_true]
    exact ih (fun e he => h e (List.mem_cons_of_mem _ he))

/-- A failed test among the tests of the arguments ends `initialize` with the
record of that test only. -/
theorem initialize_stops_at_check (flags : BuildFlags) (env : Factories) (inputs : Inputs)
    (passed later : List Step) (reason : String) (b : Build)
    (hsteps : validationSteps inputs =
      passed ++ Step.check false Level.ERROR "initializeFailed" reason :: later)
    (hpassed : run env passed b = (Outcome.completed, b)) :
    initializeClient flags env inputs b =
      (Outcome.aborted, b.emit [Event.log Level.ERROR "initializeFailed" reason]) := by
  have hvalidation : run env (validationSteps inputs) b =
      (Outcome.aborted, b.emit [Event.log Level.ERROR "initializeFailed" reason]) := by
    rw [hsteps, run_append_completed env passed _ b b hpassed]
    rfl
  simp only [initializeClient, initializeSteps, List.append_assoc]
  exact run_append_stopped env _ _ b _ Outcome.aborted hvalidation (by decide)

/-- The instance `create` hands back after `initialize` has failed on a
candidate none of whose members was set. -/
theorem create_of_failed_validation (flags : BuildFlags) (env : Factories) (inputs : Inputs)
    (reason : String) (hdevice : Input.deviceInfo ∈ inputs.provided)
    (h : initializeClient flags env inputs (fresh inputs) =
      (Outcome.aborted, (fresh inputs).emit [Event.log Level.ERROR "initializeFailed" reason])) :
    create flags env inputs =
      Created.null ((fresh inputs).emit [Event.log Level.ERROR "initializeFailed" reason]) := by
  simp only [create, hdevice, if_true, h]
  rw [teardown_of_none_present flags env _ (by simp [fresh])]

/-- C12: the parameters `initialize` tests first are, in order, audioFactory,
speakMediaPlayer, audioMediaPlayerFactory, alertsMediaPlayer,
notificationsMediaPlayer, bluetoothMediaPlayer, ringtoneMediaPlayer,
systemSoundMediaPlayer, authDelegate, capabilitiesDelegate,
deviceSettingStorage, contextManager, transportFactory, avsGatewayManager,
channelVolumeFactory and visualStateProvider.  When deviceInfo is absent
`create` returns null with reason "nullDeviceInfo".  Otherwise, when one of
these parameters is absent and all those before it in the order are present,
or when all are present and APLMaxVersion is empty, `initialize` fails and
`create` returns null, and the only thing that has happened is the log record
with the reason of that parameter (or "emptyAPLVersion"): no member has been
set, nothing has been constructed and no call has been made. -/
theorem create_reports_first_missing_input (flags : BuildFlags) (env : Factories)
    (inputs : Inputs) :
    requiredInputs.map Prod.fst =
      [Input.audioFactory, Input.speakMediaPlayer, Input.audioMediaPlayerFactory,
       Input.alertsMediaPlayer, Input.notificationsMediaPlayer, Input.bluetoothMediaPlayer,
       Input.ringtoneMediaPlayer, Input.systemSoundMediaPlayer, Input.authDelegate,
       Input.capabilitiesDelegate, Input.deviceSettingStorage, Input.contextManager,
       Input.transportFactory, Input.avsGatewayManager, Input.channelVolumeFactory,
       Input.visualStateProvider] ∧
    (Input.deviceInfo ∉ inputs.provided →
      create flags env inputs = Created.null
        { provided := inputs.provided, present := [],
          events := [Event.log Level.ERROR "initializeFailed" "nullDeviceInfo"] }) ∧
    (∀ before name reason after, requiredInputs = before ++ (name, reason) :: after →
      Input.deviceInfo ∈ inputs.provided → (∀ entry ∈ before, entry.1 ∈ inputs.provided) →
      name ∉ inputs.provided →
      initializeClient flags env inputs (fresh inputs) =
        (Outcome.aborted,
          { provided := inputs.provided, present := [],
            events := [Event.log Level.ERROR "initializeFailed" reason] }) ∧
      create flags env inputs = Created.null
        { provided := inputs.provided, present := [],
          events := [Event.log Level.ERROR "initializeFailed" reason] }) ∧
    (Input.deviceInfo ∈ inputs.provided →
      (∀ entry ∈ requiredInputs, entry.1 ∈ inputs.provided) → inputs.APLMaxVersion = "" →
      initializeClient flags env inputs (fresh inputs) =
        (Outcome.aborted,
          { provided := inputs.provided, present := [],
            events := [Event.log Level.ERROR "initializeFailed" "emptyAPLVersion"] }) ∧
      create flags env inputs = Created.null
        { provided := inputs.provided, present := [],
          events := [Event.log Level.ERROR "initializeFailed" "emptyAPLVersion"] }) := by
  refine ⟨rfl, ?_, ?_, ?_⟩
  · intro hdevice
    simp [create, hdevice, fresh, Build.emit]
  · intro before name reason after horder hdevice hbefore hmissing
    have hrun : initializeClient flags env inputs (fresh inputs) =
        (Outcome.aborted,
          (fresh inputs).emit [Event.log Level.ERROR "initializeFailed" reason]) := by
      apply initialize_stops_at_check flags env inputs (before.map (inputCheck inputs))
        (after.map (inputCheck inputs) ++
          [Step.check (decide (inputs.APLMaxVersion ≠ "")) Level.ERROR "initializeFailed"
            "emptyAPLVersion"])
      · simp [validationSteps, horder, inputCheck, hmissing]
      · exact run_inputChecks env inputs before _ hbefore
    exact ⟨hrun, create_of_failed_validation flags env inputs reason hdevice hrun⟩
  · intro hdevice hall hempty
    have hrun : initializeClient flags env inputs (fresh inputs) =
        (Outcome.aborted,
          (fresh inputs).emit [Event.log Level.ERROR "initializeFailed" "emptyAPLVersion"]) := by
      apply initialize_stops_at_check flags env inputs (requiredInputs.map (inputCheck inputs)) []
      · simp [validationSteps, hempty]
      · exact run_inputChecks env inputs requiredInputs _ hall
    exact ⟨hrun, create_of_failed_validation flags env inputs _ hdevice hrun⟩

/-! ## Arguments that are tested late or not at all -/

/-- C13: with every argument given except `internetConnectionMonitor`, the
tests of the arguments at the head of `initialize` all pass; `initialize` then
constructs the dialog state aggregator, registers the dialog state observer on
it, constructs the attachment manager and the message router, and only then
logs "internetConnectionMonitor was nullptr" and fails.  `create` returns null
after the destructor of the candidate has shut the message router down. -/
theorem create_without_internet_monitor_constructs_first :
    run sampleFactories (validationSteps sampleNoInternetMonitor) (fresh sampleNoInternetMonitor) =
      (Outcome.completed, fresh sampleNoInternetMonitor) ∧
    create plainFlags sampleFactories sampleNoInternetMonitor =
      Created.null
        { provided := sampleNoInternetMonitor.provided,
          present := [Part.m_messageRouter, Part.attachmentManager,
            Part.m_dialogUXStateAggregator, Part.m_avsGatewayManager],
          events :=
            [Event.construct Part.m_dialogUXStateAggregator,
             Event.call (Ref.part Part.m_dialogUXStateAggregator) Op.addObserver
               [Ref.element { id := 100 }],
             Event.construct Part.attachmentManager,
             Event.construct Part.m_messageRouter,
             Event.log Level.CRITICAL "initializeFailed" "internetConnectionMonitor was nullptr",
             Event.call (Ref.part Part.m_messageRouter) Op.shutdown []] } := by
  constructor <;> decide

/-- C14: with every argument given except `localeAssetsManager`, the tests of
the arguments at the head of `initialize` all pass and no failure is logged;
`initialize` constructs the transport components, opens the device-setting
storage, constructs the do-not-disturb agent and the settings builder, and then
calls `getDefaultSupportedWakeWords` through the null `localeAssetsManager`. -/
theorem initialize_uses_absent_locale_manager :
    Input.localeAssetsManager ∉ sampleNoLocaleAssets.provided ∧
    run sampleFactories (validationSteps sampleNoLocaleAssets) (fresh sampleNoLocaleAssets) =
      (Outcome.completed, fresh sampleNoLocaleAssets) ∧
    (initializeClient plainFlags sampleFactories sampleNoLocaleAssets
      (fresh sampleNoLocaleAssets)).1 = Outcome.fault ∧
    (initializeClient plainFlags sampleFactories sampleNoLocaleAssets
      (fresh sampleNoLocaleAssets)).2.events =
        [Event.construct Part.m_dialogUXStateAggregator,
         Event.call (Ref.part Part.m_dialogUXStateAggregator) Op.addObserver
           [Ref.element { id := 100 }],
         Event.construct Part.attachmentManager,
         Event.construct Part.m_messageRouter,
         Event.construct Part.m_connectionManager,
         Event.construct Part.m_certifiedSender,
         Event.construct Part.m_exceptionSender,
         Event.construct Part.m_directiveSequencer,
         Event.construct Part.messageInterpreter,
         Event.call (Ref.part Part.m_connectionManager) Op.addMessageObserver
           [Ref.part Part.messageInterpreter],
         Event.construct Part.m_registrationManager,
         Event.construct Part.m_endpointManager,
         Event.call (Ref.part Part.m_deviceSettingStorage) Op.open_ [],
         Event.construct Part.m_dndCapabilityAgent,
         Event.call (Ref.part Part.m_connectionManager) Op.addConnectionStatusObserver
           [Ref.part Part.m_dndCapabilityAgent],
         Event.construct Part.settingsManagerBuilder,
         Event.call (Ref.part Part.settingsManagerBuilder) Op.withDoNotDisturbSetting
           [Ref.part Part.m_dndCapabilityAgent],
         Event.call (Ref.part Part.settingsManagerBuilder) Op.withAlarmVolumeRampSetting [],
         Event.call (Ref.part Part.settingsManagerBuilder) Op.withWakeWordConfirmationSetting [],
         Event.call (Ref.part Part.settingsManagerBuilder) Op.withSpeechConfirmationSetting [],
         Event.call (Ref.part Part.settingsManagerBuilder) Op.withTimeZoneSetting
           [Ref.input Input.systemTimezone]] ∧
    create plainFlags sampleFactories sampleNoLocaleAssets =
      Created.undefined (initializeClient plainFlags sampleFactories sampleNoLocaleAssets
        (fresh sampleNoLocaleAssets)).2 := by
  refine ⟨?_, ?_, ?_, ?_, ?_⟩ <;> decide

/-! ## Failing construction steps -/

/-- Membership after an assignment. -/
theorem Build.mem_assign (b : Build) (part q : Part) (value : Bool) :
    q ∈ (b.assign part value).present ↔ (q = part ∧ value = true) ∨ (q ≠ part ∧ q ∈ b.present) := by
  cases value <;> by_cases hq : q = part <;> simp [Build.assign, hq]

/-- Candidates that agree except on `p` agree on every object other than `p`. -/
theorem Build.has_of_agreesExcept (p : Part) (b other : Build) (object : Ref)
    (h : b.agreesExcept p other) (hobject : object ≠ Ref.part p) :
    other.has object = b.has object := by
  obtain ⟨hprovided, -, hpresent⟩ := h
  cases object with
  | input name => simp [Build.has, hprovided]
  | part q =>
    have hq : q ≠ p := fun hq => hobject (by rw [hq])
    simp [Build.has, hpresent q hq]
  | element _ => rfl
  | this => rfl

/-- Recording events keeps candidates in agreement. -/
theorem Build.agreesExcept_emit (p : Part) (b other : Build) (events more : List Event)
    (h : b.agreesExcept p other) : (b.emit events).agreesExcept p (other.emit more) := h

/-- The same assignment to a member other than `p`, or an assignment to `p`
that leaves it null in the second candidate, keeps candidates in agreement. -/
theorem Build.agreesExcept_assign (p part : Part) (b other : Build) (value given : Bool)
    (h : b.agreesExcept p other)
    (hvalue : (part = p ∧ given = false) ∨ (part ≠ p ∧ given = value)) :
    (b.assign part value).agreesExcept p (other.assign part given) := by
  obtain ⟨hprovided, habsent, hpresent⟩ := h
  refine ⟨hprovided, ?_, ?_⟩
  · rw [Build.mem_assign]
    rintro (⟨hp, hgiven⟩ | ⟨-, hp⟩)
    · rcases hvalue with ⟨-, hfalse⟩ | ⟨hne, -⟩
      · rw [hfalse] at hgiven; cases hgiven
      · exact hne hp.symm
    · exact habsent hp
  · intro q hq
    rw [Build.mem_assign, Build.mem_assign]
    rcases hvalue with ⟨hpart, hfalse⟩ | ⟨-, hsame⟩
    · subst hpart
      simp [hq, hfalse, hpresent q hq]
    · rw [hsame, hpresent q hq]

/-- A statement that does not depend on `p` and runs through with given
factories also runs through when the factory of `p` yields nothing and `p` is
null, and the candidates stay in agreement. -/
theorem Step.exec_failing (env : Factories) (p : Part) (step : Step) (b other next : Build)
    (hstep : step.insensitiveTo p = true) (hagree : b.agreesExcept p other)
    (h : step.exec env b = (Outcome.completed, next)) :
    ∃ after, step.exec (env.failing p) other = (Outcome.completed, after) ∧
      next.agreesExcept p after := by
  cases step with
  | check holds level event reason =>
    cases holds
    · simp [Step.exec] at h
    · simp only [Step.exec, if_true, Prod.mk.injEq, true_and] at h
      subst h
      exact ⟨other, rfl, hagree⟩
  | make part =>
    simp only [Step.exec, Prod.mk.injEq, true_and] at h
    subst h
    simp only [Step.insensitiveTo, decide_eq_true_eq] at hstep
    exact ⟨_, rfl, Build.agreesExcept_emit p _ _ _ _
      (Build.agreesExcept_assign p part b other true true hagree (Or.inr ⟨hstep, rfl⟩))⟩
  | create part =>
    simp only [Step.exec, Prod.mk.injEq, true_and] at h
    subst h
    refine ⟨_, rfl, Build.agreesExcept_emit p _ _ _ _
      (Build.agreesExcept_assign p part b other _ _ hagree ?_)⟩
    by_cases hpart : part = p
    · exact Or.inl ⟨hpart, by simp [Factories.failing, hpart]⟩
    · exact Or.inr ⟨hpart, by simp [Factories.failing, hpart]⟩
  | obtain part =>
    simp only [Step.exec, Prod.mk.injEq, true_and] at h
    subst h
    refine ⟨_, rfl, Build.agreesExcept_assign p part b other _ _ hagree ?_⟩
    by_cases hpart : part = p
    · exact Or.inl ⟨hpart, by simp [Factories.failing, hpart]⟩
    · exact Or.inr ⟨hpart, by simp [Factories.failing, hpart]⟩
  | store part source =>
    simp only [Step.exec, Prod.mk.injEq, true_and] at h
    subst h
    simp only [Step.insensitiveTo, Bool.and_eq_true, decide_eq_true_eq] at hstep
    exact ⟨_, rfl, Build.agreesExcept_assign p part b other _ _ hagree
      (Or.inr ⟨hstep.1, Build.has_of_agreesExcept p b other source hagree hstep.2⟩)⟩
  | require part level event reason =>
    simp only [Step.insensitiveTo, decide_eq_true_eq] at hstep
    by_cases hpart : part ∈ b.present
    · simp only [Step.exec, hpart, if_true, Prod.mk.injEq, true_and] at h
      subst h
      exact ⟨other, by simp [Step.exec, (hagree.2.2 part hstep).2 hpart], hagree⟩
    · simp [Step.exec, hpart] at h
  | report part level event reason =>
    have hnext : next.agreesExcept p other := by
      by_cases hpart : part ∈ b.present
      · simp only [Step.exec, hpart, if_true, Prod.mk.injEq, true_and] at h
        subst h
        exact hagree
      · simp only [Step.exec, hpart, if_false, Prod.mk.injEq, true_and] at h
        subst h
        exact hagree
    by_cases hother : part ∈ other.present
    · exact ⟨other, by simp [Step.exec, hother], hnext⟩
    · exact ⟨other.emit [Event.log level event reason], by simp [Step.exec, hother], hnext⟩
  | call receiver op args =>
    simp only [Step.insensitiveTo, decide_eq_true_eq] at hstep
    have hhas := Build.has_of_agreesExcept p b other receiver hagree hstep
    cases hreceiver : b.has receiver
    · simp [Step.exec, hreceiver] at h
    · simp only [Step.exec, hreceiver, if_true, Prod.mk.injEq, true_and] at h
      subst h
      exact ⟨other.emit [Event.call receiver op args], by simp [Step.exec, hhas, hreceiver],
        hagree⟩
  | callIf guards receiver op args =>
    have hnext : next.agreesExcept p other := by
      simp only [Step.exec] at h
      split at h
      · split at h
        · simp only [Prod.mk.injEq, true_and] at h
          subst h
          exact hagree
        · cases h
      · simp only [Prod.mk.injEq, true_and] at h
        subst h
        exact hagree
    by_cases hguards : guards.all (fun g => decide (g ∈ other.present)) = true
    · have hnotguard : p ∉ guards := by
        intro hp
        have := List.all_eq_true.1 hguards p hp
        exact hagree.2.1 (by simpa using this)
      have hreceiver : receiver ≠ Ref.part p := by
        simp only [Step.insensitiveTo, Bool.or_eq_true, decide_eq_true_eq] at hstep
        rcases hstep with hstep | hstep
        · exact hstep
        · exact absurd hstep hnotguard
      have hboth : guards.all (fun g => decide (g ∈ b.present)) = true := by
        apply List.all_eq_true.2
        intro g hg
        have hin := List.all_eq_true.1 hguards g hg
        have hne : g ≠ p := fun hgp => hnotguard (hgp ▸ hg)
        simpa [hagree.2.2 g hne] using hin
      have hhas := Build.has_of_agreesExcept p b other receiver hagree hreceiver
      cases hb : b.has receiver
      · simp [Step.exec, hboth, hb] at h
      · exact ⟨other.emit [Event.call receiver op args],
          by simp only [Step.exec, hguards, if_true, hhas, hb], hnext⟩
    · exact ⟨other, by simp only [Step.exec, hguards]; rfl, hnext⟩
  | requireCall receiver op args level event reason =>
    simp only [Step.insensitiveTo, decide_eq_true_eq] at hstep
    have hhas := Build.has_of_agreesExcept p b other receiver hagree hstep
    cases hreceiver : b.has receiver
    · simp [Step.exec, hreceiver] at h
    · cases hsucceeds : env.succeeds receiver op args
      · simp [Step.exec, hreceiver, hsucceeds] at h
      · simp only [Step.exec, hreceiver, hsucceeds, if_true, Prod.mk.injEq, true_and] at h
        subst h
        exact ⟨other.emit [Event.call receiver op args],
          by simp [Step.exec, hhas, hreceiver, Factories.failing, hsucceeds], hagree⟩

/-- Statements that do not depend on `p` and run through with given factories
also run through when the factory of `p` yields nothing and `p` is null. -/
theorem run_failing (env : Factories) (p : Part) (steps : List Step) :
    ∀ b other next : Build, (∀ step ∈ steps, step.insensitiveTo p = true) →
      b.agreesExcept p other → run env steps b = (Outcome.completed, next) →
      ∃ after, run (env.failing p) steps other = (Outcome.completed, after) ∧
        next.agreesExcept p after := by
  induction steps with
  | nil =>
    intro b other next _ hagree h
    simp only [run, Prod.mk.injEq, true_and] at h
    subst h
    exact ⟨other, rfl, hagree⟩
  | cons step rest ih =>
    intro b other next hsteps hagree h
    simp only [run] at h
    rcases hexec : step.exec env b with ⟨outcome, middle⟩
    rw [hexec] at h
    cases outcome
    · obtain ⟨reached, hreached, hmiddle⟩ := Step.exec_failing env p step b other middle
        (hsteps step (List.mem_cons_self _ _)) hagree hexec
      obtain ⟨after, hafter, hnext⟩ := ih middle reached next
        (fun s hs => hsteps s (List.mem_cons_of_mem _ hs)) hmiddle h
      exact ⟨after, by simp only [run, hreached]; exact hafter, hnext⟩
    · cases h
    · cases h

/-- A property of every statement of a conditionally compiled block. -/
theorem all_ite (c : Prop) [Decidable c] (steps : List Step) (f : Step → Bool) :
    (if c then steps else []).all f = (!decide c || steps.all f) := by
  by_cases h : c <;> simp [h]

/-- No statement of `initialize` depends on the phone call controller, the
meeting client controller or the caption manager being non-null. -/
theorem initializeSteps_insensitive (flags : BuildFlags) (env : Factories) (inputs : Inputs)
    (p : Part) (hp : p ∈ toleratedMembers) :
    ∀ step ∈ initializeSteps flags env inputs, step.insensitiveTo p = true := by
  have hall : (initializeSteps flags env inputs).all (Step.insensitiveTo p) = true := by
    simp only [toleratedMembers, List.mem_cons, List.mem_singleton, List.not_mem_nil,
      or_false] at hp
    rcases hp with rfl | rfl | rfl <;>
      simp [initializeSteps, validationSteps, transportSteps, settingsSteps, focusSteps,
        speechSteps, speakerSteps, playerSteps, telephonySteps, mediaSteps, visualSteps,
        equalizerSteps, systemSteps, bluetoothSteps, endpointSteps, finishingSteps,
        created, Step.failed, inputCheck, createChannelVolumeInterface, withCapability,
        withCapabilityConfiguration, withCapabilityIf, addDirectiveHandler, allAvsSpeakers,
        allAlertSpeakers, Step.insensitiveTo, all_ite, List.all_append, List.all_map,
        Function.comp] <;>
      refine ⟨?_, ?_, ?_⟩ <;> (intros; subst_vars; rfl)
  exact fun step hstep => List.all_eq_true.1 hall step hstep

/-- When `create` hands back an instance, `initialize` ran through on the
fresh candidate. -/
theorem initialize_of_create_client (flags : BuildFlags) (env : Factories) (inputs : Inputs)
    (built : Build) (h : create flags env inputs = Created.client built) :
    Input.deviceInfo ∈ inputs.provided ∧
      initializeClient flags env inputs (fresh inputs) = (Outcome.completed, built) := by
  unfold create at h
  split at h
  · rename_i hdevice
    refine ⟨hdevice, ?_⟩
    rcases hrun : initializeClient flags env inputs (fresh inputs) with ⟨outcome, state⟩
    rw [hrun] at h
    cases outcome
    · simp only [Created.client.injEq] at h
      rw [h]
    · simp only at h
      split at h <;> cases h
    · cases h
  · cases h

/-! ## The theorems above on the sample client -/

/-- C12 on sample arguments: without `deviceInfo`; without `contextManager` and
`avsGatewayManager`, where the reason is that of `contextManager`, which comes
first; and with an empty `APLMaxVersion`. -/
theorem create_reports_first_missing_input_witness :
    create plainFlags sampleFactories (sampleInputs.without Input.deviceInfo) =
      Created.null
        { provided := (sampleInputs.without Input.deviceInfo).provided, present := [],
          events := [Event.log Level.ERROR "initializeFailed" "nullDeviceInfo"] } ∧
    create plainFlags sampleFactories sampleTwoMissing =
      Created.null
        { provided := sampleTwoMissing.provided, present := [],
          events := [Event.log Level.ERROR "initializeFailed" "nullContextManager"] } ∧
    create plainFlags sampleFactories { sampleInputs with APLMaxVersion := "" } =
      Created.null
        { provided := sampleInputs.provided, present := [],
          events := [Event.log Level.ERROR "initializeFailed" "emptyAPLVersion"] } :=
  ⟨(create_reports_first_missing_input plainFlags sampleFactories
      (sampleInputs.without Input.deviceInfo)).2.1 (by decide),
   ((create_reports_first_missing_input plainFlags sampleFactories sampleTwoMissing).2.2.1
      (requiredInputs.take 11) Input.contextManager "nullContextManager"
      (requiredInputs.drop 12) (by decide) (by decide) (by decide) (by decide)).2,
   ((create_reports_first_missing_input plainFlags sampleFactories
      { sampleInputs with APLMaxVersion := "" }).2.2.2 (by decide) (by decide) rfl).2⟩

/-- C18 on the client built from the sample arguments. -/
theorem teardown_detaches_mrm_first_witness :
    Part.m_mrmCapabilityAgent ∈ sampleBuilt.present ∧
    Part.m_callManager ∈ sampleBuilt.present ∧
    comesBefore detachMultiRoomMusic (shutdownOf Part.m_callManager)
      (teardownEvents allFlags sampleFactories sampleBuilt) :=
  ⟨by decide, by decide,
    teardown_detaches_mrm_first allFlags sampleFactories sampleBuilt (by decide) (by decide)⟩

/-- C20 on the client built from the sample arguments. -/
theorem teardown_closes_storage_last_witness :
    Part.m_deviceSettingStorage ∈ sampleBuilt.present ∧
    (Part.m_dndCapabilityAgent ∈ sampleBuilt.present →
      Part.m_connectionManager ∈ sampleBuilt.present) ∧
    (Part.m_equalizerCapabilityAgent ∈ sampleBuilt.present →
      Part.m_equalizerRuntimeSetup ∈ sampleBuilt.present ∧
        Part.m_equalizerController ∈ sampleBuilt.present) ∧
    (teardown allFlags sampleFactories sampleBuilt).1 = Outcome.completed ∧
    ∃ before after, teardownEvents allFlags sampleFactories sampleBuilt =
        before ++ closeOfStorage :: after ∧
      closeOfStorage ∉ before ∧ closeOfStorage ∉ after ∧
      (∀ e ∈ after, e.isShutdown = false) ∧
      (∀ e ∈ teardownEvents allFlags sampleFactories sampleBuilt,
        e.isShutdown = true → e ∈ before) ∧
      (Part.m_dndCapabilityAgent ∈ sampleBuilt.present →
        shutdownOf Part.m_dndCapabilityAgent ∈ before) :=
  ⟨by decide, by decide, by decide,
    teardown_closes_storage_last allFlags sampleFactories sampleBuilt (by decide) (by decide)
      (by decide)⟩

/-! ## Capability state changes -/

/-- Every request served on an initialized client returns, keeps the connection
manager and leaves the client initialized. -/
theorem perform_keeps (env : Collaborators) (r : Request) (m : Machine)
    (hinit : m.self.initialized = true) :
    ∃ after, (r.perform env).run m = some ((), after) ∧
      after.self.m_connectionManager = m.self.m_connectionManager ∧
      after.self.initialized = true := by
  obtain ⟨cm, em, gm, fm, aip, hcm, hem, hgm, hfm, haip⟩ := (initialized_iff m.self).1 hinit
  cases r with
  | connect performReset =>
    cases performReset
    · exact ⟨_, connect_false_run env m cm hcm, rfl, hinit⟩
    · cases hb : m.self.m_defaultEndpointBuilder with
      | none => exact ⟨_, connect_true_consumed_run env m cm em gm hcm hem hgm hb, rfl, hinit⟩
      | some builder =>
        cases he : env.buildDefaultEndpoint with
        | none => exact ⟨_, connect_true_unbuilt_run env m builder hb he, rfl, hinit⟩
        | some endpoint =>
          by_cases hpoll : (env.registerEndpoint endpoint).status = future_status.ready ∧
              (env.registerEndpoint endpoint).value ≠ RegistrationResult.SUCCEEDED
          · exact ⟨_, connect_true_failed_run env m em builder endpoint hem hb he hpoll.1 hpoll.2,
              rfl, hinit⟩
          · exact ⟨_, connect_true_submitted_run env m cm em gm builder endpoint hcm hem hgm hb he
              hpoll, rfl, by simp [SmartScreenClient.initialized, hcm, hem, hgm, hfm, haip]⟩
  | disconnect =>
    refine ⟨m.issue [{ receiver := cm, method := Method.disable }], ?_, rfl, hinit⟩
    simp [Request.perform, disconnect, invoke, hcm, Machine.issue, StateT.run]
  | getDefaultEndpointBuilder =>
    refine ⟨m, ?_, rfl, hinit⟩
    simp [Request.perform, getDefaultEndpointBuilder, member, StateT.run, bind, StateT.bind, pure,
      StateT.pure, Option.bind]
  | stopForegroundActivity =>
    refine ⟨m.issue [{ receiver := fm, method := Method.stopForegroundActivity }], ?_, rfl, hinit⟩
    simp [Request.perform, stopForegroundActivity, invoke, hfm, Machine.issue, StateT.run]
  | notifyOfWakeWord p b e k ts md =>
    exact ⟨_, Exec.run_discard _ m _ _
      (notifyOfWakeWord_run env m cm fm aip hcm hfm haip p b e k ts md), rfl, hinit⟩
  | notifyOfTapToTalk p b ts =>
    exact ⟨_, Exec.run_discard _ m _ _ (notifyOfTapToTalk_run env m aip haip p b ts), rfl, hinit⟩
  | notifyOfHoldToTalkStart p ts =>
    exact ⟨_, Exec.run_discard _ m _ _ (notifyOfHoldToTalkStart_run env m aip haip p ts), rfl,
      hinit⟩
  | notifyOfHoldToTalkEnd =>
    exact ⟨_, Exec.run_discard _ m _ _ (notifyOfHoldToTalkEnd_run env m aip haip), rfl, hinit⟩
  | notifyOfTapToTalkEnd =>
    exact ⟨_, Exec.run_discard _ m _ _ (notifyOfTapToTalkEnd_run env m aip haip), rfl, hinit⟩

/-- Every sequence of requests served on an initialized client returns, keeps
the connection manager and leaves the client initialized. -/
theorem performAll_keeps (requests : List (Collaborators × Request)) :
    ∀ m : Machine, m.self.initialized = true →
      ∃ after, (performAll requests).run m = some ((), after) ∧
        after.self.m_connectionManager = m.self.m_connectionManager ∧
        after.self.initialized = true := by
  induction requests with
  | nil =>
    intro m hinit
    exact ⟨m, by simp [performAll, StateT.run, pure, StateT.pure], rfl, hinit⟩
  | cons head rest ih =>
    intro m hinit
    obtain ⟨env, r⟩ := head
    obtain ⟨middle, hfirst, hsame, hmiddle⟩ := perform_keeps env r m hinit
    obtain ⟨after, hrest, hkept, hafter⟩ := ih middle hmiddle
    refine ⟨after, ?_, hkept.trans hsame, hafter⟩
    simp only [StateT.run] at hfirst hrest
    simp [performAll, StateT.run, bind, StateT.bind, hfirst, hrest, Option.bind]

/-- The call of `onCapabilitiesStateChange`, in closed form. -/
theorem onCapabilitiesStateChange_run (m : Machine) (cm : Component)
    (hcm : m.self.m_connectionManager = some cm)
    (newState : CapabilitiesObserverInterface.State)
    (newError : CapabilitiesObserverInterface.Error)
    (added deleted : List EndpointIdentifier) :
    (onCapabilitiesStateChange newState newError added deleted).run m =
      some ((), if newState = CapabilitiesObserverInterface.State.SUCCESS then
        m.issue [{ receiver := cm, method := Method.enable }] else m) := by
  cases newState <;>
    simp [onCapabilitiesStateChange, invoke, hcm, Machine.issue, StateT.run, pure, StateT.pure]

/-- C29: on an initialized client, after any sequence of requests (`connect`,
`disconnect` and the others), `onCapabilitiesStateChange` with state SUCCESS
issues exactly one call, `enable` on the connection manager, and with any other
state it issues no call; in both cases it leaves the client unchanged, whatever
the error argument and the two endpoint lists. -/
theorem onCapabilitiesStateChange_enables_on_success (c : SmartScreenClient)
    (history : List (Collaborators × Request)) (connectionManager : Component)
    (newError : CapabilitiesObserverInterface.Error)
    (addedOrUpdatedEndpoints deletedEndpoints : List EndpointIdentifier)
    (hinit : c.initialized = true) (hmanager : c.m_connectionManager = some connectionManager) :
    ∃ before, (performAll history).run (start c) = some ((), before) ∧
      (onCapabilitiesStateChange CapabilitiesObserverInterface.State.SUCCESS newError
          addedOrUpdatedEndpoints deletedEndpoints).run before =
        some ((), Machine.mk before.self
          (before.calls ++ [{ receiver := connectionManager, method := Method.enable }])) ∧
      ∀ newState, newState ≠ CapabilitiesObserverInterface.State.SUCCESS →
        (onCapabilitiesStateChange newState newError addedOrUpdatedEndpoints
          deletedEndpoints).run before = some ((), before) := by
  obtain ⟨before, hrun, hkept, -⟩ := performAll_keeps history (start c) hinit
  have hcm : before.self.m_connectionManager = some connectionManager := hkept.trans hmanager
  refine ⟨before, hrun, ?_, ?_⟩
  · rw [onCapabilitiesStateChange_run before connectionManager hcm]
    rfl
  · intro newState hother
    rw [onCapabilitiesStateChange_run before connectionManager hcm]
    simp [hother]

/-- C29 on the sample client, after `connect(true)` and `disconnect`. -/
theorem onCapabilitiesStateChange_enables_on_success_witness :
    sampleClient.initialized = true ∧ sampleClient.m_connectionManager = some { id := 1 } ∧
    ∃ before, (performAll [(sampleOnline, Request.connect true),
        (sampleOnline, Request.disconnect)]).run (start sampleClient) = some ((), before) ∧
      (onCapabilitiesStateChange CapabilitiesObserverInterface.State.SUCCESS { value := 3 }
          ["endpoint"] []).run before =
        some ((), Machine.mk before.self
          (before.calls ++ [{ receiver := { id := 1 }, method := Method.enable }])) ∧
      ∀ newState, newState ≠ CapabilitiesObserverInterface.State.SUCCESS →
        (onCapabilitiesStateChange newState { value := 3 } ["endpoint"] []).run before =
          some ((), before) :=
  ⟨rfl, rfl,
    onCapabilitiesStateChange_enables_on_success sampleClient _ { id := 1 } { value := 3 }
      ["endpoint"] [] rfl rfl⟩

/-! ## Triggers and the connection state -/

/-- C24, as stated, fails: on the sample client while not connected,
`notifyOfTapToTalk` and `notifyOfHoldToTalkStart` call `recognize` on the audio
input processor and make no `isConnected` call. -/
theorem tap_and_hold_do_not_consult_connection :
    sampleOffline.isConnected = false ∧
    (notifyOfTapToTalk sampleOffline sampleProvider 1 3).run (start sampleClient) =
      some (sampleOffline.recognize
          { audioProvider := sampleProvider, initiator := Initiator.TAP,
            startOfSpeechTimestamp := 3, begin := some 1, keywordEndIndex := none,
            keyword := none, KWDMetadata := none },
        Machine.mk sampleClient [Call.mk { id := 5 } (Method.recognize
          { audioProvider := sampleProvider, initiator := Initiator.TAP,
            startOfSpeechTimestamp := 3, begin := some 1, keywordEndIndex := none,
            keyword := none, KWDMetadata := none })]) ∧
    (notifyOfHoldToTalkStart sampleOffline sampleProvider 3).run (start sampleClient) =
      some (sampleOffline.recognize
          { audioProvider := sampleProvider, initiator := Initiator.PRESS_AND_HOLD,
            startOfSpeechTimestamp := 3, begin := none, keywordEndIndex := none,
            keyword := none, KWDMetadata := none },
        Machine.mk sampleClient [Call.mk { id := 5 } (Method.recognize
          { audioProvider := sampleProvider, initiator := Initiator.PRESS_AND_HOLD,
            startOfSpeechTimestamp := 3, begin := none, keywordEndIndex := none,
            keyword := none, KWDMetadata := none })]) :=
  ⟨rfl, rfl, rfl⟩

/-- C24, amended: on an initialized client, the first call `notifyOfWakeWord`
issues is `isConnected` on the connection manager, so it consults the
connection state before any `recognize` call; `notifyOfTapToTalk` and
`notifyOfHoldToTalkStart` issue exactly one call, `recognize`, without any
`isConnected` call, whatever the connection state. -/
theorem wake_word_consults_connection (env : Collaborators) (c : SmartScreenClient)
    (provider : AudioProvider) (beginIndex endIndex : Index) (keyword : String)
    (startOfSpeechTimestamp : time_point) (metadata : KWDMetadata)
    (hinit : c.initialized = true) :
    ∃ connectionManager wake tap hold,
      c.m_connectionManager = some connectionManager ∧
      (∃ result, (notifyOfWakeWord env provider beginIndex endIndex keyword
        startOfSpeechTimestamp metadata).run (start c) = some (result, wake)) ∧
      wake.calls.head? = some { receiver := connectionManager, method := Method.isConnected } ∧
      (∃ result, (notifyOfTapToTalk env provider beginIndex startOfSpeechTimestamp).run
        (start c) = some (result, tap)) ∧
      tap.calls.length = 1 ∧ (tap.calls.filter Call.isRecognize).length = 1 ∧
      callsOf Method.isConnected tap.calls = [] ∧
      (∃ result, (notifyOfHoldToTalkStart env provider startOfSpeechTimestamp).run
        (start c) = some (result, hold)) ∧
      hold.calls.length = 1 ∧ (hold.calls.filter Call.isRecognize).length = 1 ∧
      callsOf Method.isConnected hold.calls = [] := by
  obtain ⟨cm, em, gm, fm, aip, hcm, -, -, hfm, haip⟩ := (initialized_iff c).1 hinit
  refine ⟨cm, _, _, _, hcm,
    ⟨_, notifyOfWakeWord_run env (start c) cm fm aip hcm hfm haip provider beginIndex endIndex
      keyword startOfSpeechTimestamp metadata⟩, ?_,
    ⟨_, notifyOfTapToTalk_run env (start c) aip haip provider beginIndex
      startOfSpeechTimestamp⟩, ?_, ?_, ?_,
    ⟨_, notifyOfHoldToTalkStart_run env (start c) aip haip provider startOfSpeechTimestamp⟩,
    ?_, ?_, ?_⟩
  · cases env.debug5 <;> simp [Machine.issue, start]
  all_goals simp [Machine.issue, start, callsOf, Call.isRecognize]

/-- C24, amended, on the sample client while not connected. -/
theorem wake_word_consults_connection_witness :
    sampleClient.initialized = true ∧
    ∃ connectionManager wake tap hold,
      sampleClient.m_connectionManager = some connectionManager ∧
      (∃ result, (notifyOfWakeWord sampleOffline sampleProvider 1 2 "ALEXA" 3
        (some ['k'])).run (start sampleClient) = some (result, wake)) ∧
      wake.calls.head? = some { receiver := connectionManager, method := Method.isConnected } ∧
      (∃ result, (notifyOfTapToTalk sampleOffline sampleProvider 1 3).run
        (start sampleClient) = some (result, tap)) ∧
      tap.calls.length = 1 ∧ (tap.calls.filter Call.isRecognize).length = 1 ∧
      callsOf Method.isConnected tap.calls = [] ∧
      (∃ result, (notifyOfHoldToTalkStart sampleOffline sampleProvider 3).run
        (start sampleClient) = some (result, hold)) ∧
      hold.calls.length = 1 ∧ (hold.calls.filter Call.isRecognize).length = 1 ∧
      callsOf Method.isConnected hold.calls = [] :=
  ⟨rfl, wake_word_consults_connection sampleOffline sampleClient sampleProvider 1 2 "ALEXA" 3
    (some ['k']) rfl⟩

/-! ## Concurrent calls of connect -/

/-- A single thread with a builder that yields an endpoint runs `connect(true)`. -/
theorem interleave_alone_built (env : Collaborators) (self : SmartScreenClient)
    (calls : List Call) (builder : Component) (endpoint : Endpoint)
    (hb : self.m_defaultEndpointBuilder = some builder)
    (he : env.buildDefaultEndpoint = some endpoint) :
    (interleave env true [0, 0, 0, 0, 0, 0, 0] [ConnectPoint.entry]).run (Machine.mk self calls) =
      ((connect env true).run (Machine.mk self calls)).map
        (fun result => ([ConnectPoint.returned], result.2)) := by
  rcases self with ⟨cm, em, gm, fm, aip, held⟩
  simp only at hb
  subst hb
  cases em with
  | none =>
    simp [interleave, connectStep, connect, invoke, member, he, StateT.run, bind,
      StateT.bind, pure, StateT.pure, Option.bind, Option.map]
  | some e =>
    by_cases hs : (env.registerEndpoint endpoint).status = future_status.ready
    · by_cases hv : (env.registerEndpoint endpoint).value = RegistrationResult.SUCCEEDED
      · cases cm <;> cases gm <;>
          simp [interleave, connectStep, connect, invoke, member, he, hs, hv, StateT.run, bind,
            StateT.bind, pure, StateT.pure, Option.bind, Option.map, modify, modifyGet,
            MonadStateOf.modifyGet, StateT.modifyGet]
      · simp [interleave, connectStep, connect, invoke, member, he, hs, hv, StateT.run, bind,
          StateT.bind, pure, StateT.pure, Option.bind, Option.map]
    · cases cm <;> cases gm <;>
        simp [interleave, connectStep, connect, invoke, member, he, hs, StateT.run, bind,
          StateT.bind, pure, StateT.pure, Option.bind, Option.map, modify, modifyGet,
          MonadStateOf.modifyGet, StateT.modifyGet]

/-- A single thread that takes its seven steps runs `connect`: the same
calls, the same effect, and no result exactly when `connect` has none. -/
theorem interleave_alone (env : Collaborators) (performReset : Bool) (m : Machine) :
    (interleave env performReset [0, 0, 0, 0, 0, 0, 0] [ConnectPoint.entry]).run m =
      ((connect env performReset).run m).map
        (fun result => ([ConnectPoint.returned], result.2)) := by
  rcases m with ⟨self, calls⟩
  cases performReset
  · rcases self with ⟨cm, em, gm, fm, aip, builder⟩
    cases cm <;>
      simp [interleave, connectStep, connect, invoke, member, StateT.run, bind, StateT.bind, pure,
        StateT.pure, Option.bind, Option.map]
  · cases hb : self.m_defaultEndpointBuilder with
    | none =>
      rcases self with ⟨cm, em, gm, fm, aip, builder⟩
      simp only at hb
      subst hb
      cases cm <;> cases em <;> cases gm <;>
        simp [interleave, connectStep, connect, invoke, member, StateT.run, bind, StateT.bind,
          pure, StateT.pure, Option.bind, Option.map]
    | some b =>
      cases he : env.buildDefaultEndpoint with
      | none =>
        rcases self with ⟨cm, em, gm, fm, aip, builder⟩
        simp only at hb
        subst hb
        simp [interleave, connectStep, connect, invoke, member, he, StateT.run, bind,
          StateT.bind, pure, StateT.pure, Option.bind, Option.map]
      | some endpoint => exact interleave_alone_built env self calls b endpoint hb he

/-- A statement that does not assign a member leaves it null or non-null as it was. -/
theorem Step.exec_keeps (env : Factories) (parts : List Part) (step : Step) (b : Build)
    (p : Part) (hstep : step.spares parts = true) (hp : p ∈ parts) :
    p ∈ (step.exec env b).2.present ↔ p ∈ b.present := by
  have hother : ∀ part value, part ∉ parts →
      (p ∈ (b.assign part value).present ↔ p ∈ b.present) := by
    intro part value hpart
    have hne : p ≠ part := fun h => hpart (h ▸ hp)
    rw [Build.mem_assign]
    simp [hne]
  cases step with
  | check holds level event reason => cases holds <;> simp [Step.exec]
  | make part =>
    have hpart : part ∉ parts := by simpa [Step.spares, Step.target] using hstep
    simpa [Step.exec] using hother part true hpart
  | create part =>
    have hpart : part ∉ parts := by simpa [Step.spares, Step.target] using hstep
    simpa [Step.exec] using hother part _ hpart
  | obtain part =>
    have hpart : part ∉ parts := by simpa [Step.spares, Step.target] using hstep
    simpa [Step.exec] using hother part _ hpart
  | store part source =>
    have hpart : part ∉ parts := by simpa [Step.spares, Step.target] using hstep
    simpa [Step.exec] using hother part _ hpart
  | require part level event reason =>
    by_cases h : part ∈ b.present <;> simp [Step.exec, h]
  | report part level event reason =>
    by_cases h : part ∈ b.present <;> simp [Step.exec, h]
  | call receiver op args =>
    cases h : b.has receiver <;> simp [Step.exec, h]
  | callIf guards receiver op args =>
    cases hg : guards.all (fun g => decide (g ∈ b.present)) <;>
      cases h : b.has receiver <;> simp [Step.exec, hg, h]
  | requireCall receiver op args level event reason =>
    cases h : b.has receiver <;> cases hs : env.succeeds receiver op args <;>
      simp [Step.exec, h, hs]

/-- Statements that do not assign a member leave it null or non-null as it
was, however the run ends. -/
theorem run_keeps (env : Factories) (parts : List Part) (steps : List Step) :
    ∀ b : Build, (∀ step ∈ steps, step.spares parts = true) → ∀ p ∈ parts,
      (p ∈ (run env steps b).2.present ↔ p ∈ b.present) := by
  induction steps with
  | nil => intro b _ p _; rfl
  | cons step rest ih =>
    intro b hsteps p hp
    have hfirst := Step.exec_keeps env parts step b p (hsteps step (List.mem_cons_self _ _)) hp
    simp only [run]
    rcases hexec : step.exec env b with ⟨outcome, next⟩
    rw [hexec] at hfirst
    cases outcome
    · exact (ih next (fun s hs => hsteps s (List.mem_cons_of_mem _ hs)) p hp).trans hfirst
    · exact hfirst
    · exact hfirst

/-- A run of two lists that runs through runs through both. -/
theorem run_completed_append (env : Factories) (first second : List Step) (b final : Build)
    (h : run env (first ++ second) b = (Outcome.completed, final)) :
    ∃ middle, run env first b = (Outcome.completed, middle) ∧
      run env second middle = (Outcome.completed, final) := by
  rw [run_append] at h
  rcases hfirst : run env first b with ⟨outcome, middle⟩
  rw [hfirst] at h
  cases outcome
  · exact ⟨middle, rfl, h⟩
  · cases h
  · cases h

/-- After a run through statements that contain the test `if (!part) return
false` and do not assign `part` after it, `part` is non-null. -/
theorem run_require_kept (env : Factories) (before after : List Step) (part : Part)
    (level : Level) (event reason : String) (b final : Build)
    (hafter : ∀ step ∈ after, step.spares [part] = true)
    (h : run env (before ++ Step.require part level event reason :: after) b =
      (Outcome.completed, final)) :
    part ∈ final.present := by
  obtain ⟨middle, -, hrest⟩ := run_completed_append env before _ b final h
  simp only [run, Step.exec] at hrest
  by_cases hpart : part ∈ middle.present
  · simp only [hpart, if_true] at hrest
    have hkept := run_keeps env [part] after middle hafter part (by simp)
    rw [hrest] at hkept
    exact hkept.2 hpart
  · simp [hpart] at hrest

/-- Suppose `p` is null at the start and not assigned by the statements of
`first`, `q` is non-null whenever `first` has run through, and `q` is not
assigned by the statements of `second`.  Then however the run of both ends, `q`
is non-null if `p` is. -/
theorem run_guard (env : Factories) (p q : Part) (first second : List Step) (b : Build)
    (hp : p ∉ b.present) (hfirst : ∀ step ∈ first, step.spares [p] = true)
    (hsecond : ∀ step ∈ second, step.spares [q] = true)
    (hreach : ∀ middle, run env first b = (Outcome.completed, middle) → q ∈ middle.present) :
    p ∈ (run env (first ++ second) b).2.present → q ∈ (run env (first ++ second) b).2.present := by
  intro hin
  rw [run_append] at hin ⊢
  have hkept := run_keeps env [p] first b hfirst p (by simp)
  rcases hrun : run env first b with ⟨outcome, middle⟩
  simp only [hrun] at hin hkept ⊢
  cases outcome
  · exact (run_keeps env [q] second middle hsecond q (by simp)).2 (hreach middle hrun)
  · exact absurd (hkept.1 hin) hp
  · exact absurd (hkept.1 hin) hp

/-! ## What each stretch of `initialize` assigns -/

/-- A statement that assigns none of some members assigns none of fewer. -/
theorem Step.spares_of_subset (parts fewer : List Part) (step : Step)
    (hsubset : ∀ p ∈ fewer, p ∈ parts) (h : step.spares parts = true) :
    step.spares fewer = true := by
  unfold Step.spares at h ⊢
  cases ht : step.target with
  | none => rfl
  | some part =>
    rw [ht] at h
    simp only [decide_eq_true_eq] at h ⊢
    exact fun hin => h (hsubset part hin)

/-- Members that the tests of the arguments do not assign. -/
theorem validationSteps_spares (inputs : Inputs) :
    ∀ step ∈ validationSteps inputs, step.spares
      [Part.m_connectionManager, Part.m_dndCapabilityAgent, Part.m_equalizerCapabilityAgent,
       Part.m_equalizerRuntimeSetup, Part.m_equalizerController, Part.equalizerController,
       Part.m_softwareInfoSender] = true := by
  have hall : (validationSteps inputs).all (Step.spares
        [Part.m_connectionManager, Part.m_dndCapabilityAgent, Part.m_equalizerCapabilityAgent,
         Part.m_equalizerRuntimeSetup, Part.m_equalizerController, Part.equalizerController,
         Part.m_softwareInfoSender]) = true := by
    simp [validationSteps, created, Step.failed, inputCheck, createChannelVolumeInterface,
      withCapability, withCapabilityConfiguration, withCapabilityIf, addDirectiveHandler,
      allAvsSpeakers, allAlertSpeakers, Step.spares, Step.target, all_ite, List.all_append,
      List.all_map, Function.comp]
    intros; subst_vars; rfl
  exact fun step hstep => List.all_eq_true.1 hall step hstep

/-- Members that the transport statements do not assign. -/
theorem transportSteps_spares (inputs : Inputs) :
    ∀ step ∈ transportSteps inputs, step.spares
      [Part.m_dndCapabilityAgent, Part.m_equalizerCapabilityAgent, Part.m_equalizerRuntimeSetup,
       Part.m_equalizerController, Part.equalizerController, Part.m_softwareInfoSender] = true := by
  have hall : (transportSteps inputs).all (Step.spares
        [Part.m_dndCapabilityAgent, Part.m_equalizerCapabilityAgent, Part.m_equalizerRuntimeSetup,
         Part.m_equalizerController, Part.equalizerController, Part.m_softwareInfoSender]) = true := by
    simp [transportSteps, created, Step.failed, inputCheck, createChannelVolumeInterface,
      withCapability, withCapabilityConfiguration, withCapabilityIf, addDirectiveHandler,
      allAvsSpeakers, allAlertSpeakers, Step.spares, Step.target, all_ite, List.all_append,
      List.all_map, Function.comp]
  exact fun step hstep => List.all_eq_true.1 hall step hstep

/-- Members that the settings statements do not assign. -/
theorem settingsSteps_spares (env : Factories) :
    ∀ step ∈ settingsSteps env, step.spares
      [Part.m_connectionManager, Part.m_equalizerCapabilityAgent, Part.m_equalizerRuntimeSetup,
       Part.m_equalizerController, Part.equalizerController, Part.m_softwareInfoSender] = true := by
  have hall : (settingsSteps env).all (Step.spares
        [Part.m_connectionManager, Part.m_equalizerCapabilityAgent, Part.m_equalizerRuntimeSetup,
         Part.m_equalizerController, Part.equalizerController, Part.m_softwareInfoSender]) = true := by
    simp [settingsSteps, created, Step.failed, inputCheck, createChannelVolumeInterface,
      withCapability, withCapabilityConfiguration, withCapabilityIf, addDirectiveHandler,
      allAvsSpeakers, allAlertSpeakers, Step.spares, Step.target, all_ite, List.all_append,
      List.all_map, Function.comp]
  exact fun step hstep => List.all_eq_true.1 hall step hstep

/-- Members that the focus statements do not assign. -/
theorem focusSteps_spares (flags : BuildFlags) :
    ∀ step ∈ focusSteps flags, step.spares
      [Part.m_connectionManager, Part.m_dndCapabilityAgent, Part.m_equalizerCapabilityAgent,
       Part.m_equalizerRuntimeSetup, Part.m_equalizerController, Part.equalizerController,
       Part.m_softwareInfoSender] = true := by
  have hall : (focusSteps flags).all (Step.spares
        [Part.m_connectionManager, Part.m_dndCapabilityAgent, Part.m_equalizerCapabilityAgent,
         Part.m_equalizerRuntimeSetup, Part.m_equalizerController, Part.equalizerController,
         Part.m_softwareInfoSender]) = true := by
    simp [focusSteps, created, Step.failed, inputCheck, createChannelVolumeInterface,
      withCapability, withCapabilityConfiguration, withCapabilityIf, addDirectiveHandler,
      allAvsSpeakers, allAlertSpeakers, Step.spares, Step.target, all_ite, List.all_append,
      List.all_map, Function.comp]
  exact fun step hstep => List.all_eq_true.1 hall step hstep

/-- Members that the speech statements do not assign. -/
theorem speechSteps_spares (flags : BuildFlags) :
    ∀ step ∈ speechSteps flags, step.spares
      [Part.m_connectionManager, Part.m_dndCapabilityAgent, Part.m_equalizerCapabilityAgent,
       Part.m_equalizerRuntimeSetup, Part.m_equalizerController, Part.equalizerController,
       Part.m_softwareInfoSender] = true := by
  have hall : (speechSteps flags).all (Step.spares
        [Part.m_connectionManager, Part.m_dndCapabilityAgent, Part.m_equalizerCapabilityAgent,
         Part.m_equalizerRuntimeSetup, Part.m_equalizerController, Part.equalizerController,
         Part.m_softwareInfoSender]) = true := by
    simp [speechSteps, created, Step.failed, inputCheck, createChannelVolumeInterface,
      withCapability, withCapabilityConfiguration, withCapabilityIf, addDirectiveHandler,
      allAvsSpeakers, allAlertSpeakers, Step.spares, Step.target, all_ite, List.all_append,
      List.all_map, Function.comp]
  exact fun step hstep => List.all_eq_true.1 hall step hstep

/-- Members that the speaker statements do not assign. -/
theorem speakerSteps_spares (flags : BuildFlags) (inputs : Inputs) :
    ∀ step ∈ speakerSteps flags inputs, step.spares
      [Part.m_connectionManager, Part.m_dndCapabilityAgent, Part.m_equalizerCapabilityAgent,
       Part.m_equalizerRuntimeSetup, Part.m_equalizerController, Part.equalizerController,
       Part.m_softwareInfoSender] = true := by
  have hall : (speakerSteps flags inputs).all (Step.spares
        [Part.m_connectionManager, Part.m_dndCapabilityAgent, Part.m_equalizerCapabilityAgent,
         Part.m_equalizerRuntimeSetup, Part.m_equalizerController, Part.equalizerController,
         Part.m_softwareInfoSender]) = true := by
    simp [speakerSteps, created, Step.failed, inputCheck, createChannelVolumeInterface,
      withCapability, withCapabilityConfiguration, withCapabilityIf, addDirectiveHandler,
      allAvsSpeakers, allAlertSpeakers, Step.spares, Step.target, all_ite, List.all_append,
      List.all_map, Function.comp]
    refine ⟨?_, ?_⟩ <;> (intros; subst_vars; rfl)
  exact fun step hstep => List.all_eq_true.1 hall step hstep

/-- Members that the player statements do not assign. -/
theorem playerSteps_spares :
    ∀ step ∈ playerSteps, step.spares
      [Part.m_connectionManager, Part.m_dndCapabilityAgent, Part.m_equalizerCapabilityAgent,
       Part.m_equalizerRuntimeSetup, Part.m_equalizerController, Part.equalizerController,
       Part.m_softwareInfoSender] = true := by
  have hall : (playerSteps).all (Step.spares
        [Part.m_connectionManager, Part.m_dndCapabilityAgent, Part.m_equalizerCapabilityAgent,
         Part.m_equalizerRuntimeSetup, Part.m_equalizerController, Part.equalizerController,
         Part.m_softwareInfoSender]) = true := by
    simp [playerSteps, created, Step.failed, inputCheck, createChannelVolumeInterface,
      withCapability, withCapabilityConfiguration, withCapabilityIf, addDirectiveHandler,
      allAvsSpeakers, allAlertSpeakers, Step.spares, Step.target, all_ite, List.all_append,
      List.all_map, Function.comp]
  exact fun step hstep => List.all_eq_true.1 hall step hstep

/-- Members that the telephony statements do not assign. -/
theorem telephonySteps_spares (flags : BuildFlags) (inputs : Inputs) :
    ∀ step ∈ telephonySteps flags inputs, step.spares
      [Part.m_connectionManager, Part.m_dndCapabilityAgent, Part.m_equalizerCapabilityAgent,
       Part.m_equalizerRuntimeSetup, Part.m_equalizerController, Part.equalizerController,
       Part.m_softwareInfoSender] = true := by
  have hall : (telephonySteps flags inputs).all (Step.spares
        [Part.m_connectionManager, Part.m_dndCapabilityAgent, Part.m_equalizerCapabilityAgent,
         Part.m_equalizerRuntimeSetup, Part.m_equalizerController, Part.equalizerController,
         Part.m_softwareInfoSender]) = true := by
    simp [telephonySteps, created, Step.failed, inputCheck, createChannelVolumeInterface,
      withCapability, withCapabilityConfiguration, withCapabilityIf, addDirectiveHandler,
      allAvsSpeakers, allAlertSpeakers, Step.spares, Step.target, all_ite, List.all_append,
      List.all_map, Function.comp]
  exact fun step hstep => List.all_eq_true.1 hall step hstep

/-- Members that the media statements do not assign. -/
theorem mediaSteps_spares (flags : BuildFlags) (inputs : Inputs) :
    ∀ step ∈ mediaSteps flags inputs, step.spares
      [Part.m_connectionManager, Part.m_dndCapabilityAgent, Part.m_equalizerCapabilityAgent,
       Part.m_equalizerRuntimeSetup, Part.m_equalizerController, Part.equalizerController,
       Part.m_softwareInfoSender] = true := by
  have hall : (mediaSteps flags inputs).all (Step.spares
        [Part.m_connectionManager, Part.m_dndCapabilityAgent, Part.m_equalizerCapabilityAgent,
         Part.m_equalizerRuntimeSetup, Part.m_equalizerController, Part.equalizerController,
         Part.m_softwareInfoSender]) = true := by
    simp [mediaSteps, created, Step.failed, inputCheck, createChannelVolumeInterface,
      withCapability, withCapabilityConfiguration, withCapabilityIf, addDirectiveHandler,
      allAvsSpeakers, allAlertSpeakers, Step.spares, Step.target, all_ite, List.all_append,
      List.all_map, Function.comp]
  exact fun step hstep => List.all_eq_true.1 hall step hstep

/-- Members that the visual statements do not assign. -/
theorem visualSteps_spares (inputs : Inputs) :
    ∀ step ∈ visualSteps inputs, step.spares
      [Part.m_connectionManager, Part.m_dndCapabilityAgent, Part.m_equalizerCapabilityAgent,
       Part.m_equalizerRuntimeSetup, Part.m_equalizerController, Part.equalizerController,
       Part.m_softwareInfoSender] = true := by
  have hall : (visualSteps inputs).all (Step.spares
        [Part.m_connectionManager, Part.m_dndCapabilityAgent, Part.m_equalizerCapabilityAgent,
         Part.m_equalizerRuntimeSetup, Part.m_equalizerController, Part.equalizerController,
         Part.m_softwareInfoSender]) = true := by
    simp [visualSteps, created, Step.failed, inputCheck, createChannelVolumeInterface,
      withCapability, withCapabilityConfiguration, withCapabilityIf, addDirectiveHandler,
      allAvsSpeakers, allAlertSpeakers, Step.spares, Step.target, all_ite, List.all_append,
      List.all_map, Function.comp]
  exact fun step hstep => List.all_eq_true.1 hall step hstep

/-- Members that the equalizer statements do not assign. -/
theorem equalizerSteps_spares (env : Factories) (inputs : Inputs) :
    ∀ step ∈ equalizerSteps env inputs, step.spares
      [Part.m_connectionManager, Part.m_dndCapabilityAgent, Part.m_softwareInfoSender] = true := by
  have hall : (equalizerSteps env inputs).all (Step.spares
        [Part.m_connectionManager, Part.m_dndCapabilityAgent, Part.m_softwareInfoSender]) = true := by
    simp [equalizerSteps, created, Step.failed, inputCheck, createChannelVolumeInterface,
      withCapability, withCapabilityConfiguration, withCapabilityIf, addDirectiveHandler,
      allAvsSpeakers, allAlertSpeakers, Step.spares, Step.target, all_ite, List.all_append,
      List.all_map, Function.comp]
  exact fun step hstep => List.all_eq_true.1 hall step hstep

/-- Members that the system statements do not assign. -/
theorem systemSteps_spares (flags : BuildFlags) (inputs : Inputs) :
    ∀ step ∈ systemSteps flags inputs, step.spares
      [Part.m_connectionManager, Part.m_dndCapabilityAgent, Part.m_equalizerCapabilityAgent,
       Part.m_equalizerRuntimeSetup, Part.m_equalizerController, Part.equalizerController] = true := by
  have hall : (systemSteps flags inputs).all (Step.spares
        [Part.m_connectionManager, Part.m_dndCapabilityAgent, Part.m_equalizerCapabilityAgent,
         Part.m_equalizerRuntimeSetup, Part.m_equalizerController, Part.equalizerController]) = true := by
    simp [systemSteps, created, Step.failed, inputCheck, createChannelVolumeInterface,
      withCapability, withCapabilityConfiguration, withCapabilityIf, addDirectiveHandler,
      allAvsSpeakers, allAlertSpeakers, Step.spares, Step.target, all_ite, List.all_append,
      List.all_map, Function.comp]
  exact fun step hstep => List.all_eq_true.1 hall step hstep

/-- Members that the bluetooth statements do not assign. -/
theorem bluetoothSteps_spares (inputs : Inputs) :
    ∀ step ∈ bluetoothSteps inputs, step.spares
      [Part.m_connectionManager, Part.m_dndCapabilityAgent, Part.m_equalizerCapabilityAgent,
       Part.m_equalizerRuntimeSetup, Part.m_equalizerController, Part.equalizerController,
       Part.m_softwareInfoSender] = true := by
  have hall : (bluetoothSteps inputs).all (Step.spares
        [Part.m_connectionManager, Part.m_dndCapabilityAgent, Part.m_equalizerCapabilityAgent,
         Part.m_equalizerRuntimeSetup, Part.m_equalizerController, Part.equalizerController,
         Part.m_softwareInfoSender]) = true := by
    simp [bluetoothSteps, created, Step.failed, inputCheck, createChannelVolumeInterface,
      withCapability, withCapabilityConfiguration, withCapabilityIf, addDirectiveHandler,
      allAvsSpeakers, allAlertSpeakers, Step.spares, Step.target, all_ite, List.all_append,
      List.all_map, Function.comp]
  exact fun step hstep => List.all_eq_true.1 hall step hstep

/-- Members that the endpoint statements do not assign. -/
theorem endpointSteps_spares (flags : BuildFlags) :
    ∀ step ∈ endpointSteps flags, step.spares
      [Part.m_connectionManager, Part.m_dndCapabilityAgent, Part.m_equalizerCapabilityAgent,
       Part.m_equalizerRuntimeSetup, Part.m_equalizerController, Part.equalizerController,
       Part.m_softwareInfoSender] = true := by
  have hall : (endpointSteps flags).all (Step.spares
        [Part.m_connectionManager, Part.m_dndCapabilityAgent, Part.m_equalizerCapabilityAgent,
         Part.m_equalizerRuntimeSetup, Part.m_equalizerController, Part.equalizerController,
         Part.m_softwareInfoSender]) = true := by
    simp [endpointSteps, created, Step.failed, inputCheck, createChannelVolumeInterface,
      withCapability, withCapabilityConfiguration, withCapabilityIf, addDirectiveHandler,
      allAvsSpeakers, allAlertSpeakers, Step.spares, Step.target, all_ite, List.all_append,
      List.all_map, Function.comp]
  exact fun step hstep => List.all_eq_true.1 hall step hstep

/-- Members that the finishing statements do not assign. -/
theorem finishingSteps_spares (flags : BuildFlags) (inputs : Inputs) :
    ∀ step ∈ finishingSteps flags inputs, step.spares
      [Part.m_connectionManager, Part.m_dndCapabilityAgent, Part.m_equalizerCapabilityAgent,
       Part.m_equalizerRuntimeSetup, Part.m_equalizerController, Part.equalizerController,
       Part.m_softwareInfoSender] = true := by
  have hall : (finishingSteps flags inputs).all (Step.spares
        [Part.m_connectionManager, Part.m_dndCapabilityAgent, Part.m_equalizerCapabilityAgent,
         Part.m_equalizerRuntimeSetup, Part.m_equalizerController, Part.equalizerController,
         Part.m_softwareInfoSender]) = true := by
    simp [finishingSteps, created, Step.failed, inputCheck, createChannelVolumeInterface,
      withCapability, withCapabilityConfiguration, withCapabilityIf, addDirectiveHandler,
      allAvsSpeakers, allAlertSpeakers, Step.spares, Step.target, all_ite, List.all_append,
      List.all_map, Function.comp]
  exact fun step hstep => List.all_eq_true.1 hall step hstep

/-! ## The members the destructor relies on -/

/-- The statements of `initialize` as four stretches. -/
theorem initializeSteps_split (flags : BuildFlags) (env : Factories) (inputs : Inputs) :
    initializeSteps flags env inputs =
      beforeSettings inputs ++ (settingsToVisual flags env inputs ++
        (equalizerSteps env inputs ++ afterEqualizer flags inputs)) := by
  simp [initializeSteps, beforeSettings, settingsToVisual, afterEqualizer, List.append_assoc]

/-- Members the first stretch of `initialize` does not assign. -/
theorem beforeSettings_spares (inputs : Inputs) :
    ∀ step ∈ beforeSettings inputs, step.spares
      [Part.m_dndCapabilityAgent, Part.m_equalizerCapabilityAgent, Part.m_equalizerRuntimeSetup,
       Part.m_equalizerController, Part.equalizerController, Part.m_softwareInfoSender] =
      true := by
  intro step h
  simp only [beforeSettings, List.mem_append] at h
  rcases h with h | h
  · exact Step.spares_of_subset _ _ step (by decide) (validationSteps_spares inputs step h)
  · exact transportSteps_spares inputs step h

/-- Members the second stretch of `initialize` does not assign. -/
theorem settingsToVisual_spares (flags : BuildFlags) (env : Factories) (inputs : Inputs) :
    ∀ step ∈ settingsToVisual flags env inputs, step.spares
      [Part.m_connectionManager, Part.m_equalizerCapabilityAgent, Part.m_equalizerRuntimeSetup,
       Part.m_equalizerController, Part.equalizerController, Part.m_softwareInfoSender] =
      true := by
  intro step h
  simp only [settingsToVisual, List.mem_append] at h
  rcases h with ((((((h | h) | h) | h) | h) | h) | h) | h
  · exact settingsSteps_spares env step h
  · exact Step.spares_of_subset _ _ step (by decide) (focusSteps_spares flags step h)
  · exact Step.spares_of_subset _ _ step (by decide) (speechSteps_spares flags step h)
  · exact Step.spares_of_subset _ _ step (by decide) (speakerSteps_spares flags inputs step h)
  · exact Step.spares_of_subset _ _ step (by decide) (playerSteps_spares step h)
  · exact Step.spares_of_subset _ _ step (by decide) (telephonySteps_spares flags inputs step h)
  · exact Step.spares_of_subset _ _ step (by decide) (mediaSteps_spares flags inputs step h)
  · exact Step.spares_of_subset _ _ step (by decide) (visualSteps_spares inputs step h)

/-- Members the last stretch of `initialize` does not assign. -/
theorem afterEqualizer_spares (flags : BuildFlags) (inputs : Inputs) :
    ∀ step ∈ afterEqualizer flags inputs, step.spares
      [Part.m_connectionManager, Part.m_dndCapabilityAgent, Part.m_equalizerCapabilityAgent,
       Part.m_equalizerRuntimeSetup, Part.m_equalizerController, Part.equalizerController] =
      true := by
  intro step h
  simp only [afterEqualizer, List.mem_append] at h
  rcases h with ((h | h) | h) | h
  · exact systemSteps_spares flags inputs step h
  · exact Step.spares_of_subset _ _ step (by decide) (bluetoothSteps_spares inputs step h)
  · exact Step.spares_of_subset _ _ step (by decide) (endpointSteps_spares flags step h)
  · exact Step.spares_of_subset _ _ step (by decide) (finishingSteps_spares flags inputs step h)

/-- A property of the statements of two lists holds of their concatenation. -/
theorem spares_append (parts : List Part) (first second : List Step)
    (hfirst : ∀ step ∈ first, step.spares parts = true)
    (hsecond : ∀ step ∈ second, step.spares parts = true) :
    ∀ step ∈ first ++ second, step.spares parts = true := by
  intro step h
  rcases List.mem_append.1 h with h | h
  · exact hfirst step h
  · exact hsecond step h

/-- Narrowing the members a list of statements is known not to assign. -/
theorem spares_narrow (parts fewer : List Part) (steps : List Step)
    (hsubset : ∀ p ∈ fewer, p ∈ parts) (h : ∀ step ∈ steps, step.spares parts = true) :
    ∀ step ∈ steps, step.spares fewer = true :=
  fun step hstep => Step.spares_of_subset parts fewer step hsubset (h step hstep)

/-- When the first stretch of `initialize` has run through, the connection
manager is non-null. -/
theorem beforeSettings_connectionManager (env : Factories) (inputs : Inputs) (b middle : Build)
    (h : run env (beforeSettings inputs) b = (Outcome.completed, middle)) :
    Part.m_connectionManager ∈ middle.present := by
  have hsplit : beforeSettings inputs =
      (validationSteps inputs ++
        ([Step.store Part.m_avsGatewayManager (Ref.input Input.avsGatewayManager),
          Step.make Part.m_dialogUXStateAggregator] ++
         inputs.alexaDialogStateObservers.map (fun observer =>
           Step.call (Ref.part Part.m_dialogUXStateAggregator) Op.addObserver
             [Ref.element observer]) ++
         [Step.make Part.attachmentManager,
          Step.make Part.m_messageRouter,
          Step.check (decide (Input.internetConnectionMonitor ∈ inputs.provided)) Level.CRITICAL
            "initializeFailed" "internetConnectionMonitor was nullptr",
          Step.store Part.m_internetConnectionMonitor (Ref.input Input.internetConnectionMonitor),
          Step.create Part.m_connectionManager])) ++
      Step.require Part.m_connectionManager Level.ERROR "initializeFailed"
        "unableToCreateConnectionManager" ::
      (created Part.m_certifiedSender "unableToCreateCertifiedSender" ++
       created Part.m_exceptionSender "unableToCreateExceptionSender" ++
       created Part.m_directiveSequencer "unableToCreateDirectiveSequencer" ++
       [Step.make Part.messageInterpreter,
        Step.call (Ref.part Part.m_connectionManager) Op.addMessageObserver
          [Ref.part Part.messageInterpreter],
        Step.make Part.m_registrationManager,
        Step.store Part.m_contextManager (Ref.input Input.contextManager)] ++
       created Part.m_endpointManager "endpointRegistrationManagerCreateFailed") := by
    simp [beforeSettings, transportSteps, created, Step.failed, List.append_assoc]
  rw [hsplit] at h
  exact run_require_kept env _ _ Part.m_connectionManager _ _ _ b middle (by decide) h

/-- In whatever state `initialize` ends, the connection manager is non-null if
the do-not-disturb agent is. -/
theorem initialize_dnd_has_manager (flags : BuildFlags) (env : Factories) (inputs : Inputs) :
    Part.m_dndCapabilityAgent ∈ (initializeClient flags env inputs (fresh inputs)).2.present →
      Part.m_connectionManager ∈
        (initializeClient flags env inputs (fresh inputs)).2.present := by
  rw [initializeClient, initializeSteps_split]
  apply run_guard env Part.m_dndCapabilityAgent Part.m_connectionManager
  · simp [fresh]
  · exact spares_narrow _ _ _ (by decide) (beforeSettings_spares inputs)
  · exact spares_append _ _ _
      (spares_narrow _ _ _ (by decide) (settingsToVisual_spares flags env inputs))
      (spares_append _ _ _
        (spares_narrow _ _ _ (by decide) (equalizerSteps_spares env inputs))
        (spares_narrow _ _ _ (by decide) (afterEqualizer_spares flags inputs)))
  · exact fun middle h => beforeSettings_connectionManager env inputs _ middle h

/-- The statements `p = create(...); if (!p) return false; q = local;` after a
stretch that leaves `local` non-null and before statements that assign neither
`p` nor `q`: however the run ends, `q` is non-null if `p` is. -/
theorem run_window (env : Factories) (p q kept : Part) (first second : List Step) (b : Build)
    (level : Level) (event reason : String)
    (hp : p ∉ b.present) (hkept : p ≠ kept)
    (hfirst : ∀ step ∈ first, step.spares [p] = true)
    (hsecond : ∀ step ∈ second, step.spares [p, q] = true)
    (hreach : ∀ middle, run env first b = (Outcome.completed, middle) → kept ∈ middle.present) :
    p ∈ (run env (first ++ (Step.create p :: Step.require p level event reason ::
        Step.store q (Ref.part kept) :: second)) b).2.present →
      q ∈ (run env (first ++ (Step.create p :: Step.require p level event reason ::
        Step.store q (Ref.part kept) :: second)) b).2.present := by
  intro hin
  rw [run_append] at hin ⊢
  have hsame := run_keeps env [p] first b hfirst p (by simp)
  rcases hrun : run env first b with ⟨outcome, middle⟩
  simp only [hrun] at hin hsame ⊢
  cases outcome
  · have hlocal := hreach middle hrun
    cases hcreates : env.creates p
    · simp [run, Step.exec, hcreates, Build.assign] at hin
    · have hthere : kept ∈ (middle.assign p true).present := by
        rw [Build.mem_assign]
        exact Or.inr ⟨fun h => hkept h.symm, hlocal⟩
      have hq : q ∈ (((middle.assign p true).emit [Event.construct p]).assign q true).present := by
        rw [Build.mem_assign]
        exact Or.inl ⟨rfl, rfl⟩
      have hfinal := run_keeps env [p, q] second
        (((middle.assign p true).emit [Event.construct p]).assign q true) hsecond q (by simp)
      simp only [run, Step.exec, hcreates, Build.emit_present, Build.has_emit, Build.has]
      have hpin : p ∈ (middle.assign p true).present := by
        rw [Build.mem_assign]; exact Or.inl ⟨rfl, rfl⟩
      have hdecided : decide (kept ∈
          ((middle.assign p true).emit [Event.construct p]).present) = true := by
        simpa using hthere
      simp only [hpin, if_true]
      rw [hdecided]
      exact hfinal.2 hq
  · exact absurd (hsame.1 hin) hp
  · exact absurd (hsame.1 hin) hp

/-- When the equalizer runtime setup is not given, `initialize` never assigns
the equalizer agent. -/
theorem initialize_without_equalizer (flags : BuildFlags) (env : Factories) (inputs : Inputs)
    (hnone : Input.equalizerRuntimeSetup ∉ inputs.provided) :
    Part.m_equalizerCapabilityAgent ∉
      (initializeClient flags env inputs (fresh inputs)).2.present := by
  have hequalizer : ∀ step ∈ equalizerSteps env inputs,
      step.spares [Part.m_equalizerCapabilityAgent] = true := by
    simp [equalizerSteps, hnone, Step.spares, Step.target]
  have hall : ∀ step ∈ initializeSteps flags env inputs,
      step.spares [Part.m_equalizerCapabilityAgent] = true := by
    rw [initializeSteps_split]
    exact spares_append _ _ _ (spares_narrow _ _ _ (by decide) (beforeSettings_spares inputs))
      (spares_append _ _ _
        (spares_narrow _ _ _ (by decide) (settingsToVisual_spares flags env inputs))
        (spares_append _ _ _ hequalizer
          (spares_narrow _ _ _ (by decide) (afterEqualizer_spares flags inputs))))
  intro hin
  rw [initializeClient] at hin
  have hkept := run_keeps env [Part.m_equalizerCapabilityAgent] (initializeSteps flags env inputs)
    (fresh inputs) hall Part.m_equalizerCapabilityAgent (List.mem_singleton.2 rfl)
  have hfresh : Part.m_equalizerCapabilityAgent ∈ (fresh inputs).present := hkept.1 hin
  exact List.not_mem_nil _ hfresh

/-- The calls that follow the assignment of `m_equalizerController`. -/
theorem equalizer_registrations_spare (env : Factories) (parts : List Part) :
    ∀ step ∈
      ([Step.call (Ref.part Part.m_equalizerRuntimeSetup) Op.getAllEqualizers []] ++
        env.allEqualizers.map (fun equalizer =>
          Step.call (Ref.part Part.equalizerController) Op.registerEqualizer
            [Ref.element equalizer]) ++
        [Step.call (Ref.part Part.m_equalizerRuntimeSetup)
          Op.getAllEqualizerControllerListeners []] ++
        env.allEqualizerControllerListeners.map (fun listener =>
          Step.call (Ref.part Part.equalizerController) Op.addListener [Ref.element listener])),
      step.spares parts = true := by
  intro step h
  simp only [List.mem_append, List.mem_singleton, List.mem_map] at h
  rcases h with ((rfl | ⟨_, -, rfl⟩) | rfl) | ⟨_, -, rfl⟩ <;> rfl

/-- In whatever state `initialize` ends, the equalizer controller and the
equalizer runtime setup are non-null if the equalizer agent is. -/
theorem initialize_equalizer_has_parts (flags : BuildFlags) (env : Factories) (inputs : Inputs) :
    Part.m_equalizerCapabilityAgent ∈
        (initializeClient flags env inputs (fresh inputs)).2.present →
      Part.m_equalizerController ∈
          (initializeClient flags env inputs (fresh inputs)).2.present ∧
        Part.m_equalizerRuntimeSetup ∈
          (initializeClient flags env inputs (fresh inputs)).2.present := by
  intro hin
  by_cases hgiven : Input.equalizerRuntimeSetup ∈ inputs.provided
  swap
  · exact absurd hin (initialize_without_equalizer flags env inputs hgiven)
  have hhead : ∀ step ∈ beforeSettings inputs ++ settingsToVisual flags env inputs,
      step.spares [Part.m_equalizerCapabilityAgent] = true :=
    spares_append _ _ _ (spares_narrow _ _ _ (by decide) (beforeSettings_spares inputs))
      (spares_narrow _ _ _ (by decide) (settingsToVisual_spares flags env inputs))
  constructor
  · -- the controller
    have hsplit : initializeSteps flags env inputs =
        (beforeSettings inputs ++ settingsToVisual flags env inputs ++
          [Step.store Part.m_equalizerRuntimeSetup (Ref.input Input.equalizerRuntimeSetup),
           Step.call (Ref.input Input.equalizerRuntimeSetup) Op.getModeController [],
           Step.call (Ref.input Input.equalizerRuntimeSetup) Op.getConfiguration [],
           Step.call (Ref.input Input.equalizerRuntimeSetup) Op.getStorage [],
           Step.create Part.equalizerController,
           Step.require Part.equalizerController Level.ERROR "initializeFailed"
             "unableToCreateEqualizerController",
           Step.call (Ref.input Input.equalizerRuntimeSetup) Op.getStorage []]) ++
        (Step.create Part.m_equalizerCapabilityAgent ::
         Step.require Part.m_equalizerCapabilityAgent Level.ERROR "initializeFailed"
           "unableToCreateEqualizerCapabilityAgent" ::
         Step.store Part.m_equalizerController (Ref.part Part.equalizerController) ::
         (([Step.call (Ref.part Part.m_equalizerRuntimeSetup) Op.getAllEqualizers []] ++
            env.allEqualizers.map (fun equalizer =>
              Step.call (Ref.part Part.equalizerController) Op.registerEqualizer
                [Ref.element equalizer]) ++
            [Step.call (Ref.part Part.m_equalizerRuntimeSetup)
              Op.getAllEqualizerControllerListeners []] ++
            env.allEqualizerControllerListeners.map (fun listener =>
              Step.call (Ref.part Part.equalizerController) Op.addListener
                [Ref.element listener])) ++
          afterEqualizer flags inputs)) := by
      rw [initializeSteps_split]
      simp [equalizerSteps, hgiven, created, Step.failed, List.append_assoc]
    rw [initializeClient, hsplit] at hin ⊢
    refine run_window env Part.m_equalizerCapabilityAgent Part.m_equalizerController
      Part.equalizerController _ _ (fresh inputs) _ _ _ (by simp [fresh]) (by decide) ?_ ?_ ?_ hin
    · exact spares_append _ _ _ hhead (by decide)
    · exact spares_append _ _ _ (equalizer_registrations_spare env _)
        (spares_narrow _ _ _ (by decide) (afterEqualizer_spares flags inputs))
    · intro middle hmiddle
      have hshape : beforeSettings inputs ++ settingsToVisual flags env inputs ++
          [Step.store Part.m_equalizerRuntimeSetup (Ref.input Input.equalizerRuntimeSetup),
           Step.call (Ref.input Input.equalizerRuntimeSetup) Op.getModeController [],
           Step.call (Ref.input Input.equalizerRuntimeSetup) Op.getConfiguration [],
           Step.call (Ref.input Input.equalizerRuntimeSetup) Op.getStorage [],
           Step.create Part.equalizerController,
           Step.require Part.equalizerController Level.ERROR "initializeFailed"
             "unableToCreateEqualizerController",
           Step.call (Ref.input Input.equalizerRuntimeSetup) Op.getStorage []] =
          (beforeSettings inputs ++ settingsToVisual flags env inputs ++
            [Step.store Part.m_equalizerRuntimeSetup (Ref.input Input.equalizerRuntimeSetup),
             Step.call (Ref.input Input.equalizerRuntimeSetup) Op.getModeController [],
             Step.call (Ref.input Input.equalizerRuntimeSetup) Op.getConfiguration [],
             Step.call (Ref.input Input.equalizerRuntimeSetup) Op.getStorage [],
             Step.create Part.equalizerController]) ++
          Step.require Part.equalizerController Level.ERROR "initializeFailed"
            "unableToCreateEqualizerController" ::
          [Step.call (Ref.input Input.equalizerRuntimeSetup) Op.getStorage []] := by
        simp [List.append_assoc]
      rw [hshape] at hmiddle
      exact run_require_kept env _ _ Part.equalizerController _ _ _ _ middle (by decide) hmiddle
  · -- the runtime setup
    have hsplit : initializeSteps flags env inputs =
        (beforeSettings inputs ++ settingsToVisual flags env inputs ++
          [Step.store Part.m_equalizerRuntimeSetup (Ref.input Input.equalizerRuntimeSetup)]) ++
        ([Step.call (Ref.input Input.equalizerRuntimeSetup) Op.getModeController [],
          Step.call (Ref.input Input.equalizerRuntimeSetup) Op.getConfiguration [],
          Step.call (Ref.input Input.equalizerRuntimeSetup) Op.getStorage [],
          Step.create Part.equalizerController,
          Step.require Part.equalizerController Level.ERROR "initializeFailed"
            "unableToCreateEqualizerController",
          Step.call (Ref.input Input.equalizerRuntimeSetup) Op.getStorage [],
          Step.create Part.m_equalizerCapabilityAgent,
          Step.require Part.m_equalizerCapabilityAgent Level.ERROR "initializeFailed"
            "unableToCreateEqualizerCapabilityAgent",
          Step.store Part.m_equalizerController (Ref.part Part.equalizerController)] ++
         (([Step.call (Ref.part Part.m_equalizerRuntimeSetup) Op.getAllEqualizers []] ++
            env.allEqualizers.map (fun equalizer =>
              Step.call (Ref.part Part.equalizerController) Op.registerEqualizer
                [Ref.element equalizer]) ++
            [Step.call (Ref.part Part.m_equalizerRuntimeSetup)
              Op.getAllEqualizerControllerListeners []] ++
            env.allEqualizerControllerListeners.map (fun listener =>
              Step.call (Ref.part Part.equalizerController) Op.addListener
                [Ref.element listener])) ++
          afterEqualizer flags inputs)) := by
      rw [initializeSteps_split]
      simp [equalizerSteps, hgiven, created, Step.failed, List.append_assoc]
    rw [initializeClient, hsplit] at hin ⊢
    refine run_guard env Part.m_equalizerCapabilityAgent Part.m_equalizerRuntimeSetup _ _
      (fresh inputs) (by simp [fresh]) ?_ ?_ ?_ hin
    · exact spares_append _ _ _ hhead (by decide)
    · exact spares_append _ _ _ (by decide)
        (spares_append _ _ _ (equalizer_registrations_spare env _)
          (spares_narrow _ _ _ (by decide) (afterEqualizer_spares flags inputs)))
    · intro middle hmiddle
      obtain ⟨reached, hreached, hstore⟩ := run_completed_append env _ _ _ middle hmiddle
      obtain ⟨-, -, hprovided⟩ := run_extends env
        (beforeSettings inputs ++ settingsToVisual flags env inputs) (fresh inputs)
      rw [hreached] at hprovided
      have hhas : reached.has (Ref.input Input.equalizerRuntimeSetup) = true := by
        have : reached.provided = inputs.provided := hprovided
        simp [Build.has, this, hgiven]
      simp only [run, Step.exec, hhas, Prod.mk.injEq, true_and] at hstore
      rw [← hstore, Build.mem_assign]
      exact Or.inl ⟨rfl, rfl⟩

/-! ## What the destructor does on a client it can destroy safely -/

/-- The events of the destructor are those of its guarded calls whose guards
hold, when it calls through no null pointer. -/
theorem teardownEvents_closed_form (flags : BuildFlags) (env : Factories) (b : Build)
    (hdnd : Part.m_dndCapabilityAgent ∈ b.present → Part.m_connectionManager ∈ b.present)
    (hequalizer : Part.m_equalizerCapabilityAgent ∈ b.present →
      Part.m_equalizerRuntimeSetup ∈ b.present ∧ Part.m_equalizerController ∈ b.present) :
    teardownEvents flags env b = (teardownSteps flags env).filterMap (Step.fires b) ∧
      teardown flags env b = (Outcome.completed, b.emit (teardownEvents flags env b)) := by
  have hfires : Step.fires { b with events := [] } = Step.fires b := by
    funext step; cases step <;> rfl
  have hevents : teardownEvents flags env b =
      (teardownSteps flags env).filterMap (Step.fires b) := by
    simp only [teardownEvents,
      teardown_closed_form flags env { b with events := [] } hdnd hequalizer, hfires,
      Build.emit_events, List.nil_append]
  exact ⟨hevents, by rw [hevents]; exact teardown_closed_form flags env b hdnd hequalizer⟩

/-- The `shutdown` events of a list of `if (member) member->shutdown()` statements. -/
theorem shutdowns_of_members (b : Build) (members : List Part) :
    ((members.map shutdownIf).filterMap (Step.fires b)).filter Event.isShutdown =
      (members.filter (fun member => decide (member ∈ b.present))).map shutdownOf := by
  rw [fires_shutdownIf, List.filter_eq_self]
  intro e he
  obtain ⟨member, -, rfl⟩ := List.mem_map.1 he
  rfl

/-- Statements that call no `shutdown` issue no `shutdown` event. -/
theorem shutdowns_of_others (b : Build) (steps : List Step)
    (h : ∀ step ∈ steps, step.calls Op.shutdown = false) :
    (steps.filterMap (Step.fires b)).filter Event.isShutdown = [] := by
  rw [List.filter_eq_nil_iff]
  intro e he
  obtain ⟨guards, receiver, op, args, hstep, rfl⟩ := mem_fires b steps e he
  have hop := h _ hstep
  simp only [Step.calls, decide_eq_false_iff_not] at hop
  cases op <;> first | exact absurd rfl hop | simp [Event.isShutdown]

/-- The destructor, with the statements that call `shutdown` set apart. -/
theorem teardownSteps_members (flags : BuildFlags) (env : Factories) :
    teardownSteps flags env =
      firstMembers.map shutdownIf ++ (trackerMembers flags).map shutdownIf ++
      ([Step.callIf [Part.m_mrmCapabilityAgent, Part.m_callManager] (Ref.part Part.m_callManager)
          Op.removeObserver [Ref.part Part.m_mrmCapabilityAgent]] ++
        [Part.m_mrmCapabilityAgent, Part.m_callManager].map shutdownIf) ++
      (gatewayMembers flags).map shutdownIf ++
      ([Step.callIf [Part.m_dndCapabilityAgent] (Ref.part Part.m_connectionManager)
          Op.removeConnectionStatusObserver [Ref.part Part.m_dndCapabilityAgent]] ++
        [Part.m_dndCapabilityAgent].map shutdownIf) ++
      ([Part.m_visualCharacteristics].map shutdownIf ++
        ([Step.callIf [Part.m_equalizerCapabilityAgent] (Ref.part Part.m_equalizerRuntimeSetup)
            Op.getAllEqualizers []] ++
          env.allEqualizers.map (fun equalizer =>
            Step.callIf [Part.m_equalizerCapabilityAgent] (Ref.part Part.m_equalizerController)
              Op.unregisterEqualizer [Ref.element equalizer]) ++
          [Step.callIf [Part.m_equalizerCapabilityAgent] (Ref.part Part.m_equalizerRuntimeSetup)
            Op.getAllEqualizerControllerListeners []] ++
          env.allEqualizerControllerListeners.map (fun listener =>
            Step.callIf [Part.m_equalizerCapabilityAgent] (Ref.part Part.m_equalizerController)
              Op.removeListener [Ref.element listener])) ++
        [Part.m_equalizerCapabilityAgent].map shutdownIf) ++
      (closeStorage ++ removeProxy flags) := by
  simp [teardownSteps, shutdownFirst, shutdownTrackers, shutdownCalls, shutdownGateways,
    shutdownDoNotDisturb, shutdownEqualizer, List.append_assoc]

/-- The `shutdown` events of the destructor are those of the members it shuts
down that are non-null, in the order of the destructor. -/
theorem teardown_shutdowns (flags : BuildFlags) (env : Factories) (b : Build) :
    ((teardownSteps flags env).filterMap (Step.fires b)).filter Event.isShutdown =
      ((shutdownMembers flags).filter (fun member => decide (member ∈ b.present))).map
        shutdownOf := by
  have hequalizers := shutdowns_of_others b
    [Step.callIf [Part.m_equalizerCapabilityAgent] (Ref.part Part.m_equalizerRuntimeSetup)
      Op.getAllEqualizers []] (by decide)
  have hunregister := shutdowns_of_others b
    (env.allEqualizers.map (fun equalizer =>
      Step.callIf [Part.m_equalizerCapabilityAgent] (Ref.part Part.m_equalizerController)
        Op.unregisterEqualizer [Ref.element equalizer]))
    (by
      intro step h
      obtain ⟨_, -, rfl⟩ := List.mem_map.1 h
      rfl)
  have hlisteners := shutdowns_of_others b
    [Step.callIf [Part.m_equalizerCapabilityAgent] (Ref.part Part.m_equalizerRuntimeSetup)
      Op.getAllEqualizerControllerListeners []] (by decide)
  have hremove := shutdowns_of_others b
    (env.allEqualizerControllerListeners.map (fun listener =>
      Step.callIf [Part.m_equalizerCapabilityAgent] (Ref.part Part.m_equalizerController)
        Op.removeListener [Ref.element listener]))
    (by
      intro step h
      obtain ⟨_, -, rfl⟩ := List.mem_map.1 h
      rfl)
  have hdetachCalls := shutdowns_of_others b
    [Step.callIf [Part.m_mrmCapabilityAgent, Part.m_callManager] (Ref.part Part.m_callManager)
      Op.removeObserver [Ref.part Part.m_mrmCapabilityAgent]] (by decide)
  have hdetachAgent := shutdowns_of_others b
    [Step.callIf [Part.m_dndCapabilityAgent] (Ref.part Part.m_connectionManager)
      Op.removeConnectionStatusObserver [Ref.part Part.m_dndCapabilityAgent]] (by decide)
  have hclose := shutdowns_of_others b closeStorage (by decide)
  have hproxy := shutdowns_of_others b (removeProxy flags) (by
    intro step h
    cases hc : flags.ENABLE_COMMS_AUDIO_PROXY <;> simp [removeProxy, hc] at h
    subst h; rfl)
  have hmembers : shutdownMembers flags =
      firstMembers ++ (trackerMembers flags ++
        ([Part.m_mrmCapabilityAgent, Part.m_callManager] ++ (gatewayMembers flags ++
          ([Part.m_dndCapabilityAgent] ++ ([Part.m_visualCharacteristics] ++
            [Part.m_equalizerCapabilityAgent]))))) := by
    simp [shutdownMembers]
  rw [teardownSteps_members, hmembers]
  simp only [List.filterMap_append, List.filter_append, shutdowns_of_members, hequalizers,
    hunregister, hlisteners, hremove, hdetachCalls, hdetachAgent, hclose, hproxy, List.map_append, List.nil_append,
    List.append_nil, List.append_assoc]

/-- Every member the destructor shuts down has its `if (member)
member->shutdown()` among the statements of the destructor. -/
theorem shutdownIf_mem_teardownSteps (flags : BuildFlags) (env : Factories) :
    ∀ member ∈ shutdownMembers flags, shutdownIf member ∈ teardownSteps flags env := by
  intro member h
  rw [teardownSteps_members]
  simp only [shutdownMembers, List.mem_append, List.mem_cons, List.mem_singleton,
    List.not_mem_nil, or_false] at h
  simp only [List.mem_append, List.mem_map, List.mem_cons, List.mem_singleton,
    List.not_mem_nil, or_false]
  rcases h with (((h | h) | h | h) | h) | h | h | h
  · exact Or.inl (Or.inl (Or.inl (Or.inl (Or.inl (Or.inl ⟨member, h, rfl⟩)))))
  · exact Or.inl (Or.inl (Or.inl (Or.inl (Or.inl (Or.inr ⟨member, h, rfl⟩)))))
  · exact Or.inl (Or.inl (Or.inl (Or.inl (Or.inr (Or.inr ⟨member, Or.inl h, rfl⟩)))))
  · exact Or.inl (Or.inl (Or.inl (Or.inl (Or.inr (Or.inr ⟨member, Or.inr h, rfl⟩)))))
  · exact Or.inl (Or.inl (Or.inl (Or.inr ⟨member, h, rfl⟩)))
  · exact Or.inl (Or.inl (Or.inr (Or.inr ⟨member, h, rfl⟩)))
  · exact Or.inl (Or.inr (Or.inl (Or.inl ⟨member, h, rfl⟩)))
  · exact Or.inl (Or.inr (Or.inr ⟨member, h, rfl⟩))

/-! ## Teardown of partly built clients -/

/-- C27: in whatever state `initialize` ends on a fresh candidate (it returned
true, it returned false, at any statement), the connection manager is non-null
if the do-not-disturb agent is, and the equalizer controller and the equalizer
runtime setup are non-null if the equalizer agent is; so the destructor run on
that state calls through no null pointer and runs through, and `create` ends in
undefined behaviour only if `initialize` itself called through a null pointer. -/
theorem initialize_leaves_teardown_safe (flags : BuildFlags) (env : Factories)
    (inputs : Inputs) :
    (Part.m_dndCapabilityAgent ∈ (initializeClient flags env inputs (fresh inputs)).2.present →
      Part.m_connectionManager ∈
        (initializeClient flags env inputs (fresh inputs)).2.present) ∧
    (Part.m_equalizerCapabilityAgent ∈
        (initializeClient flags env inputs (fresh inputs)).2.present →
      Part.m_equalizerController ∈
          (initializeClient flags env inputs (fresh inputs)).2.present ∧
        Part.m_equalizerRuntimeSetup ∈
          (initializeClient flags env inputs (fresh inputs)).2.present) ∧
    (teardown flags env (initializeClient flags env inputs (fresh inputs)).2).1 =
      Outcome.completed ∧
    (∀ state, create flags env inputs = Created.undefined state →
      (initializeClient flags env inputs (fresh inputs)).1 = Outcome.fault) := by
  have hdnd := initialize_dnd_has_manager flags env inputs
  have hequalizer := initialize_equalizer_has_parts flags env inputs
  have hteardown := teardown_closed_form flags env
    (initializeClient flags env inputs (fresh inputs)).2 hdnd
    (fun h => ⟨(hequalizer h).2, (hequalizer h).1⟩)
  refine ⟨hdnd, hequalizer, by rw [hteardown], ?_⟩
  intro state hcreate
  unfold create at hcreate
  split at hcreate
  · rcases hrun : initializeClient flags env inputs (fresh inputs) with ⟨outcome, candidate⟩
    rw [hrun] at hcreate hteardown
    cases outcome
    · cases hcreate
    · simp only [hteardown] at hcreate
      cases hcreate
    · rfl
  · cases hcreate

/-- C26: when `initialize` returns false on the candidate `create` allocated,
`create` hands back null after the destructor has run through on the
candidate: every member the destructor shuts down that is non-null in the
candidate receives its `shutdown` call, and the device-setting storage receives
`close()` if the candidate holds it; the destructor constructs nothing. -/
theorem create_tears_down_failed_candidate (flags : BuildFlags) (env : Factories)
    (inputs : Inputs) (candidate : Build) (hdevice : Input.deviceInfo ∈ inputs.provided)
    (hfailed : initializeClient flags env inputs (fresh inputs) =
      (Outcome.aborted, candidate)) :
    create flags env inputs =
      Created.null (candidate.emit (teardownEvents flags env candidate)) ∧
    (∀ member ∈ shutdownMembers flags, member ∈ candidate.present →
      shutdownOf member ∈ teardownEvents flags env candidate) ∧
    (Part.m_deviceSettingStorage ∈ candidate.present →
      closeOfStorage ∈ teardownEvents flags env candidate) ∧
    (∀ e ∈ teardownEvents flags env candidate, ∃ receiver op args,
      e = Event.call receiver op args) := by
  have hdnd := initialize_dnd_has_manager flags env inputs
  have hequalizer := initialize_equalizer_has_parts flags env inputs
  rw [hfailed] at hdnd hequalizer
  obtain ⟨hevents, hrun⟩ := teardownEvents_closed_form flags env candidate hdnd
    (fun h => ⟨(hequalizer h).2, (hequalizer h).1⟩)
  refine ⟨by simp only [create, hdevice, if_true, hfailed, hrun], ?_, ?_, ?_⟩
  · intro member hmember hpresent
    rw [hevents]
    exact List.mem_filterMap.2 ⟨shutdownIf member,
      shutdownIf_mem_teardownSteps flags env member hmember,
      by simp [Step.fires, shutdownIf, shutdownOf, hpresent]⟩
  · intro hstorage
    rw [hevents]
    refine List.mem_filterMap.2 ⟨Step.callIf [Part.m_deviceSettingStorage]
      (Ref.part Part.m_deviceSettingStorage) Op.close [], ?_,
      by simp [Step.fires, closeOfStorage, hstorage]⟩
    simp [teardownSteps, closeStorage]
  · intro e he
    rw [hevents] at he
    obtain ⟨guards, receiver, op, args, -, rfl⟩ := mem_fires candidate _ e he
    exact ⟨receiver, op, args, rfl⟩

/-- C26 on the sample arguments with a certified sender factory that yields
nothing: the message router and the connection manager are shut down. -/
theorem create_tears_down_failed_candidate_witness :
    Input.deviceInfo ∈ sampleInputs.provided ∧
    initializeClient plainFlags sampleNoCertifiedSender sampleInputs (fresh sampleInputs) =
      (Outcome.aborted, sampleReached.emit
        [Event.log Level.ERROR "initializeFailed" "unableToCreateCertifiedSender"]) ∧
    teardownEvents plainFlags sampleNoCertifiedSender (sampleReached.emit
        [Event.log Level.ERROR "initializeFailed" "unableToCreateCertifiedSender"]) =
      [shutdownOf Part.m_messageRouter, shutdownOf Part.m_connectionManager] ∧
    create plainFlags sampleNoCertifiedSender sampleInputs =
      Created.null ((sampleReached.emit
        [Event.log Level.ERROR "initializeFailed" "unableToCreateCertifiedSender"]).emit
        (teardownEvents plainFlags sampleNoCertifiedSender (sampleReached.emit
          [Event.log Level.ERROR "initializeFailed" "unableToCreateCertifiedSender"]))) :=
  ⟨by decide, by decide, by decide,
    (create_tears_down_failed_candidate plainFlags sampleNoCertifiedSender sampleInputs
      (sampleReached.emit
        [Event.log Level.ERROR "initializeFailed" "unableToCreateCertifiedSender"])
      (by decide) (by decide)).1⟩

/-! ## Teardown is best-effort -/

/-- The two conditions under which the destructor calls through no null
pointer matter only for states that `initialize` never leaves: on a hand-made
state with the do-not-disturb agent non-null and the connection manager null,
the destructor would call `removeConnectionStatusObserver` through the null
connection manager. -/
theorem teardown_of_orphaned_agent_faults :
    Part.m_deviceSettingStorage ∈ sampleOrphanedAgent.present ∧
    teardown plainFlags sampleFactories sampleOrphanedAgent =
      (Outcome.fault, sampleOrphanedAgent) ∧
    closeOfStorage ∉ (teardown plainFlags sampleFactories sampleOrphanedAgent).2.events := by
  refine ⟨?_, ?_, ?_⟩ <;> decide

/-- The members the destructor shuts down, written out. -/
theorem shutdownMembers_eq (flags : BuildFlags) :
    shutdownMembers flags =
      [Part.m_directiveSequencer, Part.m_speakerManager, Part.m_alexaPresentation,
       Part.m_templateRuntime, Part.m_audioInputProcessor, Part.m_audioPlayer,
       Part.m_externalMediaPlayer, Part.m_speechSynthesizer, Part.m_alertsCapabilityAgent,
       Part.m_playbackController, Part.m_softwareInfoSender, Part.m_messageRouter,
       Part.m_connectionManager, Part.m_certifiedSender, Part.m_audioActivityTracker,
       Part.m_visualActivityTracker, Part.m_playbackRouter, Part.m_notificationsCapabilityAgent,
       Part.m_notificationsRenderer] ++
      (if flags.ENABLE_CAPTIONS then [Part.m_captionManager] else []) ++
      [Part.m_bluetooth, Part.m_userInactivityMonitor, Part.m_mrmCapabilityAgent,
       Part.m_callManager, Part.m_apiGatewayCapabilityAgent, Part.m_alexaMessageSender] ++
      (if flags.ENABLE_PCC then [Part.m_phoneCallControllerCapabilityAgent] else []) ++
      (if flags.ENABLE_MCC then [Part.m_meetingClientControllerCapabilityAgent] else []) ++
      [Part.m_dndCapabilityAgent, Part.m_visualCharacteristics,
       Part.m_equalizerCapabilityAgent] := by
  simp [shutdownMembers, firstMembers, surfaceCapabilities, trackerMembers, gatewayMembers]

/-- The destructor on a client it can destroy safely. -/
theorem teardown_on_safe (flags : BuildFlags) (env : Factories) (b : Build)
    (hdnd : Part.m_dndCapabilityAgent ∈ b.present → Part.m_connectionManager ∈ b.present)
    (hequalizer : Part.m_equalizerCapabilityAgent ∈ b.present →
      Part.m_equalizerRuntimeSetup ∈ b.present ∧ Part.m_equalizerController ∈ b.present) :
    (teardown flags env b).1 = Outcome.completed ∧
    (teardownEvents flags env b).filter Event.isShutdown =
      ((shutdownMembers flags).filter (fun member => decide (member ∈ b.present))).map
        shutdownOf ∧
    (∀ receiver op args, Event.call receiver op args ∈ teardownEvents flags env b →
      b.has receiver = true) ∧
    (b.present = [] → teardownEvents flags env b = []) := by
  obtain ⟨hevents, hrun⟩ := teardownEvents_closed_form flags env b hdnd hequalizer
  refine ⟨by rw [hrun], ?_, ?_, ?_⟩
  · rw [hevents]
    exact teardown_shutdowns flags env b
  · intro receiver op args hin
    rw [hevents] at hin
    obtain ⟨step, hstep, hfires⟩ := List.mem_filterMap.1 hin
    have hfree := teardownSteps_faultFree flags env b hdnd hequalizer step hstep
    obtain ⟨guard, guards, target, called, given, rfl⟩ :=
      teardownSteps_guards flags env step hstep
    simp only [Step.fires] at hfires
    split at hfires
    · rename_i hguards
      simp only [Option.some.injEq, Event.call.injEq] at hfires
      obtain ⟨rfl, -, -⟩ := hfires
      simpa [Step.faultFree, hguards] using hfree
    · cases hfires
  · intro hnone
    have hnothing := teardown_of_none_present flags env { b with events := [] } hnone
    simp only [teardownEvents, hnothing]

/-- C21: teardown is null-safe and best-effort on every client the destructor
can receive.  In whatever state `initialize` has left the candidate (it ran
through, or it returned false at any statement, with whatever members
non-null), and more generally on every client on which the connection manager
is non-null if the do-not-disturb agent is, and the equalizer runtime setup and
controller are non-null if the equalizer agent is: the destructor runs
through; its `shutdown` calls are exactly those of the non-null members among
the members it shuts down, in the order of the destructor (written out in the
statement); every call it issues goes to a non-null object; and it issues no
call at all when every member is null. -/
theorem teardown_is_best_effort (flags : BuildFlags) (env : Factories) :
    (∀ inputs : Inputs,
      (teardown flags env (initializeClient flags env inputs (fresh inputs)).2).1 =
        Outcome.completed ∧
      (teardownEvents flags env (initializeClient flags env inputs (fresh inputs)).2).filter
          Event.isShutdown =
        ((([Part.m_directiveSequencer, Part.m_speakerManager, Part.m_alexaPresentation,
            Part.m_templateRuntime, Part.m_audioInputProcessor, Part.m_audioPlayer,
            Part.m_externalMediaPlayer, Part.m_speechSynthesizer, Part.m_alertsCapabilityAgent,
            Part.m_playbackController, Part.m_softwareInfoSender, Part.m_messageRouter,
            Part.m_connectionManager, Part.m_certifiedSender, Part.m_audioActivityTracker,
            Part.m_visualActivityTracker, Part.m_playbackRouter,
            Part.m_notificationsCapabilityAgent, Part.m_notificationsRenderer] ++
          (if flags.ENABLE_CAPTIONS then [Part.m_captionManager] else []) ++
          [Part.m_bluetooth, Part.m_userInactivityMonitor, Part.m_mrmCapabilityAgent,
           Part.m_callManager, Part.m_apiGatewayCapabilityAgent, Part.m_alexaMessageSender] ++
          (if flags.ENABLE_PCC then [Part.m_phoneCallControllerCapabilityAgent] else []) ++
          (if flags.ENABLE_MCC then [Part.m_meetingClientControllerCapabilityAgent] else []) ++
          [Part.m_dndCapabilityAgent, Part.m_visualCharacteristics,
           Part.m_equalizerCapabilityAgent]).filter
            (fun member => decide (member ∈
              (initializeClient flags env inputs (fresh inputs)).2.present))).map
          (fun member => Event.call (Ref.part member) Op.shutdown [])) ∧
      (∀ receiver op args, Event.call receiver op args ∈
          teardownEvents flags env (initializeClient flags env inputs (fresh inputs)).2 →
        (initializeClient flags env inputs (fresh inputs)).2.has receiver = true)) ∧
    (∀ b : Build,
      (Part.m_dndCapabilityAgent ∈ b.present → Part.m_connectionManager ∈ b.present) →
      (Part.m_equalizerCapabilityAgent ∈ b.present →
        Part.m_equalizerRuntimeSetup ∈ b.present ∧ Part.m_equalizerController ∈ b.present) →
      (teardown flags env b).1 = Outcome.completed ∧
      (teardownEvents flags env b).filter Event.isShutdown =
        ((([Part.m_directiveSequencer, Part.m_speakerManager, Part.m_alexaPresentation,
            Part.m_templateRuntime, Part.m_audioInputProcessor, Part.m_audioPlayer,
            Part.m_externalMediaPlayer, Part.m_speechSynthesizer, Part.m_alertsCapabilityAgent,
            Part.m_playbackController, Part.m_softwareInfoSender, Part.m_messageRouter,
            Part.m_connectionManager, Part.m_certifiedSender, Part.m_audioActivityTracker,
            Part.m_visualActivityTracker, Part.m_playbackRouter,
            Part.m_notificationsCapabilityAgent, Part.m_notificationsRenderer] ++
          (if flags.ENABLE_CAPTIONS then [Part.m_captionManager] else []) ++
          [Part.m_bluetooth, Part.m_userInactivityMonitor, Part.m_mrmCapabilityAgent,
           Part.m_callManager, Part.m_apiGatewayCapabilityAgent, Part.m_alexaMessageSender] ++
          (if flags.ENABLE_PCC then [Part.m_phoneCallControllerCapabilityAgent] else []) ++
          (if flags.ENABLE_MCC then [Part.m_meetingClientControllerCapabilityAgent] else []) ++
          [Part.m_dndCapabilityAgent, Part.m_visualCharacteristics,
           Part.m_equalizerCapabilityAgent]).filter
            (fun member => decide (member ∈ b.present))).map
          (fun member => Event.call (Ref.part member) Op.shutdown [])) ∧
      (∀ receiver op args, Event.call receiver op args ∈ teardownEvents flags env b →
        b.has receiver = true) ∧
      (b.present = [] → teardownEvents flags env b = [])) := by
  have hgeneral : ∀ b : Build,
      (Part.m_dndCapabilityAgent ∈ b.present → Part.m_connectionManager ∈ b.present) →
      (Part.m_equalizerCapabilityAgent ∈ b.present →
        Part.m_equalizerRuntimeSetup ∈ b.present ∧ Part.m_equalizerController ∈ b.present) →
      _ := fun b hdnd hequalizer => teardown_on_safe flags env b hdnd hequalizer
  constructor
  · intro inputs
    have hdnd := initialize_dnd_has_manager flags env inputs
    have hequalizer := initialize_equalizer_has_parts flags env inputs
    obtain ⟨h1, h2, h3, -⟩ := hgeneral _ hdnd (fun h => ⟨(hequalizer h).2, (hequalizer h).1⟩)
    rw [shutdownMembers_eq] at h2
    exact ⟨h1, h2, h3⟩
  · intro b hdnd hequalizer
    obtain ⟨h1, h2, h3, h4⟩ := hgeneral b hdnd hequalizer
    rw [shutdownMembers_eq] at h2
    exact ⟨h1, h2, h3, h4⟩

/-- C21 on the sample candidate at the point where the certified sender is
tested: only the message router and the connection manager, of the members the
destructor shuts down, are non-null, and only they are shut down, in that
order. -/
theorem teardown_is_best_effort_witness :
    (Part.m_dndCapabilityAgent ∈ sampleReached.present →
      Part.m_connectionManager ∈ sampleReached.present) ∧
    (Part.m_equalizerCapabilityAgent ∈ sampleReached.present →
      Part.m_equalizerRuntimeSetup ∈ sampleReached.present ∧
        Part.m_equalizerController ∈ sampleReached.present) ∧
    teardownEvents plainFlags sampleFactories sampleReached =
      [Event.call (Ref.part Part.m_messageRouter) Op.shutdown [],
       Event.call (Ref.part Part.m_connectionManager) Op.shutdown []] ∧
    (teardown plainFlags sampleFactories sampleReached).1 = Outcome.completed ∧
    (teardownEvents plainFlags sampleFactories sampleReached).filter Event.isShutdown =
      ((([Part.m_directiveSequencer, Part.m_speakerManager, Part.m_alexaPresentation,
          Part.m_templateRuntime, Part.m_audioInputProcessor, Part.m_audioPlayer,
          Part.m_externalMediaPlayer, Part.m_speechSynthesizer, Part.m_alertsCapabilityAgent,
          Part.m_playbackController, Part.m_softwareInfoSender, Part.m_messageRouter,
          Part.m_connectionManager, Part.m_certifiedSender, Part.m_audioActivityTracker,
          Part.m_visualActivityTracker, Part.m_playbackRouter,
          Part.m_notificationsCapabilityAgent, Part.m_notificationsRenderer] ++
        (if plainFlags.ENABLE_CAPTIONS then [Part.m_captionManager] else []) ++
        [Part.m_bluetooth, Part.m_userInactivityMonitor, Part.m_mrmCapabilityAgent,
         Part.m_callManager, Part.m_apiGatewayCapabilityAgent, Part.m_alexaMessageSender] ++
        (if plainFlags.ENABLE_PCC then [Part.m_phoneCallControllerCapabilityAgent] else []) ++
        (if plainFlags.ENABLE_MCC then [Part.m_meetingClientControllerCapabilityAgent]
          else []) ++
        [Part.m_dndCapabilityAgent, Part.m_visualCharacteristics,
         Part.m_equalizerCapabilityAgent]).filter
          (fun member => decide (member ∈ sampleReached.present))).map
        (fun member => Event.call (Ref.part member) Op.shutdown [])) ∧
    (∀ receiver op args,
      Event.call receiver op args ∈ teardownEvents plainFlags sampleFactories sampleReached →
        sampleReached.has receiver = true) ∧
    (sampleReached.present = [] → teardownEvents plainFlags sampleFactories sampleReached = []) :=
  ⟨by decide, by decide, by decide,
    (teardown_is_best_effort plainFlags sampleFactories).2 sampleReached (by decide)
      (by decide)⟩

/-! ## Forced exit -/

/-- C22: on a client whose audio focus manager, audio input processor,
presentation agent and template runtime are non-null, `forceExit` issues one
call, `acquireChannel` on the audio focus manager with the dialog channel name,
the client itself as observer and the interface name "Alexa.Presentation.APL";
`onFocusChanged` with FOREGROUND issues, in order, `stopForegroundActivity` on
the audio focus manager, `resetState` on the audio input processor, `clearCard`
on the presentation agent and `clearCard` on the template runtime, and nothing
else; with any other focus state it issues no call, whatever the mixing
behaviour.  None of them changes a member. -/
theorem forceExit_and_focus_change (env : Factories) (b : Build)
    (DIALOG_CHANNEL_NAME : String) (behavior : MixingBehavior)
    (hfocus : Part.m_audioFocusManager ∈ b.present)
    (hrecognizer : Part.m_audioInputProcessor ∈ b.present)
    (hpresentation : Part.m_alexaPresentation ∈ b.present)
    (htemplate : Part.m_templateRuntime ∈ b.present) :
    run env (forceExit DIALOG_CHANNEL_NAME) b =
      (Outcome.completed, b.emit
        [Event.call (Ref.part Part.m_audioFocusManager)
          (Op.acquireChannel DIALOG_CHANNEL_NAME "Alexa.Presentation.APL") [Ref.this]]) ∧
    run env (onFocusChanged FocusState.FOREGROUND behavior) b =
      (Outcome.completed, b.emit
        [Event.call (Ref.part Part.m_audioFocusManager) Op.stopForegroundActivity [],
         Event.call (Ref.part Part.m_audioInputProcessor) Op.resetState [],
         Event.call (Ref.part Part.m_alexaPresentation) Op.clearCard [],
         Event.call (Ref.part Part.m_templateRuntime) Op.clearCard []]) ∧
    ∀ newFocus, newFocus ≠ FocusState.FOREGROUND →
      run env (onFocusChanged newFocus behavior) b = (Outcome.completed, b) := by
  refine ⟨?_, ?_, ?_⟩
  · simp [forceExit, APL_INTERFACE, run, Step.exec, Build.has, hfocus]
  · simp [onFocusChanged, clearCard, run, Step.exec, Build.has, hfocus, hrecognizer,
      hpresentation, htemplate, Build.emit]
  · intro newFocus hother
    simp [onFocusChanged, hother]

/-- C22 on the client built from the sample arguments. -/
theorem forceExit_and_focus_change_witness :
    Part.m_audioFocusManager ∈ sampleBuilt.present ∧
    Part.m_audioInputProcessor ∈ sampleBuilt.present ∧
    Part.m_alexaPresentation ∈ sampleBuilt.present ∧
    Part.m_templateRuntime ∈ sampleBuilt.present ∧
    run sampleFactories (forceExit "Dialog") sampleBuilt =
      (Outcome.completed, sampleBuilt.emit
        [Event.call (Ref.part Part.m_audioFocusManager)
          (Op.acquireChannel "Dialog" "Alexa.Presentation.APL") [Ref.this]]) ∧
    run sampleFactories (onFocusChanged FocusState.FOREGROUND { value := 0 }) sampleBuilt =
      (Outcome.completed, sampleBuilt.emit
        [Event.call (Ref.part Part.m_audioFocusManager) Op.stopForegroundActivity [],
         Event.call (Ref.part Part.m_audioInputProcessor) Op.resetState [],
         Event.call (Ref.part Part.m_alexaPresentation) Op.clearCard [],
         Event.call (Ref.part Part.m_templateRuntime) Op.clearCard []]) ∧
    ∀ newFocus, newFocus ≠ FocusState.FOREGROUND →
      run sampleFactories (onFocusChanged newFocus { value := 0 }) sampleBuilt =
        (Outcome.completed, sampleBuilt) :=
  ⟨by decide, by decide, by decide, by decide,
    forceExit_and_focus_change sampleFactories sampleBuilt "Dialog" { value := 0 }
      (by decide) (by decide) (by decide) (by decide)⟩

/-! ## The firmware version -/

/-- The call of `setFirmwareVersion` once a sender is installed. -/
theorem setFirmwareVersion_installed (env : SenderAnswers) (firmwareVersion : FirmwareVersion)
    (b : Build) (h : Part.m_softwareInfoSender ∈ b.present) :
    setFirmwareVersion env firmwareVersion b =
      (env.setFirmwareVersion firmwareVersion,
        b.emit [forwardOfFirmwareVersion firmwareVersion]) := by
  simp [setFirmwareVersion, h]

/-- The effect of `setFirmwareVersion` while no sender is installed. -/
theorem setFirmwareVersion_missing (env : SenderAnswers) (firmwareVersion : FirmwareVersion)
    (b : Build) (h : Part.m_softwareInfoSender ∉ b.present) :
    (setFirmwareVersion env firmwareVersion b).1 = env.create firmwareVersion true ∧
    (Part.m_softwareInfoSender ∈ (setFirmwareVersion env firmwareVersion b).2.present ↔
      env.create firmwareVersion true = true) ∧
    (setFirmwareVersion env firmwareVersion b).2.events =
      b.events ++ Event.construct Part.m_softwareInfoSender ::
        (if env.create firmwareVersion true then []
         else [Event.log Level.ERROR "setFirmwareVersionFailed"
           "unableToCreateSoftwareInfoSender"]) := by
  cases hcreate : env.create firmwareVersion true <;>
    simp [setFirmwareVersion, h, hcreate, Build.assign, Build.emit]

/-- Once a sender is installed, a sequence of `setFirmwareVersion` calls only
forwards to it. -/
theorem setFirmwareVersionAll_installed (calls : List (SenderAnswers × FirmwareVersion)) :
    ∀ b : Build, Part.m_softwareInfoSender ∈ b.present →
      setFirmwareVersionAll calls b =
        (calls.map (fun call => call.1.setFirmwareVersion call.2),
          b.emit (calls.map (fun call => forwardOfFirmwareVersion call.2))) ∧
      installations calls b = 0 := by
  induction calls with
  | nil => intro b _; simp [setFirmwareVersionAll, installations]
  | cons call rest ih =>
    intro b h
    obtain ⟨env, firmwareVersion⟩ := call
    have hstep := setFirmwareVersion_installed env firmwareVersion b h
    obtain ⟨hrest, hnone⟩ := ih (b.emit [forwardOfFirmwareVersion firmwareVersion]) h
    constructor
    · simp [setFirmwareVersionAll, hstep, hrest]
    · simp [installations, hstep, hnone, h]

/-- A sequence of `setFirmwareVersion` calls installs at most one sender. -/
theorem installations_le_one (calls : List (SenderAnswers × FirmwareVersion)) :
    ∀ b : Build, installations calls b ≤ 1 := by
  induction calls with
  | nil => intro b; simp [installations]
  | cons call rest ih =>
    intro b
    obtain ⟨env, firmwareVersion⟩ := call
    by_cases h : Part.m_softwareInfoSender ∈ b.present
    · rw [(setFirmwareVersionAll_installed ((env, firmwareVersion) :: rest) b h).2]
      exact Nat.zero_le _
    · by_cases hcreate : env.create firmwareVersion true = true
      · have hthere := (setFirmwareVersion_missing env firmwareVersion b h).2.1.2 hcreate
        have hnone := (setFirmwareVersionAll_installed rest _ hthere).2
        simp [installations, h, hcreate, hnone]
      · have := ih (setFirmwareVersion env firmwareVersion b).2
        simp [installations, hcreate]
        exact this

/-- With an invalid firmware version `initialize` does not assign the software
info sender. -/
theorem initialize_without_sender (flags : BuildFlags) (env : Factories) (inputs : Inputs)
    (hinvalid : inputs.firmwareVersionValid = false) :
    Part.m_softwareInfoSender ∉
      (initializeClient flags env inputs (fresh inputs)).2.present := by
  have hsystem : ∀ step ∈ systemSteps flags inputs,
      step.spares [Part.m_softwareInfoSender] = true := by
    have hall : (systemSteps flags inputs).all (Step.spares [Part.m_softwareInfoSender]) =
        true := by
      simp [systemSteps, hinvalid, created, Step.failed, Step.spares, Step.target, all_ite,
        List.all_append]
    exact fun step hstep => List.all_eq_true.1 hall step hstep
  have hafter : ∀ step ∈ afterEqualizer flags inputs,
      step.spares [Part.m_softwareInfoSender] = true := by
    intro step h
    simp only [afterEqualizer, List.mem_append] at h
    rcases h with ((h | h) | h) | h
    · exact hsystem step h
    · exact Step.spares_of_subset _ _ step (by decide) (bluetoothSteps_spares inputs step h)
    · exact Step.spares_of_subset _ _ step (by decide) (endpointSteps_spares flags step h)
    · exact Step.spares_of_subset _ _ step (by decide)
        (finishingSteps_spares flags inputs step h)
  have hall : ∀ step ∈ initializeSteps flags env inputs,
      step.spares [Part.m_softwareInfoSender] = true := by
    rw [initializeSteps_split]
    exact spares_append _ _ _ (spares_narrow _ _ _ (by decide) (beforeSettings_spares inputs))
      (spares_append _ _ _
        (spares_narrow _ _ _ (by decide) (settingsToVisual_spares flags env inputs))
        (spares_append _ _ _
          (spares_narrow _ _ _ (by decide) (equalizerSteps_spares env inputs)) hafter))
  intro hin
  rw [initializeClient] at hin
  have hkept := run_keeps env [Part.m_softwareInfoSender] (initializeSteps flags env inputs)
    (fresh inputs) hall Part.m_softwareInfoSender (List.mem_singleton.2 rfl)
  exact List.not_mem_nil _ (hkept.1 hin)

/-- With a valid firmware version, the software info sender is non-null once
`initialize` has run through. -/
theorem initialize_with_sender (flags : BuildFlags) (env : Factories) (inputs : Inputs)
    (built : Build) (hvalid : inputs.firmwareVersionValid = true)
    (hrun : initializeClient flags env inputs (fresh inputs) = (Outcome.completed, built)) :
    Part.m_softwareInfoSender ∈ built.present := by
  have hsplit : initializeSteps flags env inputs =
      ((beforeSettings inputs ++ (settingsToVisual flags env inputs ++
        (equalizerSteps env inputs ++
          ([Step.call (Ref.part Part.settingsManagerBuilder)
              (Op.getSetting DeviceSettingsIndex.TIMEZONE) []] ++
            created Part.timezoneHandler "unableToCreateTimeZoneHandler" ++
            [Step.call (Ref.part Part.settingsManagerBuilder)
              (Op.getSetting DeviceSettingsIndex.LOCALE) []] ++
            created Part.localeHandler "unableToCreateLocaleHandler" ++
            [Step.call (Ref.part Part.settingsManagerBuilder) Op.getConfigurations []] ++
            created Part.reportGenerator "unableToCreateStateReportGenerator" ++
            created Part.reportStateHandler "unableToCreateReportStateHandler" ++
            created Part.systemCapabilityProvider "unableToCreateSystemCapabilityProvider" ++
            (if flags.ENABLE_REVOKE_AUTH then
              created Part.m_revokeAuthorizationHandler
                "unableToCreateRevokeAuthorizationHandler"
             else []) ++
            [Step.create Part.tempSender])))) ++
        Step.require Part.tempSender Level.ERROR "initializeFailed"
          "unableToCreateSoftwareInfoSender" :: []) ++
      (Step.store Part.m_softwareInfoSender (Ref.part Part.tempSender) ::
        (bluetoothSteps inputs ++ endpointSteps flags ++ finishingSteps flags inputs)) := by
    rw [initializeSteps_split]
    simp [afterEqualizer, systemSteps, hvalid, created, Step.failed, List.append_assoc]
  rw [initializeClient, hsplit] at hrun
  obtain ⟨middle, hmiddle, hrest⟩ := run_completed_append env _ _ _ built hrun
  have htemp : Part.tempSender ∈ middle.present :=
    run_require_kept env _ [] Part.tempSender _ _ _ _ middle (by simp) hmiddle
  have hhas : middle.has (Ref.part Part.tempSender) = true := by simp [Build.has, htemp]
  simp only [run, Step.exec, hhas] at hrest
  have hkept := run_keeps env [Part.m_softwareInfoSender]
    (bluetoothSteps inputs ++ endpointSteps flags ++ finishingSteps flags inputs)
    (middle.assign Part.m_softwareInfoSender true)
    (spares_append _ _ _
      (spares_append _ _ _
        (spares_narrow _ _ _ (by decide) (bluetoothSteps_spares inputs))
        (spares_narrow _ _ _ (by decide) (endpointSteps_spares flags)))
      (spares_narrow _ _ _ (by decide) (finishingSteps_spares flags inputs)))
    Part.m_softwareInfoSender (List.mem_singleton.2 rfl)
  rw [hrest] at hkept
  exact hkept.2 (by rw [Build.mem_assign]; exact Or.inl ⟨rfl, rfl⟩)

/-- C23: on a client `create` handed back, a software info sender is installed
exactly when the firmware version given to `create` was valid.  On any
client, a `setFirmwareVersion` call that finds no sender calls the factory with
`sendSoftwareInfoOnConnected` true, returns true exactly when the factory
yields an instance, and installs that instance; once a sender is installed,
every sequence of `setFirmwareVersion` calls constructs nothing, keeps the
members as they are, and each call returns what `setFirmwareVersion` on the
installed sender returns.  So the build and the calls that follow it install at
most one sender in all. -/
theorem setFirmwareVersion_installs_once (flags : BuildFlags) (env : Factories)
    (inputs : Inputs) (built : Build) (calls : List (SenderAnswers × FirmwareVersion))
    (hbuilt : create flags env inputs = Created.client built) :
    (Part.m_softwareInfoSender ∈ built.present ↔ inputs.firmwareVersionValid = true) ∧
    (∀ (answers : SenderAnswers) (firmwareVersion : FirmwareVersion) (b : Build),
      Part.m_softwareInfoSender ∉ b.present →
        (setFirmwareVersion answers firmwareVersion b).1 = answers.create firmwareVersion true ∧
        (Part.m_softwareInfoSender ∈ (setFirmwareVersion answers firmwareVersion b).2.present ↔
          answers.create firmwareVersion true = true)) ∧
    (∀ b : Build, Part.m_softwareInfoSender ∈ b.present →
      setFirmwareVersionAll calls b =
        (calls.map (fun call => call.1.setFirmwareVersion call.2),
          { b with events :=
              b.events ++ calls.map (fun call => forwardOfFirmwareVersion call.2) })) ∧
    (if inputs.firmwareVersionValid then 1 else 0) + installations calls built ≤ 1 := by
  obtain ⟨-, hrun⟩ := initialize_of_create_client flags env inputs built hbuilt
  have hsender : Part.m_softwareInfoSender ∈ built.present ↔
      inputs.firmwareVersionValid = true := by
    cases hvalid : inputs.firmwareVersionValid
    · have habsent := initialize_without_sender flags env inputs hvalid
      rw [hrun] at habsent
      simp [habsent]
    · simp [initialize_with_sender flags env inputs built hvalid hrun]
  refine ⟨hsender, ?_, ?_, ?_⟩
  · intro answers firmwareVersion b h
    exact ⟨(setFirmwareVersion_missing answers firmwareVersion b h).1,
      (setFirmwareVersion_missing answers firmwareVersion b h).2.1⟩
  · intro b h
    exact (setFirmwareVersionAll_installed calls b h).1
  · cases hvalid : inputs.firmwareVersionValid
    · simpa using installations_le_one calls built
    · have hthere := hsender.2 hvalid
      simp [(setFirmwareVersionAll_installed calls built hthere).2]

/-- C23 on the client built from the sample arguments with an invalid firmware
version: the first call fails to create a sender, the second installs one, and
the third and fourth are answered by the installed sender. -/
theorem setFirmwareVersion_installs_once_witness :
    create plainFlags sampleFactories sampleNoFirmware = Created.client sampleUnversioned ∧
    (setFirmwareVersionAll
      [(sampleSenderAnswers, 1), (sampleSenderAnswers, 2), (sampleSenderAnswers, 3),
       (sampleSenderAnswers, 4)] sampleUnversioned).1 = [false, true, false, true] ∧
    (if sampleNoFirmware.firmwareVersionValid then 1 else 0) +
      installations
        [(sampleSenderAnswers, 1), (sampleSenderAnswers, 2), (sampleSenderAnswers, 3),
         (sampleSenderAnswers, 4)] sampleUnversioned ≤ 1 :=
  ⟨by decide, by decide,
    (setFirmwareVersion_installs_once plainFlags sampleFactories sampleNoFirmware
      sampleUnversioned
      [(sampleSenderAnswers, 1), (sampleSenderAnswers, 2), (sampleSenderAnswers, 3),
       (sampleSenderAnswers, 4)] (by decide)).2.2.2⟩

/-! ## Channel volume interfaces -/

/-- The interfaces a list of `createChannelVolumeInterface` calls returns. -/
theorem channelVolume_created (type : Option ChannelVolumeType) (speakers : List Ref) :
    (speakers.map (createChannelVolumeInterface type)).filterMap Step.channelVolume =
      speakers.map (fun speaker => { speaker := speaker, type := type }) := by
  induction speakers with
  | nil => rfl
  | cons speaker rest ih =>
    simp only [List.map_cons, List.filterMap_cons, createChannelVolumeInterface,
      Step.channelVolume]
    exact congrArg _ ih

/-- C28: with `ENABLE_PCC`, `ENABLE_MCC` and `ENABLE_COMMS_AUDIO_PROXY` off, the
list `SpeakerManager::create` is handed is, in order: the interfaces of the
speak and system sound speakers, of the additional speakers of type
AVS_SPEAKER_VOLUME, of the audio speakers, of the bluetooth and ringtone
speakers, all created without a type argument, then those of the alerts and
notifications speakers and of the additional speakers of type
AVS_ALERTS_VOLUME, all created with type AVS_ALERTS_VOLUME.  Its length is 6
plus the number of audio speakers plus the number of additional speakers of
those two types.  `AudioPlayer::create` is handed the interfaces of the audio
speakers.  The list is the list of the interfaces the
`createChannelVolumeInterface` calls of `initialize` return, in call order. -/
theorem speaker_manager_channel_volumes (flags : BuildFlags) (inputs : Inputs)
    (hpcc : flags.ENABLE_PCC = false) (hmcc : flags.ENABLE_MCC = false)
    (hproxy : flags.ENABLE_COMMS_AUDIO_PROXY = false) :
    speakerManagerChannelVolumeInterfaces flags inputs =
      [{ speaker := Ref.input Input.speakSpeaker, type := none },
       { speaker := Ref.input Input.systemSoundSpeaker, type := none }] ++
      (additionalOfType ChannelVolumeType.AVS_SPEAKER_VOLUME inputs).map
        (fun speaker => { speaker := Ref.element speaker, type := none }) ++
      inputs.audioSpeakers.map
        (fun speaker => { speaker := Ref.element speaker, type := none }) ++
      [{ speaker := Ref.input Input.bluetoothSpeaker, type := none },
       { speaker := Ref.input Input.ringtoneSpeaker, type := none },
       { speaker := Ref.input Input.alertsSpeaker,
         type := some ChannelVolumeType.AVS_ALERTS_VOLUME },
       { speaker := Ref.input Input.notificationsSpeaker,
         type := some ChannelVolumeType.AVS_ALERTS_VOLUME }] ++
      (additionalOfType ChannelVolumeType.AVS_ALERTS_VOLUME inputs).map
        (fun speaker =>
          { speaker := Ref.element speaker,
            type := some ChannelVolumeType.AVS_ALERTS_VOLUME }) ∧
    (speakerManagerChannelVolumeInterfaces flags inputs).length =
      6 + inputs.audioSpeakers.length +
        (additionalOfType ChannelVolumeType.AVS_SPEAKER_VOLUME inputs).length +
        (additionalOfType ChannelVolumeType.AVS_ALERTS_VOLUME inputs).length ∧
    audioPlayerChannelVolumeInterfaces inputs =
      inputs.audioSpeakers.map
        (fun speaker => { speaker := Ref.element speaker, type := none }) ∧
    (speakerSteps flags inputs).filterMap Step.channelVolume =
      speakerManagerChannelVolumeInterfaces flags inputs := by
  have havs : (fun entry : ChannelVolumeType × Component =>
      decide (ChannelVolumeType.AVS_SPEAKER_VOLUME = entry.1)) =
      (fun entry => decide (entry.1 = ChannelVolumeType.AVS_SPEAKER_VOLUME)) := by
    funext entry
    simp [eq_comm]
  have halerts : (fun entry : ChannelVolumeType × Component =>
      !decide (ChannelVolumeType.AVS_SPEAKER_VOLUME = entry.1) &&
        decide (ChannelVolumeType.AVS_ALERTS_VOLUME = entry.1)) =
      (fun entry => decide (entry.1 = ChannelVolumeType.AVS_ALERTS_VOLUME)) := by
    funext entry
    by_cases h : entry.1 = ChannelVolumeType.AVS_ALERTS_VOLUME
    · simp [h]
    · have h2 : ¬ ChannelVolumeType.AVS_ALERTS_VOLUME = entry.1 := fun h3 => h h3.symm
      simp [h, h2]
  have hlist : speakerManagerChannelVolumeInterfaces flags inputs =
      [{ speaker := Ref.input Input.speakSpeaker, type := none },
       { speaker := Ref.input Input.systemSoundSpeaker, type := none }] ++
      (additionalOfType ChannelVolumeType.AVS_SPEAKER_VOLUME inputs).map
        (fun speaker => { speaker := Ref.element speaker, type := none }) ++
      inputs.audioSpeakers.map
        (fun speaker => { speaker := Ref.element speaker, type := none }) ++
      [{ speaker := Ref.input Input.bluetoothSpeaker, type := none },
       { speaker := Ref.input Input.ringtoneSpeaker, type := none },
       { speaker := Ref.input Input.alertsSpeaker,
         type := some ChannelVolumeType.AVS_ALERTS_VOLUME },
       { speaker := Ref.input Input.notificationsSpeaker,
         type := some ChannelVolumeType.AVS_ALERTS_VOLUME }] ++
      (additionalOfType ChannelVolumeType.AVS_ALERTS_VOLUME inputs).map
        (fun speaker =>
          { speaker := Ref.element speaker,
            type := some ChannelVolumeType.AVS_ALERTS_VOLUME }) := by
    simp [speakerManagerChannelVolumeInterfaces, allChannelVolumeInterfaces,
      allAvsChannelVolumeInterfaces, allAlertChannelVolumeInterfaces,
      audioChannelVolumeInterfaces, allAvsSpeakers, allAlertSpeakers, additionalOfType, hpcc,
      hmcc, hproxy, havs, halerts, List.map_append, List.map_map, Function.comp]
    rfl
  refine ⟨hlist, ?_, rfl, ?_⟩
  · rw [hlist]
    simp only [List.length_append, List.length_map, List.length_cons, List.length_nil]
    omega
  · have haudio : inputs.audioSpeakers.map (fun speaker =>
        createChannelVolumeInterface none (Ref.element speaker)) =
        (inputs.audioSpeakers.map Ref.element).map (createChannelVolumeInterface none) := by
      simp [List.map_map, Function.comp]
    have hpair : [createChannelVolumeInterface none (Ref.input Input.bluetoothSpeaker),
        createChannelVolumeInterface none (Ref.input Input.ringtoneSpeaker)] =
        [Ref.input Input.bluetoothSpeaker, Ref.input Input.ringtoneSpeaker].map
          (createChannelVolumeInterface none) := rfl
    have hmanager : (created Part.m_speakerManager "unableToCreateSpeakerManager").filterMap
        Step.channelVolume = [] := rfl
    simp only [speakerSteps, haudio, hpair, List.filterMap_append, channelVolume_created,
      hmanager, List.append_nil]
    simp [speakerManagerChannelVolumeInterfaces, allChannelVolumeInterfaces,
      allAvsChannelVolumeInterfaces, allAlertChannelVolumeInterfaces,
      audioChannelVolumeInterfaces, List.map_map, Function.comp]

/-- C28 on the sample arguments with three additional speakers, of type
AVS_SPEAKER_VOLUME, of type AVS_ALERTS_VOLUME and of another type: the last is
dropped. -/
theorem speaker_manager_channel_volumes_witness :
    plainFlags.ENABLE_PCC = false ∧ plainFlags.ENABLE_MCC = false ∧
    plainFlags.ENABLE_COMMS_AUDIO_PROXY = false ∧
    speakerManagerChannelVolumeInterfaces plainFlags sampleWithAdditional =
      [{ speaker := Ref.input Input.speakSpeaker, type := none },
       { speaker := Ref.input Input.systemSoundSpeaker, type := none },
       { speaker := Ref.element { id := 110 }, type := none },
       { speaker := Ref.element { id := 101 }, type := none },
       { speaker := Ref.input Input.bluetoothSpeaker, type := none },
       { speaker := Ref.input Input.ringtoneSpeaker, type := none },
       { speaker := Ref.input Input.alertsSpeaker,
         type := some ChannelVolumeType.AVS_ALERTS_VOLUME },
       { speaker := Ref.input Input.notificationsSpeaker,
         type := some ChannelVolumeType.AVS_ALERTS_VOLUME },
       { speaker := Ref.element { id := 111 },
         type := some ChannelVolumeType.AVS_ALERTS_VOLUME }] ∧
    (speakerManagerChannelVolumeInterfaces plainFlags sampleWithAdditional).length =
      6 + sampleWithAdditional.audioSpeakers.length +
        (additionalOfType ChannelVolumeType.AVS_SPEAKER_VOLUME sampleWithAdditional).length +
        (additionalOfType ChannelVolumeType.AVS_ALERTS_VOLUME sampleWithAdditional).length :=
  ⟨rfl, rfl, rfl, by decide,
    (speaker_manager_channel_volumes plainFlags sampleWithAdditional rfl rfl rfl).2.1⟩

/-! ## Registrations on the default endpoint builder -/

/-- A run that runs through issues the call of each of its unguarded call
statements: an event occurs at least as often as before plus the number of
statements `receiver->op(args)` that issue it. -/
theorem run_completed_count (env : Factories) (receiver : Ref) (op : Op) (args : List Ref)
    (steps : List Step) :
    ∀ b final : Build, run env steps b = (Outcome.completed, final) →
      b.events.count (Event.call receiver op args) +
          steps.count (Step.call receiver op args) ≤
        final.events.count (Event.call receiver op args) := by
  induction steps with
  | nil =>
    intro b final h
    simp only [run, Prod.mk.injEq, true_and] at h
    subst h
    simp
  | cons step rest ih =>
    intro b final h
    simp only [run] at h
    rcases hexec : step.exec env b with ⟨outcome, next⟩
    rw [hexec] at h
    cases outcome
    · have hrest := ih next final h
      have hstep : b.events.count (Event.call receiver op args) +
          (if step = Step.call receiver op args then 1 else 0) ≤
            next.events.count (Event.call receiver op args) := by
        by_cases hsame : step = Step.call receiver op args
        · subst hsame
          simp only [Step.exec] at hexec
          split at hexec
          · simp only [Prod.mk.injEq, true_and] at hexec
            subst hexec
            simp [Build.emit]
          · cases hexec
        · obtain ⟨events, hevents, -⟩ := Step.exec_extends env b step
          rw [hexec] at hevents
          simp only at hevents
          simp [hsame, hevents, List.count_append]
      rw [List.count_cons]
      by_cases hsame : step = Step.call receiver op args
      · simp only [hsame, if_true] at hstep
        simp only [hsame, beq_self_eq_true, if_true]
        omega
      · have hne : (step == Step.call receiver op args) = false := by simpa using hsame
        simp only [hsame, if_false] at hstep
        simp only [hne]
        simp only [Bool.false_eq_true, if_false]
        omega
    · cases h
    · cases h

/-- The statements of `initialize` register the interaction model agent on the
default endpoint builder twice. -/
theorem initializeSteps_register_twice (flags : BuildFlags) (env : Factories)
    (inputs : Inputs) :
    2 ≤ (initializeSteps flags env inputs).count
      (withCapability Part.m_interactionCapabilityAgent) := by
  have hstretch : List.count (withCapability Part.m_interactionCapabilityAgent)
      [withCapability Part.m_speakerManager,
       withCapability Part.m_interactionCapabilityAgent,
       withCapability Part.m_alexaPresentation,
       withCapability Part.m_templateRuntime,
       withCapabilityConfiguration Part.m_visualActivityTracker,
       withCapability Part.m_notificationsCapabilityAgent,
       withCapability Part.m_interactionCapabilityAgent] = 2 := by decide
  simp only [initializeSteps, endpointSteps, List.count_append, hstretch]
  omega

/-- C30: whenever `create` hands back an instance, `initialize` has called
`withCapability(m_interactionCapabilityAgent, m_interactionCapabilityAgent)` on
the default endpoint builder at least twice: the interaction model agent is
registered more than once. -/
theorem create_registers_interaction_agent_twice (flags : BuildFlags) (env : Factories)
    (inputs : Inputs) (built : Build)
    (hbuilt : create flags env inputs = Created.client built) :
    2 ≤ built.events.count
      (Event.call (Ref.part Part.m_defaultEndpointBuilder) Op.withCapability
        [Ref.part Part.m_interactionCapabilityAgent,
         Ref.part Part.m_interactionCapabilityAgent]) := by
  obtain ⟨-, hrun⟩ := initialize_of_create_client flags env inputs built hbuilt
  have hcount := run_completed_count env (Ref.part Part.m_defaultEndpointBuilder)
    Op.withCapability
    [Ref.part Part.m_interactionCapabilityAgent, Ref.part Part.m_interactionCapabilityAgent]
    (initializeSteps flags env inputs) (fresh inputs) built hrun
  have hsteps := initializeSteps_register_twice flags env inputs
  simp only [withCapability] at hsteps
  omega

/-- C30 on the client built from the sample arguments with every optional
feature compiled in: the agents registered by `withCapability`, in order. -/
theorem create_registers_interaction_agent_twice_witness :
    create allFlags sampleFactories sampleInputs = Created.client sampleBuilt ∧
    sampleBuilt.events.filterMap Event.registered =
      [Ref.part Part.m_speechSynthesizer, Ref.part Part.m_audioPlayer,
       Ref.part Part.m_externalMediaPlayer, Ref.part Part.m_audioInputProcessor,
       Ref.part Part.m_alertsCapabilityAgent, Ref.part Part.m_apiGatewayCapabilityAgent,
       Ref.part Part.m_alexaCapabilityAgent, Ref.part Part.m_phoneCallControllerCapabilityAgent,
       Ref.part Part.m_meetingClientControllerCapabilityAgent, Ref.part Part.m_speakerManager,
       Ref.part Part.m_interactionCapabilityAgent, Ref.part Part.m_alexaPresentation,
       Ref.part Part.m_templateRuntime, Ref.part Part.m_notificationsCapabilityAgent,
       Ref.part Part.m_interactionCapabilityAgent, Ref.part Part.m_callManager,
       Ref.part Part.m_bluetooth, Ref.part Part.m_mrmCapabilityAgent,
       Ref.part Part.m_equalizerCapabilityAgent, Ref.part Part.m_dndCapabilityAgent] ∧
    2 ≤ sampleBuilt.events.count
      (Event.call (Ref.part Part.m_defaultEndpointBuilder) Op.withCapability
        [Ref.part Part.m_interactionCapabilityAgent,
         Ref.part Part.m_interactionCapabilityAgent]) :=
  ⟨by decide, by decide,
    create_registers_interaction_agent_twice allFlags sampleFactories sampleInputs sampleBuilt
      (by decide)⟩

/-! ## Construction steps whose failure ends `initialize` -/

/-- Reading `InOrder`: at each entry that is compiled in, the statements split
into statements that assign neither the entry's member nor those of the entries
to come, the entry's construction and test, and the rest. -/
theorem InOrder.split (pending : List (Part × String × Bool)) (steps : List Step)
    (h : InOrder pending steps) :
    ∀ front part reason back, pending = front ++ (part, reason, true) :: back →
      part ∉ back.map (fun entry => entry.1) ∧
      ∃ before after, steps = before ++ (created part reason ++ after) ∧
        before.all (Step.spares (part :: back.map (fun entry => entry.1))) = true := by
  induction h with
  | done steps =>
    intro front part reason back hsplit
    simp at hsplit
  | skip pending chunk rest hchunk _ ih =>
    intro front part reason back hsplit
    obtain ⟨hnew, before, after, hrest, hbefore⟩ := ih front part reason back hsplit
    refine ⟨hnew, chunk ++ before, after, by simp [hrest], ?_⟩
    rw [List.all_append, hbefore, Bool.and_true]
    apply List.all_eq_true.2
    intro step hstep
    refine Step.spares_of_subset _ _ step ?_ (List.all_eq_true.1 hchunk step hstep)
    intro p hp
    subst hsplit
    simp only [List.mem_cons, List.mem_map] at hp
    simp only [List.map_append, List.map_cons, List.mem_append, List.mem_cons, List.mem_map]
    rcases hp with rfl | ⟨entry, hentry, rfl⟩
    · exact Or.inr (Or.inl rfl)
    · exact Or.inr (Or.inr ⟨entry, hentry, rfl⟩)
  | here p r pending rest hnot _ ih =>
    intro front part reason back hsplit
    cases front with
    | nil =>
      simp only [List.nil_append, List.cons.injEq, Prod.mk.injEq] at hsplit
      obtain ⟨⟨rfl, rfl, -⟩, rfl⟩ := hsplit
      exact ⟨hnot, [], rest, rfl, rfl⟩
    | cons head front =>
      simp only [List.cons_append, List.cons.injEq] at hsplit
      obtain ⟨-, hpending⟩ := hsplit
      obtain ⟨hnew, before, after, hrest, hbefore⟩ := ih front part reason back hpending
      refine ⟨hnew, created p r ++ before, after, by simp [hrest], ?_⟩
      rw [List.all_append, hbefore, Bool.and_true]
      have hp : p ∉ part :: back.map (fun entry => entry.1) := by
        intro hin
        apply hnot
        subst hpending
        simp only [List.mem_cons, List.mem_map] at hin
        simp only [List.map_append, List.map_cons, List.mem_append, List.mem_cons, List.mem_map]
        rcases hin with rfl | ⟨entry, hentry, rfl⟩
        · exact Or.inr (Or.inl rfl)
        · exact Or.inr (Or.inr ⟨entry, hentry, rfl⟩)
      simp [created, Step.failed, Step.spares, Step.target]
      simpa using hp
  | absent p r pending rest _ ih =>
    intro front part reason back hsplit
    cases front with
    | nil =>
      simp only [List.nil_append, List.cons.injEq, Prod.mk.injEq] at hsplit
      obtain ⟨⟨-, -, h⟩, -⟩ := hsplit
      cases h
    | cons head front =>
      simp only [List.cons_append, List.cons.injEq] at hsplit
      exact ih front part reason back hsplit.2

/-- A conditionally compiled block with one tested construction step. -/
theorem InOrder.cond1 (c : Bool) (part : Part) (reason : String)
    (pending : List (Part × String × Bool)) (pre post rest : List Step)
    (hnew : part ∉ pending.map (fun entry => entry.1))
    (hpre : pre.all (Step.spares (part :: pending.map (fun entry => entry.1))) = true)
    (hpost : post.all (Step.spares (pending.map (fun entry => entry.1))) = true)
    (h : InOrder pending rest) :
    InOrder ((part, reason, c) :: pending)
      ((if c = true then pre ++ (created part reason ++ post) else []) ++ rest) := by
  cases c
  · exact InOrder.absent _ _ _ _ h
  · have hstep := InOrder.skip ((part, reason, true) :: pending) pre _ hpre
      (InOrder.here part reason pending _ hnew (InOrder.skip pending post _ hpost h))
    simpa [List.append_assoc] using hstep

/-- A conditionally compiled tested construction step. -/
theorem InOrder.cond0 (c : Bool) (part : Part) (reason : String)
    (pending : List (Part × String × Bool)) (rest : List Step)
    (hnew : part ∉ pending.map (fun entry => entry.1)) (h : InOrder pending rest) :
    InOrder ((part, reason, c) :: pending)
      ((if c = true then created part reason else []) ++ rest) := by
  cases c
  · exact InOrder.absent _ _ _ _ h
  · exact InOrder.here part reason pending _ hnew h

/-- A conditionally compiled tested construction step with statements after it. -/
theorem InOrder.cond1a (c : Bool) (part : Part) (reason : String)
    (pending : List (Part × String × Bool)) (post rest : List Step)
    (hnew : part ∉ pending.map (fun entry => entry.1))
    (hpost : post.all (Step.spares (pending.map (fun entry => entry.1))) = true)
    (h : InOrder pending rest) :
    InOrder ((part, reason, c) :: pending)
      ((if c = true then created part reason ++ post else []) ++ rest) := by
  cases c
  · exact InOrder.absent _ _ _ _ h
  · have hstep := InOrder.here part reason pending _ hnew (InOrder.skip pending post _ hpost h)
    simpa [List.append_assoc] using hstep

/-- A conditionally compiled block with two tested construction steps in a row. -/
theorem InOrder.cond2a (c : Bool) (first second : Part) (reason other : String)
    (pending : List (Part × String × Bool)) (post rest : List Step)
    (hfirst : first ∉ second :: pending.map (fun entry => entry.1))
    (hsecond : second ∉ pending.map (fun entry => entry.1))
    (hpost : post.all (Step.spares (pending.map (fun entry => entry.1))) = true)
    (h : InOrder pending rest) :
    InOrder ((first, reason, c) :: (second, other, c) :: pending)
      ((if c = true then created first reason ++ (created second other ++ post) else []) ++
        rest) := by
  cases c
  · exact InOrder.absent _ _ _ _ (InOrder.absent _ _ _ _ h)
  · have hstep := InOrder.here first reason ((second, other, true) :: pending) _ hfirst
      (InOrder.here second other pending _ hsecond (InOrder.skip pending post _ hpost h))
    simpa [List.append_assoc] using hstep

/-- A block with two tested construction steps that depends on an argument. -/
theorem InOrder.cond2p (c : Prop) [Decidable c] (first second : Part) (reason other : String)
    (pending : List (Part × String × Bool)) (pre mid post rest : List Step)
    (hfirst : first ∉ second :: pending.map (fun entry => entry.1))
    (hsecond : second ∉ pending.map (fun entry => entry.1))
    (hpre : pre.all (Step.spares (first :: second :: pending.map (fun entry => entry.1))) = true)
    (hmid : mid.all (Step.spares (second :: pending.map (fun entry => entry.1))) = true)
    (hpost : post.all (Step.spares (pending.map (fun entry => entry.1))) = true)
    (h : InOrder pending rest) :
    InOrder ((first, reason, decide c) :: (second, other, decide c) :: pending)
      ((if c then
          pre ++ (created first reason ++ (mid ++ (created second other ++ post)))
        else []) ++ rest) := by
  by_cases hc : c
  · have hstep := InOrder.skip ((first, reason, true) :: (second, other, true) :: pending) pre _
      hpre
      (InOrder.here first reason ((second, other, true) :: pending) _ hfirst
        (InOrder.skip ((second, other, true) :: pending) mid _ hmid
          (InOrder.here second other pending _ hsecond (InOrder.skip pending post _ hpost h))))
    simpa [hc, List.append_assoc] using hstep
  · simpa [hc] using InOrder.absent first reason _ _ (InOrder.absent second other _ _ h)

/-- Statements made from the elements of a collection, none of which assigns. -/
theorem all_spares_map {α : Type} (parts : List Part) (f : α → Step) (l : List α)
    (h : ∀ a, (f a).target = none) : (l.map f).all (Step.spares parts) = true := by
  apply List.all_eq_true.2
  intro step hstep
  obtain ⟨a, -, rfl⟩ := List.mem_map.1 hstep
  simp [Step.spares, h a]

/-- A conditionally compiled list of statements that assign none of some members. -/
theorem all_spares_ite (c : Prop) [Decidable c] (parts : List Part) (steps : List Step)
    (h : steps.all (Step.spares parts) = true) :
    (if c then steps else []).all (Step.spares parts) = true := by
  by_cases hc : c <;> simp [hc, h]

/-- Reading a member off a list of other members. -/
theorem not_mem_of_all {parts : List Part} {part : Part}
    (h : parts.all (fun other => decide (other ≠ part)) = true) : part ∉ parts := by
  intro hin
  simpa using List.all_eq_true.1 h part hin

/-- The statements of `initialize` contain the tested construction steps in
the order of `testedSteps`, each as `part = create(...); if (!part) { LOG;
return false; }`, and no statement before one of them assigns its member or the
member of a later one. -/
theorem initializeSteps_inOrder (flags : BuildFlags) (env : Factories) (inputs : Inputs) :
    InOrder (testedSteps flags inputs) (initializeSteps flags env inputs) := by
  simp only [initializeSteps, validationSteps, transportSteps, settingsSteps, focusSteps,
    speechSteps, speakerSteps, playerSteps, telephonySteps, mediaSteps, visualSteps,
    equalizerSteps, systemSteps, bluetoothSteps, endpointSteps, finishingSteps, testedSteps,
    List.append_assoc]
  repeat
    first
    | exact InOrder.done _
    | refine InOrder.here _ _ _ _ (not_mem_of_all rfl) ?_
    | refine InOrder.skip _ _ _ rfl ?_
    | refine InOrder.skip _ _ _ (all_spares_map _ _ _ (fun _ => rfl)) ?_
    | refine InOrder.skip _ _ _ (all_spares_ite _ _ _ rfl) ?_
    | refine InOrder.cond0 _ _ _ _ _ (not_mem_of_all rfl) ?_
    | refine InOrder.cond1a _ _ _ _ _ _ (not_mem_of_all rfl) rfl ?_
    | refine InOrder.cond1 _ _ _ _ _ _ _ (not_mem_of_all rfl) rfl (by
        simp [List.all_cons, List.all_nil, List.all_append, List.all_map, all_ite, Function.comp,
          Step.spares, Step.target]) ?_
    | refine InOrder.cond2a _ _ _ _ _ _ _ _ (not_mem_of_all rfl) (not_mem_of_all rfl) rfl ?_
    | refine InOrder.cond2p _ _ _ _ _ _ _ _ _ _ (not_mem_of_all rfl) (not_mem_of_all rfl) rfl rfl
        (by
          simp [List.all_cons, List.all_nil, List.all_append, List.all_map, all_ite,
            Function.comp, Step.spares, Step.target]) ?_

/-- When `initialize` returns false on the candidate `create` allocated,
`create` hands back null. -/
theorem create_of_aborted (flags : BuildFlags) (env : Factories) (inputs : Inputs)
    (candidate : Build) (hdevice : Input.deviceInfo ∈ inputs.provided)
    (h : initializeClient flags env inputs (fresh inputs) = (Outcome.aborted, candidate)) :
    create flags env inputs =
      Created.null (candidate.emit (teardownEvents flags env candidate)) := by
  have hdnd := initialize_dnd_has_manager flags env inputs
  have hequalizer := initialize_equalizer_has_parts flags env inputs
  rw [h] at hdnd hequalizer
  obtain ⟨-, hrun⟩ := teardownEvents_closed_form flags env candidate hdnd
    (fun hin => ⟨(hequalizer hin).2, (hequalizer hin).1⟩)
  simp only [create, hdevice, if_true, h, hrun]

/-- A statement that does not assign `p` does the same whether or not the
factory of `p` yields an instance. -/
theorem Step.exec_failing_spares (env : Factories) (p : Part) (step : Step) (b : Build)
    (h : step.spares [p] = true) : step.exec (env.failing p) b = step.exec env b := by
  cases step with
  | create part =>
    have hne : part ≠ p := by simpa [Step.spares, Step.target] using h
    simp [Step.exec, Factories.failing, hne]
  | obtain part =>
    have hne : part ≠ p := by simpa [Step.spares, Step.target] using h
    simp [Step.exec, Factories.failing, hne]
  | _ => rfl

/-- Statements that do not assign `p` run the same whether or not the factory
of `p` yields an instance. -/
theorem run_failing_spares (env : Factories) (p : Part) (steps : List Step) :
    ∀ b : Build, (∀ step ∈ steps, step.spares [p] = true) →
      run (env.failing p) steps b = run env steps b := by
  induction steps with
  | nil => intro b _; rfl
  | cons step rest ih =>
    intro b hsteps
    simp only [run, Step.exec_failing_spares env p step b (hsteps step (List.mem_cons_self _ _))]
    rcases step.exec env b with ⟨outcome, next⟩
    cases outcome
    · exact ih next (fun s hs => hsteps s (List.mem_cons_of_mem _ hs))
    · rfl
    · rfl

/-- When `create` hands back an instance and then, everything else equal, the
factory of one tested construction step yields nothing, `initialize` reaches
that step, logs its reason and returns false, and `create` hands back null. -/
theorem create_aborts_when_failing (flags : BuildFlags) (env : Factories) (inputs : Inputs)
    (built : Build) (front : List (Part × String × Bool)) (part : Part) (reason : String)
    (back : List (Part × String × Bool))
    (hsplit : testedSteps flags inputs = front ++ (part, reason, true) :: back)
    (hbuilt : create flags env inputs = Created.client built) :
    (initializeClient flags (env.failing part) inputs (fresh inputs)).1 = Outcome.aborted ∧
    (∃ earlier, (initializeClient flags (env.failing part) inputs (fresh inputs)).2.events =
      earlier ++ [Event.construct part, Event.log Level.ERROR "initializeFailed" reason]) ∧
    (create flags (env.failing part) inputs).isNull = true := by
  obtain ⟨hdevice, hrun⟩ := initialize_of_create_client flags env inputs built hbuilt
  obtain ⟨hnew, before, after, hsteps, hbefore⟩ := InOrder.split _ _
    (initializeSteps_inOrder flags env inputs) front part reason back hsplit
  have hsame : initializeSteps flags (env.failing part) inputs =
      initializeSteps flags env inputs := rfl
  rw [initializeClient, hsteps] at hrun
  obtain ⟨reached, hreached, -⟩ := run_completed_append env before _ _ built hrun
  have hspares : ∀ step ∈ before, step.spares [part] = true := by
    intro step hstep
    exact Step.spares_of_subset _ _ step (by simp) (List.all_eq_true.1 hbefore step hstep)
  have hfails : (env.failing part).creates part = false := by
    simp [Factories.failing]
  have habsent : part ∉ (reached.assign part false).present := by
    simp [Build.assign]
  have hstop : initializeClient flags (env.failing part) inputs (fresh inputs) =
      (Outcome.aborted, (reached.assign part false).emit
        [Event.construct part, Event.log Level.ERROR "initializeFailed" reason]) := by
    rw [initializeClient, hsame, hsteps, run_append_completed (env.failing part) before _ _ reached
      ((run_failing_spares env part before _ hspares).trans hreached)]
    simp [created, Step.failed, run, Step.exec, hfails, Build.emit, habsent]
  rw [hstop]
  refine ⟨rfl, ⟨reached.events, by simp [Build.emit, Build.assign]⟩, ?_⟩
  rw [create_of_aborted flags (env.failing part) inputs _ hdevice hstop]
  rfl

/-- C16: the code does not tolerate the failure of every optional component.
Take any arguments and factory answers with which `create` hands back an
instance.  If then, everything else equal, `CallManager::create` fails (with
ENABLE_COMMS), or the factory of the multi-room-music handler or of the
multi-room-music agent yields nothing (with ENABLE_MRM), `initialize` logs
the failure and returns false, and `create` hands back null, although the
source itself calls the CallManager optional (line 1369).  Only the failure
of the phone call controller, of the meeting client controller or of the
caption manager is tolerated: `create` still hands back an instance, with that
member null and every other member as before. -/
theorem create_aborts_on_optional_failure (flags : BuildFlags) (env : Factories)
    (inputs : Inputs) (built : Build) (hbuilt : create flags env inputs = Created.client built) :
    (flags.ENABLE_COMMS = true →
      (initializeClient flags (env.failing Part.callManagerInstance) inputs
        (fresh inputs)).1 = Outcome.aborted ∧
      (∃ earlier, (initializeClient flags (env.failing Part.callManagerInstance) inputs
          (fresh inputs)).2.events = earlier ++
            [Event.construct Part.callManagerInstance,
             Event.log Level.ERROR "initializeFailed" "unableToCreateCallManager"]) ∧
      (create flags (env.failing Part.callManagerInstance) inputs).isNull = true) ∧
    (flags.ENABLE_MRM = true →
      ((initializeClient flags (env.failing Part.mrmHandler) inputs
          (fresh inputs)).1 = Outcome.aborted ∧
        (∃ earlier, (initializeClient flags (env.failing Part.mrmHandler) inputs
            (fresh inputs)).2.events = earlier ++
              [Event.construct Part.mrmHandler,
               Event.log Level.ERROR "initializeFailed" "Unable to create mrmHandler."]) ∧
        (create flags (env.failing Part.mrmHandler) inputs).isNull = true) ∧
      ((initializeClient flags (env.failing Part.m_mrmCapabilityAgent) inputs
          (fresh inputs)).1 = Outcome.aborted ∧
        (∃ earlier, (initializeClient flags (env.failing Part.m_mrmCapabilityAgent) inputs
            (fresh inputs)).2.events = earlier ++
              [Event.construct Part.m_mrmCapabilityAgent,
               Event.log Level.ERROR "initializeFailed" "unableToCreateMRMCapabilityAgent"]) ∧
        (create flags (env.failing Part.m_mrmCapabilityAgent) inputs).isNull = true)) ∧
    (∀ p ∈ [Part.m_phoneCallControllerCapabilityAgent,
        Part.m_meetingClientControllerCapabilityAgent, Part.m_captionManager],
      ∃ other, create flags (env.failing p) inputs = Created.client other ∧
        p ∉ other.present ∧ ∀ q, q ≠ p → (q ∈ other.present ↔ q ∈ built.present)) := by
  refine ⟨?_, ?_, ?_⟩
  · intro hcomms
    refine create_aborts_when_failing flags env inputs built
      ((testedSteps flags inputs).take 20) _ _ ((testedSteps flags inputs).drop 21) ?_ hbuilt
    unfold testedSteps
    rw [hcomms]
    rfl
  · intro hmrm
    constructor
    · refine create_aborts_when_failing flags env inputs built
        ((testedSteps flags inputs).take 22) _ _ ((testedSteps flags inputs).drop 23) ?_ hbuilt
      unfold testedSteps
      rw [hmrm]
      rfl
    · refine create_aborts_when_failing flags env inputs built
        ((testedSteps flags inputs).take 23) _ _ ((testedSteps flags inputs).drop 24) ?_ hbuilt
      unfold testedSteps
      rw [hmrm]
      rfl
  · intro p hp
    obtain ⟨hdevice, hrun⟩ := initialize_of_create_client flags env inputs built hbuilt
    obtain ⟨other, hother, hagree⟩ := run_failing env p (initializeSteps flags env inputs)
      (fresh inputs) (fresh inputs) built (initializeSteps_insensitive flags env inputs p hp)
      ⟨rfl, by simp [fresh], fun _ _ => Iff.rfl⟩ hrun
    have hsame : initializeClient flags (env.failing p) inputs (fresh inputs) =
        (Outcome.completed, other) := hother
    exact ⟨other, by simp only [create, hdevice, if_true, hsame], hagree.2.1, hagree.2.2⟩

/-- C16 on the sample arguments with every optional feature compiled in: every
factory succeeding, `create` hands back an instance; with a failing
`CallManager::create`, a failing multi-room-music handler or agent, it hands
back null; with a failing caption manager it hands back an instance. -/
theorem create_aborts_on_optional_failure_witness :
    create allFlags sampleFactories sampleInputs = Created.client sampleBuilt ∧
    allFlags.ENABLE_COMMS = true ∧ allFlags.ENABLE_MRM = true ∧
    ((initializeClient allFlags (sampleFactories.failing Part.callManagerInstance) sampleInputs
        (fresh sampleInputs)).1 = Outcome.aborted ∧
      (∃ earlier, (initializeClient allFlags (sampleFactories.failing Part.callManagerInstance)
          sampleInputs (fresh sampleInputs)).2.events = earlier ++
            [Event.construct Part.callManagerInstance,
             Event.log Level.ERROR "initializeFailed" "unableToCreateCallManager"]) ∧
      (create allFlags (sampleFactories.failing Part.callManagerInstance) sampleInputs).isNull =
        true) ∧
    (create allFlags (sampleFactories.failing Part.mrmHandler) sampleInputs).isNull = true ∧
    (create allFlags (sampleFactories.failing Part.m_mrmCapabilityAgent) sampleInputs).isNull =
      true ∧
    ∃ other, create allFlags (sampleFactories.failing Part.m_captionManager) sampleInputs =
        Created.client other ∧
      Part.m_captionManager ∉ other.present ∧
      ∀ q, q ≠ Part.m_captionManager → (q ∈ other.present ↔ q ∈ sampleBuilt.present) :=
  ⟨by decide, by decide, by decide,
    (create_aborts_on_optional_failure allFlags sampleFactories sampleInputs sampleBuilt
      (by decide)).1 (by decide),
    ((create_aborts_on_optional_failure allFlags sampleFactories sampleInputs sampleBuilt
      (by decide)).2.1 (by decide)).1.2.2,
    ((create_aborts_on_optional_failure allFlags sampleFactories sampleInputs sampleBuilt
      (by decide)).2.1 (by decide)).2.2.2,
    (create_aborts_on_optional_failure allFlags sampleFactories sampleInputs sampleBuilt
      (by decide)).2.2 Part.m_captionManager (by decide)⟩

/-! ## Every interleaving of concurrent calls of connect -/

/-- The threads at entry of `connect(true)` on a client that has issued no call. -/
theorem ConnectInvariant.start (c : SmartScreenClient) (n : Nat) :
    ConnectInvariant c.m_defaultEndpointBuilder.isNone (List.replicate n ConnectPoint.entry)
      (start c) := by
  have hentry : ∀ point ∈ List.replicate n ConnectPoint.entry, point = ConnectPoint.entry :=
    fun point h => (List.mem_replicate.mp h).2
  refine ⟨?_, ?_, ?_, rfl, Nat.zero_le _, ?_⟩
  · intro h
    have h0 : c.m_defaultEndpointBuilder = none := h
    simp [h0]
  · intro point hpoint h
    rw [hentry point hpoint] at h
    cases h
  · intro point hpoint h
    rw [hentry point hpoint] at h
    cases h
  · have hzero : (List.replicate n ConnectPoint.entry).countP ConnectPoint.isRegister = 0 := by
      rw [List.countP_eq_zero]
      intro point hpoint
      rw [hentry point hpoint]
      simp [ConnectPoint.isRegister]
    rw [hzero]
    exact Nat.le_refl _

end alexaSmartScreenSDK
